import Mathlib

/-!
Verification of impexp.c: value quoting, statement reassembly, query building,
export functions

A shallow embedding of `sql/odbc/impexp.c` (the SQLite import/export
extension shipped with db-5.0.21) together with the properties that its
specification states about it.

Conventions of the embedding

* A byte is a natural number (0..255); a text is a list of bytes.  A C
  string is represented by the bytes in front of its terminating NUL.
* An SQLite TEXT value may hold embedded NUL bytes; the C loops of the
  quoting functions stop at the first one, which is what `cstr` computes.
* Arithmetic on C `int` is arithmetic on `Int` reduced by `wrap32`.
* The relational engine is an external collaborator: what the code obtains
  from it (integer conversion of an argument, text of a number, statement
  completeness, statement execution) is a parameter of the model.
-/

namespace Impexp

/-! ## Bytes and texts -/

/-- A text is a list of bytes. -/
abbrev Text := List Nat

/-- The bytes of an ASCII literal. -/
def bytes (s : String) : Text := s.toList.map Char.toNat

/-- The C-string view of a buffer: the bytes in front of the first NUL. -/
def cstr (t : Text) : Text := t.takeWhile (fun c => c != 0)

/-- Two's complement reduction of an integer to the range of a 32-bit `int`. -/
def wrap32 (x : Int) : Int := (x + 2147483648) % 4294967296 - 2147483648

/-- The value of a byte read through a (signed) `char` pointer. -/
def schar (b : Nat) : Int := if b < 128 then (b : Int) else (b : Int) - 256

/-- The table `static const char xdigits[] = "0123456789ABCDEF"`. -/
def xdigits : Text := bytes "0123456789ABCDEF"

/-- The C expression `xdigits[(c >> 4) & 0x0F]` for a promoted character `c`
(arithmetic shift, two's complement mask). -/
def xdigit_hi (c : Int) : Nat := xdigits.getD ((c / 16) % 16).toNat 0

/-- The C expression `xdigits[c & 0x0F]` for a promoted character `c`. -/
def xdigit_lo (c : Int) : Nat := xdigits.getD (c % 16).toNat 0

/-! ## Values, results, engine -/

/-- An SQLite value; a REAL is carried as its IEEE-754 bit pattern and is
never interpreted here. -/
inductive Value
  | null
  | integer (i : Int)
  | real (bits : Nat)
  | text (t : Text)
  | blob (b : Text)
deriving DecidableEq, Repr

/-- What a scalar SQL function left in its `sqlite3_context`. -/
inductive Outcome
  /-- returned without calling any `sqlite3_result_*` -/
  | unset
  /-- set by `sqlite3_result_text` -/
  | text (t : Text)
  /-- set by `sqlite3_result_value` -/
  | value (v : Value)
  /-- set by `sqlite3_result_error` followed by `return` -/
  | error (msg : Text)
  /-- set by `sqlite3_result_error`, after which the code stores through the NULL
  pointer that `sqlite3_malloc` returned -/
  | error_then_null_store (msg : Text)
  /-- the code stored past the end of the buffer it had allocated -/
  | overrun
deriving DecidableEq, Repr

/-- The conversions the engine performs on behalf of the quoting functions. -/
structure Engine where
  /-- the function `sqlite3_value_int` -/
  value_int : Value → Int
  /-- the function `sqlite3_value_text` applied to an INTEGER or FLOAT value -/
  number_text : Value → Text

/-- The result of `sqlite3_value_text`: the stored bytes of a TEXT or BLOB
value, the engine's rendering of a number, and a NULL pointer for NULL. -/
def sqlite3_value_text (E : Engine) : Value → Option Text
  | .null => none
  | .text t => some t
  | .blob b => some b
  | v => some (E.number_text v)

/-- Whether `sqlite3_malloc(n)` returns a buffer: never for `n <= 0`,
otherwise when memory is available. -/
def sqlite3_malloc (avail : Bool) (n : Int) : Bool := decide (0 < n) && avail

/-- Hand a text built in a buffer of `size` bytes to `sqlite3_result_text`:
the bytes of the text and the terminating NUL must have fitted the buffer. -/
def store (size : Int) (p : Text) : Outcome :=
  if (p.length : Int) + 1 ≤ size then .text p else .overrun

/-! ## quote_func and quote_csv_func -/

/-- The loop `for (i = 0; i < nblob; i++)` writing two hex digits per byte. -/
def hex_loop : Text → Text
  | [] => []
  | b :: rest => xdigit_hi (schar b) :: xdigit_lo (schar b) :: hex_loop rest

/-- The copy loop of the TEXT cases: every byte is copied and the quote
character is written a second time after each of its occurrences. -/
def quote_loop (q : Nat) : Text → Text
  | [] => []
  | c :: rest => if c = q then c :: q :: quote_loop q rest else c :: quote_loop q rest

/-- The counting loop of the TEXT cases: `n` counts the quote characters. -/
def count_loop (q : Nat) : Text → Int
  | [] => 0
  | c :: rest => if c = q then count_loop q rest + 1 else count_loop q rest

/-- SQLITE_BLOB case of `quote_func`. -/
def quote_func_blob (avail : Bool) (mode : Int) (blob : Text) : Outcome :=
  let nblob : Int := blob.length
  if wrap32 (2 * nblob + 4) > 1000000000 then
    .error (bytes "value too large")
  else if !sqlite3_malloc avail (wrap32 (2 * nblob + 4)) then
    .error (bytes "out of memory")
  else
    let k0 : Text :=
      if mode = 1 then [39]
      else if mode = 2 then [48, 120]
      else if mode = 3 then [120, 39]
      else [88, 39]
    let k1 : Text := k0 ++ hex_loop blob
    let k2 : Text :=
      if mode = 1 then k1 ++ [39]
      else if mode = 2 then k1
      else if mode = 3 then k1 ++ [39]
      else k1 ++ [39]
    store (wrap32 (2 * nblob + 4)) k2

/-- SQLITE_TEXT case of `quote_func` (`q = 39`) and of `quote_csv_func`
(`q = 34`); `arg` is what `sqlite3_value_text` returned. -/
def quote_text_case (q : Nat) (avail : Bool) (arg : Option Text) : Outcome :=
  match arg with
  | none => .unset
  | some buf =>
    let s := cstr buf
    let i : Int := s.length
    let n : Int := count_loop q s
    if wrap32 (i + n + 3) > 1000000000 then
      .error (bytes "value too large")
    else if !sqlite3_malloc avail (wrap32 (i + n + 3)) then
      .error_then_null_store (bytes "out of memory")
    else
      store (wrap32 (i + n + 3)) (q :: quote_loop q s ++ [q])

/-- The function `quote_func`; `argv` holds the `argc` arguments. -/
def quote_func (E : Engine) (avail : Bool) (argv : List Value) : Outcome :=
  match argv with
  | [] => .unset
  | v :: rest =>
    let mode : Int := match rest with
      | [] => 0
      | m :: _ => E.value_int m
    match v with
    | .null => .text (bytes "NULL")
    | .integer _ => .value v
    | .real _ => .value v
    | .blob b => quote_func_blob avail mode b
    | .text _ => quote_text_case 39 avail (sqlite3_value_text E v)

/-- SQLITE_BLOB case of `quote_csv_func`. -/
def quote_csv_func_blob (avail : Bool) (blob : Text) : Outcome :=
  let nblob : Int := blob.length
  if wrap32 (2 * nblob + 4) > 1000000000 then
    .error (bytes "value too large")
  else if !sqlite3_malloc avail (wrap32 (2 * nblob + 4)) then
    .error (bytes "out of memory")
  else
    store (wrap32 (2 * nblob + 4)) ([34] ++ hex_loop blob ++ [34])

/-- The function `quote_csv_func`. -/
def quote_csv_func (E : Engine) (avail : Bool) (argv : List Value) : Outcome :=
  match argv with
  | [] => .unset
  | v :: _ =>
    match v with
    | .null => .text []
    | .integer _ => .value v
    | .real _ => .value v
    | .blob b => quote_csv_func_blob avail b
    | .text _ => quote_text_case 34 avail (sqlite3_value_text E v)

/-! ## Reading back what the quoting functions wrote -/

/-- The text in which every occurrence of `q` is written twice. -/
def doubled (q : Nat) (t : Text) : Text :=
  t.flatMap (fun c => if c = q then [q, q] else [c])

/-- Collapse each doubled `q`; a single `q` is not part of a quoted body. -/
def undouble (q : Nat) : Text → Option Text
  | [] => some []
  | c :: rest =>
    if c = q then
      match rest with
      | [] => none
      | d :: rest2 => if d = q then (undouble q rest2).map (fun r => q :: r) else none
    else (undouble q rest).map (fun r => c :: r)

/-- Strip the outer quote characters and collapse the doubled ones. -/
def unquote (q : Nat) (s : Text) : Option Text :=
  match s with
  | [] => none
  | c :: rest =>
    if c = q ∧ rest.getLast? = some q then undouble q rest.dropLast else none

/-- The value of an uppercase hex digit. -/
def hexval (c : Nat) : Option Nat :=
  if 48 ≤ c ∧ c ≤ 57 then some (c - 48)
  else if 65 ≤ c ∧ c ≤ 70 then some (c - 55)
  else none

/-- Decode pairs of uppercase hex digits, high nibble first. -/
def unhex : Text → Option Text
  | [] => some []
  | [_] => none
  | h :: l :: rest =>
    match hexval h, hexval l, unhex rest with
    | some a, some b, some r => some ((16 * a + b) :: r)
    | _, _, _ => none

/-- Two uppercase hex digits per byte, high nibble first. -/
def hex_upper (b : Text) : Text :=
  b.flatMap (fun x => [xdigits.getD (x / 16) 0, xdigits.getD (x % 16) 0])

/-- A concrete engine for evaluating examples: INTEGER arguments convert to
their 32-bit value and INTEGER values render in decimal.  The examples never
hand it a REAL. -/
def intEngine : Engine where
  value_int := fun v => match v with
    | .integer i => wrap32 i
    | _ => 0
  number_text := fun v => match v with
    | .integer i => bytes (toString i)
    | _ => []

/-! ## quote_xml_func -/

/-- The six stores `& # x H L ;` of a numeric entity for the character `c`. -/
def xml_numeric (c : Int) : Text := [38, 35, 120, xdigit_hi c, xdigit_lo c, 59]

/-- The loop of the SQLITE_BLOB case: one numeric entity per byte. -/
def xml_blob_loop : Text → Text
  | [] => []
  | b :: rest => xml_numeric (schar b) ++ xml_blob_loop rest

/-- The counting loop of the SQLITE_TEXT case: five extra bytes for each of
`"`, `'`, `<`, `>`, `&` and each byte below the space character. -/
def xml_count_loop : Text → Int
  | [] => 0
  | c :: rest =>
    if c = 34 ∨ c = 39 ∨ c = 60 ∨ c = 62 ∨ c = 38 ∨ c < 32 then xml_count_loop rest + 5
    else xml_count_loop rest

/-- The bytes the write loop of the SQLITE_TEXT case stores for one byte of
the argument (read through an `unsigned char` pointer). -/
def xml_text_step (addtype : Int) (c : Nat) : Text :=
  if c = 34 then [38, 113, 117, 111, 116, 59]
  else if c = 39 then [38, 97, 112, 111, 115, 59]
  else if c = 60 then [38, 108, 116, 59]
  else if c = 62 then [38, 103, 116, 59]
  else if c = 38 then [38, 97, 109, 112, 59]
  else if c < 32 then xml_numeric (c : Int)
  else if addtype < 0 ∧ c = 32 then xml_numeric (c : Int)
  else [c]

/-- The write loop of the SQLITE_TEXT case. -/
def xml_text_loop (addtype : Int) : Text → Text
  | [] => []
  | c :: rest => xml_text_step addtype c ++ xml_text_loop addtype rest

/-- SQLITE_INTEGER and SQLITE_FLOAT case of `quote_xml_func`; `v` is the
argument and `isFloat` tells which of the two types it has. -/
def quote_xml_number (E : Engine) (avail : Bool) (addtype : Int) (isFloat : Bool)
    (v : Value) : Outcome :=
  if addtype > 0 then
    if !sqlite3_malloc avail 128 then
      .error (bytes "out of memory")
    else
      let text : Text := if isFloat then bytes " TYPE=\"REAL\">" else bytes " TYPE=\"INTEGER\">"
      store 128 (text ++ cstr (E.number_text v))
  else
    .value v

/-- SQLITE_BLOB case of `quote_xml_func`. -/
def quote_xml_blob (avail : Bool) (addtype : Int) (blob : Text) : Outcome :=
  let nblob : Int := blob.length
  if wrap32 (6 * nblob + 34) > 1000000000 then
    .error (bytes "value too large")
  else if !sqlite3_malloc avail (wrap32 (6 * nblob + 34)) then
    .error (bytes "out of memory")
  else
    let text : Text := if addtype > 0 then bytes " TYPE=\"BLOB\">" else []
    store (wrap32 (6 * nblob + 34)) (text ++ xml_blob_loop blob)

/-- SQLITE_TEXT case of `quote_xml_func`; `arg` is what `sqlite3_value_text`
returned. -/
def quote_xml_text (avail : Bool) (addtype : Int) (arg : Option Text) : Outcome :=
  match arg with
  | none => .unset
  | some buf =>
    let s := cstr buf
    let i : Int := s.length
    let n : Int := xml_count_loop s
    if wrap32 (i + n + 32) > 1000000000 then
      .error (bytes "value too large")
    else if !sqlite3_malloc avail (wrap32 (i + n + 32)) then
      .error (bytes "out of memory")
    else
      let p : Text := if addtype > 0 then bytes " TYPE=\"TEXT\">" else []
      store (wrap32 (i + n + 32)) (p ++ xml_text_loop addtype s)

/-- The function `quote_xml_func`. -/
def quote_xml_func (E : Engine) (avail : Bool) (argv : List Value) : Outcome :=
  match argv with
  | [] => .unset
  | v :: rest =>
    let addtype : Int := match rest with
      | [] => 0
      | m :: _ => E.value_int m
    match v with
    | .null => if addtype > 0 then .text (bytes " TYPE=\"NULL\">") else .text []
    | .integer _ => quote_xml_number E avail addtype false v
    | .real _ => quote_xml_number E avail addtype true v
    | .blob b => quote_xml_blob avail addtype b
    | .text _ => quote_xml_text avail addtype (sqlite3_value_text E v)

/-! ## The XML escaping rule, and reading it back -/

/-- The numeric entity `&#xHH;` of a byte, two uppercase hex digits. -/
def xml_entity (c : Nat) : Text :=
  bytes "&#x" ++ [xdigits.getD (c / 16) 0, xdigits.getD (c % 16) 0] ++ bytes ";"

/-- The escape of one byte: the five named entities, a numeric entity for a
byte below 0x20 and, under strict spacing, for the space character. -/
def xml_escape_byte (strict : Bool) (c : Nat) : Text :=
  if c = 34 then bytes "&quot;"
  else if c = 39 then bytes "&apos;"
  else if c = 60 then bytes "&lt;"
  else if c = 62 then bytes "&gt;"
  else if c = 38 then bytes "&amp;"
  else if c < 32 then xml_entity c
  else if strict = true ∧ c = 32 then xml_entity c
  else [c]

/-- The escape of a text, byte by byte. -/
def xml_escape (strict : Bool) (t : Text) : Text := t.flatMap (xml_escape_byte strict)

/-- The table `static const char space_chars[] = " \f\n\r\t\v"`. -/
def space_chars : Text := [32, 12, 10, 13, 9, 11]

/-- The C expression `ISSPACE(c)`, that is `(c) && strchr(space_chars, (c)) != 0`. -/
def ISSPACE (c : Nat) : Bool := c != 0 && space_chars.contains c

/-- The function `ends_with_semicolon(str, n)`: step `n` down over trailing
space characters, then test `n > 0 && str[n - 1] == ';'`. -/
def ends_with_semicolon (str : Text) : Nat → Bool
  | 0 => false
  | n + 1 =>
    if ISSPACE (str.getD n 0) then ends_with_semicolon str n
    else str.getD n 0 == 59

/-- Where the scan of `all_whitespace` stands: in the `for` loop itself, in
the inner `while` that looks for the end of a block comment, or in the inner
`while` that looks for the end of a line comment. -/
inductive Scan
  | code
  | block
  | line
deriving DecidableEq, Repr

/-- The scan of `all_whitespace` from the current position; the end of the
list is the terminating NUL, so `str[1]` of a last byte is 0. -/
def all_whitespace_from : Scan → Text → Bool
  | .code, [] => true
  | .code, [c] => ISSPACE c
  | .code, c :: d :: rest =>
    if ISSPACE c then all_whitespace_from .code (d :: rest)
    else if c = 47 ∧ d = 42 then all_whitespace_from .block rest
    else if c = 45 ∧ d = 45 then all_whitespace_from .line rest
    else false
  | .block, [] => false
  | .block, [_] => false
  | .block, c :: d :: rest =>
    if c = 42 ∧ d = 47 then all_whitespace_from .code rest
    else all_whitespace_from .block (d :: rest)
  | .line, [] => true
  | .line, c :: rest =>
    if c = 10 then all_whitespace_from .code rest
    else all_whitespace_from .line rest

/-- The function `all_whitespace`. -/
def all_whitespace (str : Text) : Bool := all_whitespace_from .code str

/-- The variables of `process_input` between two lines, with the state of the
database and the log of what was handed to `sqlite3_exec`. -/
structure Session (σ : Type) where
  /-- the variable `sql`: `none` is the NULL pointer; `nsql` is the length of the text -/
  sql : Option Text
  /-- the variable `errors` -/
  errors : Nat
  /-- the database behind `db` -/
  db : σ
  /-- the texts handed to `sqlite3_exec`, each with `rc == SQLITE_OK` -/
  executed : List (Text × Bool)
  /-- how many times the statement buffer has been allocated or grown -/
  allocs : Nat
  /-- whether the loop has been left through `break` -/
  stopped : Bool

/-- The body of the `while (1)` loop of `process_input` for one line that
`one_input_line` delivered.  `complete` is `sqlite3_complete`, `exec` is
`sqlite3_exec` on the database, and `alloc k` tells whether the `k`-th
allocation of the statement buffer succeeds. -/
def process_line {σ : Type} (complete : Text → Bool) (exec : σ → Text → σ × Bool)
    (alloc : Nat → Bool) (s : Session σ) (line : Text) : Session σ :=
  if s.stopped then s
  else if (s.sql.isNone || s.sql == some []) && all_whitespace line then s
  else
    let grown : Session σ :=
      match s.sql with
      | none =>
        match line.dropWhile ISSPACE with
        | [] => s
        | _ :: _ =>
          if alloc s.allocs then
            { s with sql := some line, allocs := s.allocs + 1 }
          else
            { s with errors := s.errors + 1, allocs := s.allocs + 1, stopped := true }
      | some sql =>
        if alloc s.allocs then
          { s with sql := some (sql ++ [10] ++ line), allocs := s.allocs + 1 }
        else
          { s with errors := s.errors + 1, allocs := s.allocs + 1, stopped := true }
    if grown.stopped then grown
    else
      match grown.sql with
      | none => grown
      | some sql =>
        if ends_with_semicolon sql sql.length && complete sql then
          let r := exec grown.db sql
          { grown with
            sql := none
            db := r.1
            errors := if r.2 then grown.errors else grown.errors + 1
            executed := grown.executed ++ [(sql, r.2)] }
        else grown

/-- The `while (1)` loop of `process_input` over the lines of the input. -/
def process_loop {σ : Type} (complete : Text → Bool) (exec : σ → Text → σ × Bool)
    (alloc : Nat → Bool) (s : Session σ) (lines : List Text) : Session σ :=
  lines.foldl (process_line complete exec alloc) s

/-- The variables of `process_input` on entry: `sql = 0`, `errors = 0`. -/
def entry {σ : Type} (db : σ) : Session σ :=
  { sql := none, errors := 0, db := db, executed := [], allocs := 0, stopped := false }

/-- The function `process_input`: the loop from the initial variables, after
which a text still held in `sql` is freed; the C function returns the field
`errors` of the result. -/
def process_input {σ : Type} (complete : Text → Bool) (exec : σ → Text → σ × Bool)
    (alloc : Nat → Bool) (db : σ) (lines : List Text) : Session σ :=
  let s := process_loop complete exec alloc (entry db) lines
  { s with sql := none }

/-- A text ends in `;` once its trailing whitespace is trimmed. -/
def trimmed_ends_in_semicolon (t : Text) : Prop :=
  (t.reverse.dropWhile ISSPACE).head? = some 59

/-- A blank or comment-only line: whitespace, complete block comments, and
possibly a final line comment that runs to the end of the line. -/
inductive CommentOnly : Text → Prop
  | blank : CommentOnly []
  | space (c : Nat) (rest : Text) :
      ISSPACE c = true → CommentOnly rest → CommentOnly (c :: rest)
  | block (body rest : Text) :
      ¬ [42, 47] <:+: body → CommentOnly rest →
      CommentOnly ([47, 42] ++ body ++ [42, 47] ++ rest)
  | line (body : Text) : 10 ∉ body → CommentOnly ([45, 45] ++ body)

/-- Whether `process_input` discards the line: no text is held and the line
is blank or comment-only. -/
def skips {σ : Type} (s : Session σ) (line : Text) : Bool :=
  (s.sql.isNone || s.sql == some []) && all_whitespace line

/-- The accumulated text right after the line has been added: the line
itself, or the held text, a newline and the line. -/
def joined {σ : Type} (s : Session σ) (line : Text) : Text :=
  match s.sql with
  | none => line
  | some q => q ++ [10] ++ line

/-! ## The export side: append and the queries built by dump_cb -/

/-- The function `append(in, append, quote)`; `none` is the NULL pointer and
`avail` tells whether `sqlite3_realloc` succeeds. -/
def append (avail : Bool) (inp : Option Text) (app : Option Text) (quote : Nat) :
    Option Text :=
  let a : Text := app.getD []
  let i : Text := inp.getD []
  if quote = 0 ∧ a.length = 0 then inp
  else if !avail then none
  else if quote ≠ 0 then some (i ++ [quote] ++ quote_loop quote a ++ [quote])
  else some (i ++ a)

/-- The fields of `DUMP_DATA` that steer the building of the queries. -/
structure DUMP_DATA where
  /-- field `with_schema` -/
  with_schema : Int
  /-- field `quote_mode`: the blob dialect 0..3 for SQL, -1 for CSV, -2 for XML -/
  quote_mode : Int
  /-- field `where`: filter clause (SQL), row prefix (CSV), item tag (XML) -/
  where_ : Option Text
  /-- field `indent`: indentation (XML), header flag (CSV) -/
  indent : Int

/-- A row of `PRAGMA table_info`, as `sqlite3_column_text` and
`sqlite3_column_int` return its columns 1 to 5. -/
structure Column where
  /-- column 1, the name -/
  name : Option Text
  /-- column 2, the declared type -/
  type : Option Text
  /-- column 3 -/
  notnull : Int
  /-- column 4 -/
  dflt_value : Option Text
  /-- column 5 -/
  pk : Int

/-- The text `printf` writes for `%d`. -/
def fmt_d (n : Int) : Text := bytes (toString n)

/-- The C function `tolower` on ASCII. -/
def tolower (c : Nat) : Nat := if 65 ≤ c ∧ c ≤ 90 then c + 32 else c

/-- Whether `strncasecmp(s, pat, n) == 0` for a text `s` of at least `n` bytes. -/
def strncasecmp_eq (s pat : Text) (n : Nat) : Bool :=
  (s.take n).map tolower == (pat.take n).map tolower

/-- The test that leaves a column out of the CSV row: its declared type
starts with BLOB or BINARY, whatever the case of the letters. -/
def is_blob_type (type : Option Text) : Bool :=
  let t : Text := type.getD []
  (decide (t.length ≥ 4) && strncasecmp_eq t (bytes "BLOB") 4) ||
    (decide (t.length ≥ 6) && strncasecmp_eq t (bytes "BINARY") 6)

/-- The head of the SELECT: XML row wrapper, CSV row prefix, or the INSERT
literal with the quoted table name. -/
def select_head (dd : DUMP_DATA) (table : Text) : Option Text :=
  if dd.quote_mode < -1 then
    match dd.where_ with
    | some w =>
      let select := append true none (some (bytes "SELECT ")) 0
      let select := append true select (some (bytes "indent_xml(" ++ fmt_d dd.indent ++ bytes ")")) 0
      let select := append true select (some (bytes " || '<' || quote_xml(")) 0
      let select := append true select (some w) 34
      append true select (some (bytes ",-1) || '>\n' || ")) 0
    | none => append true none (some (bytes "SELECT ")) 0
  else if dd.quote_mode < 0 then
    match dd.where_ with
    | some w =>
      let select := append true none (some (bytes "SELECT quote_csv(")) 0
      let select := append true select (some w) 34
      append true select (some (bytes ") || ',' || ")) 0
    | none => append true none (some (bytes "SELECT ")) 0
  else
    let select :=
      if dd.with_schema ≠ 0 then append true none (some (bytes "SELECT 'INSERT INTO ' || ")) 0
      else append true none (some (bytes "SELECT 'INSERT OR REPLACE INTO ' || ")) 0
    match append true none (some table) 34 with
    | some tmp => append true select (some tmp) 39
    | none => select

/-- The loop over the rows of `table_info` that lists the column names. -/
def names_loop (select : Option Text) : List Column → Option Text
  | [] => select
  | c :: rest =>
    let select :=
      match append true none c.name 34 with
      | some tmp => append true select (some tmp) 39
      | none => select
    let select :=
      if !rest.isEmpty then append true select (some (bytes " || ',' || ")) 0 else select
    names_loop select rest

/-- The loop over the rows of `table_info` that builds the CSV header. -/
def hdr_loop (hdr : Option Text) : List Column → Option Text
  | [] => hdr
  | c :: rest =>
    let hdr := append true hdr (some (bytes "quote_csv(")) 0
    let hdr := append true hdr c.name 34
    let hdr :=
      if !rest.isEmpty then append true hdr (some (bytes ") || ',' || ")) 0
      else append true hdr (some (bytes ")")) 0
    hdr_loop hdr rest

/-- The store `select[tlen - 10] = 0` made when `tlen > 10`. -/
def cut10 (select : Option Text) : Option Text :=
  select.map (fun s => if s.length > 10 then s.take (s.length - 10) else s)

/-- The loop over the rows of `table_info` that projects the columns. -/
def values_loop (dd : DUMP_DATA) (select : Option Text) : List Column → Option Text
  | [] => select
  | c :: rest =>
    if dd.quote_mode < -1 then
      let select := append true select
        (some (bytes "indent_xml(" ++ fmt_d (dd.indent + 1) ++ bytes ")")) 0
      let select := append true select (some (bytes "|| '<' || quote_xml(")) 0
      let select := append true select c.name 39
      let select := append true select (some (bytes ",-1) || quote_xml(")) 0
      let select := append true select c.name 34
      let select := append true select (some (bytes ",1) || '</' || quote_xml(")) 0
      let select := append true select c.name 39
      let select := append true select (some (bytes ",-1) || '>\n'")) 0
      let select :=
        if !rest.isEmpty then append true select (some (bytes " || ")) 0
        else append true select (some (bytes " ")) 0
      values_loop dd select rest
    else if dd.quote_mode < 0 then
      if is_blob_type c.type then
        values_loop dd (if !rest.isEmpty then select else cut10 select) rest
      else
        let select := append true select (some (bytes "quote_csv(")) 0
        let select := append true select c.name 34
        let select :=
          if !rest.isEmpty then append true select (some (bytes ") || ',' || ")) 0
          else append true select (some (bytes ") ")) 0
        values_loop dd select rest
    else
      let select := append true select (some (bytes "quote_sql(")) 0
      let select := append true select c.name 34
      let select :=
        if dd.quote_mode ≠ 0 then append true select (some (bytes "," ++ fmt_d dd.quote_mode)) 0
        else select
      let select :=
        if !rest.isEmpty then append true select (some (bytes ") || ',' || ")) 0
        else append true select (some (bytes ") ")) 0
      values_loop dd select rest

/-- The two queries `dump_cb` builds for a table whose `table_info` rows are
`cols`, every allocation succeeding: the header query `hdr` (CSV with the
header flag only) and the data query `select`. -/
def dump_cb_queries (dd : DUMP_DATA) (table : Text) (cols : List Column) :
    Option Text × Option Text :=
  let select := select_head dd table
  let hdr : Option Text :=
    if dd.quote_mode < -1 then none
    else if dd.quote_mode < 0 then
      if dd.indent ≠ 0 then append true none select 0 else none
    else none
  let select :=
    if dd.quote_mode ≥ 0 ∧ dd.with_schema = 0 then
      let select := append true select (some (bytes " || ' (' || ")) 0
      let select := names_loop select cols
      append true select (some (bytes "|| ')'")) 0
    else select
  let hdr := if dd.quote_mode = -1 ∧ dd.indent ≠ 0 then hdr_loop hdr cols else hdr
  let select :=
    if dd.quote_mode ≥ 0 then append true select (some (bytes " || ' VALUES(' || ")) 0
    else select
  let select := values_loop dd select cols
  let select :=
    if dd.quote_mode ≥ 0 then append true select (some (bytes "|| ')' FROM ")) 0
    else
      match dd.where_ with
      | some w =>
        if dd.quote_mode < -1 then
          let select := append true select
            (some (bytes " || indent_xml(" ++ fmt_d dd.indent ++ bytes ")")) 0
          let select := append true select (some (bytes " || '</' || quote_xml(")) 0
          let select := append true select (some w) 34
          append true select (some (bytes ",-1) || '>\n' FROM ")) 0
        else append true select (some (bytes "FROM ")) 0
      | none => append true select (some (bytes "FROM ")) 0
  let select := append true select (some table) 34
  let select :=
    match dd.where_ with
    | some w =>
      if dd.quote_mode ≥ 0 then
        append true (append true select (some (bytes " ")) 0) (some w) 0
      else select
    | none => select
  (hdr, select)

/-! ## The shape of the generated queries -/

/-- A text wrapped in the quote character `q`, its occurrences of `q` doubled. -/
def quoted (q : Nat) (t : Text) : Text := [q] ++ doubled q t ++ [q]

/-- The texts `xs` with `sep` between each two of them. -/
def sep_join (sep : Text) : List Text → Text
  | [] => []
  | [x] => x
  | x :: y :: ys => x ++ sep ++ sep_join sep (y :: ys)

/-- The name of a column as a quoted identifier inside a string literal. -/
def name_literal (c : Column) : Text := quoted 39 (quoted 34 (c.name.getD []))

/-- The call of `quote_sql` on a column, with the dialect as second argument
when it is not zero. -/
def quote_sql_call (d : Int) (c : Column) : Text :=
  bytes "quote_sql(" ++ quoted 34 (c.name.getD []) ++
    (if d ≠ 0 then bytes "," ++ fmt_d d else []) ++ bytes ")"

/-- Two columns `a INTEGER`, `b TEXT` for concrete evaluation. -/
def sample_columns : List Column :=
  [{ name := some (bytes "a"), type := some (bytes "INTEGER"), notnull := 0,
     dflt_value := none, pk := 0 },
   { name := some (bytes "b"), type := some (bytes "TEXT"), notnull := 0,
     dflt_value := none, pk := 0 }]

/-! ## The CSV queries -/

/-- The call of `quote_csv` on a double-quoted name. -/
def quote_csv_token (x : Text) : Text := bytes "quote_csv(" ++ quoted 34 x ++ bytes ")"

/-- The call of `quote_csv` on a column. -/
def quote_csv_call (c : Column) : Text := quote_csv_token (c.name.getD [])

/-- The head of the CSV queries: `SELECT` and, when a row prefix is
configured, the call of `quote_csv` on it and the separator. -/
def csv_head (dd : DUMP_DATA) : Text :=
  match dd.where_ with
  | some w => bytes "SELECT " ++ quote_csv_token w ++ bytes " || ',' || "
  | none => bytes "SELECT "

/-- Two columns `a INTEGER`, `b BLOB` for concrete evaluation. -/
def sample_blob_columns : List Column :=
  [{ name := some (bytes "a"), type := some (bytes "INTEGER"), notnull := 0,
     dflt_value := none, pk := 0 },
   { name := some (bytes "b"), type := some (bytes "BLOB"), notnull := 0,
     dflt_value := none, pk := 0 }]

/-! ## What the engine yields for a CSV query -/

/-- Modelled from the spec: the SQL engine's operator `||`, which is not part
of `impexp.c`, takes from the result of a quoting function the text set as
result or, for a number handed through, the engine's text of the number. -/
def result_text (E : Engine) : Outcome → Option Text
  | .text t => some t
  | .value v => sqlite3_value_text E v
  | _ => none

/-- Modelled from the spec: the SQL engine's evaluation of a query, which is
not part of `impexp.c`; the line it yields for the projection
`quote_csv("x1") || ',' || ... || quote_csv("xn")` on one row is the encodings
of the projected values joined by `,`; `read x` is the value the engine gives
the double-quoted token `x` on that row. -/
def csv_line (E : Engine) (read : Text → Value) : List Text → Option Text
  | [] => some []
  | [x] => result_text E (quote_csv_func E true [read x])
  | x :: y :: rest =>
    match result_text E (quote_csv_func E true [read x]), csv_line E read (y :: rest) with
    | some a, some b => some (a ++ [44] ++ b)
    | _, _ => none

/-- Modelled from the spec: the SQL engine's name resolution, which is not
part of `impexp.c`; the value of the double-quoted token `x` on a row given by
its column names and cells is the cell of the column named `x` (the row-prefix
column of the CSV projection) and, when no column has that name, the token
taken as a string (the documented example, and every token of the header
query, which has no FROM clause). -/
def row_token (row : List (Text × Value)) (x : Text) : Value :=
  (row.lookup x).getD (Value.text x)

/-! ## The XML query -/

/-- The result code `SQLITE_OK`. -/
def SQLITE_OK : Int := 0

/-- The result code `SQLITE_NOMEM`. -/
def SQLITE_NOMEM : Int := 7

/-- The result code `SQLITE_CORRUPT`. -/
def SQLITE_CORRUPT : Int := 11

/-- What the engine answers when one query is prepared, stepped to its end
and finalized. -/
structure QueryResult where
  /-- the result of `sqlite3_prepare` -/
  prepare_rc : Int
  /-- whether `sqlite3_prepare` handed out a statement -/
  stmt : Bool
  /-- column 0 of the rows for which `sqlite3_step` returned `SQLITE_ROW` -/
  rows : List Text
  /-- the result of `sqlite3_finalize` -/
  finalize_rc : Int

/-- What the engine answers to `PRAGMA table_info`: the rows, and the result
of `sqlite3_reset` and `sqlite3_finalize` on the statement. -/
structure TableInfo where
  /-- the rows for which `sqlite3_step` returned `SQLITE_ROW` -/
  rows : List Column
  /-- the result of `sqlite3_reset` and of `sqlite3_finalize` -/
  rc : Int

/-- The part of `DUMP_DATA` that a dump changes, with the log of the queries
handed to the engine by `table_dump`. -/
structure Dump where
  /-- the bytes written to `out`, every write succeeding -/
  out : Text
  /-- field `nlines` -/
  nlines : Int
  /-- the queries prepared by `table_dump`, oldest first -/
  executed : List Text
deriving DecidableEq, Repr

/-- The body of the `while (rc == SQLITE_ROW)` loop of `table_dump` for each
row; `fputs_ret` is what `fputs` returns for a write that succeeds (the C
standard says no more than non-negative). -/
def table_dump_rows (fputs_ret : Int) (dd : DUMP_DATA) (st : Dump) : List Text → Dump
  | [] => st
  | row :: rest =>
    let st : Dump :=
      { st with
        out := st.out ++ row
        nlines := if fputs_ret > 0 then st.nlines + 1 else st.nlines }
    let st : Dump := if dd.quote_mode ≥ 0 then { st with out := st.out ++ [59] } else st
    let st : Dump := if dd.quote_mode = -1 then { st with out := st.out ++ [13] } else st
    let st : Dump := if dd.quote_mode ≥ -1 then { st with out := st.out ++ [10] } else st
    table_dump_rows fputs_ret dd st rest

/-- The function `table_dump(dd, 0, fmt, query, ...)`; `q` is the query after
formatting, `none` when `fmt` is set and `sqlite3_vmprintf` fails, and
`engine k q` is the answer of the engine to `q` as the query number `k`. -/
def table_dump (fputs_ret : Int) (engine : Nat → Text → QueryResult) (dd : DUMP_DATA)
    (st : Dump) (q : Option Text) : Dump × Int :=
  match q with
  | none => (st, SQLITE_NOMEM)
  | some query =>
    let r := engine st.executed.length query
    let st : Dump := { st with executed := st.executed ++ [query] }
    if r.prepare_rc ≠ SQLITE_OK ∨ r.stmt = false then (st, r.prepare_rc)
    else (table_dump_rows fputs_ret dd st r.rows, r.finalize_rc)

/-- The text of the `PRAGMA table_info` statement that `dump_cb` prepares. -/
def table_info_query (table : Text) : Option Text :=
  let table_info := append true none (some (bytes "PRAGMA table_info(")) 0
  let table_info := append true table_info (some table) 34
  append true table_info (some (bytes ");")) 0

/-- The loop of the virtual table branch over the rows of `table_info`. -/
def creat_loop (creat : Option Text) : List Column → Option Text
  | [] => creat
  | c :: rest =>
    let creat := append true creat c.name 34
    let creat := append true creat (some (bytes " ")) 0
    let creat :=
      match c.type with
      | some p => if p ≠ [] then append true creat (some p) 0 else creat
      | none => creat
    let creat := if c.pk ≠ 0 then append true creat (some (bytes " PRIMARY KEY")) 0 else creat
    let creat :=
      if c.notnull ≠ 0 then append true creat (some (bytes " NOT NULL")) 0 else creat
    let creat :=
      match c.dflt_value with
      | some p =>
        if p ≠ [] then
          append true (append true creat (some (bytes " DEFAULT ")) 0) (some p) 0
        else creat
      | none => creat
    let creat := if !rest.isEmpty then append true creat (some (bytes ",")) 0 else creat
    creat_loop creat rest

/-- The first part of `dump_cb` (after the test of `nargs`), which writes
the schema statement; the second component is the value of an early
`return`, `none` when the function goes on to the data. -/
def dump_cb_schema (fputs_ret : Int) (table_info : Text → Option TableInfo)
    (dd : DUMP_DATA) (st : Dump) (table sql : Text) : Dump × Option Int :=
  if table = bytes "sqlite_sequence" then
    if dd.with_schema ≠ 0 then
      ({ st with
          out := st.out ++ bytes "DELETE FROM sqlite_sequence;\n"
          nlines := if fputs_ret ≥ 0 then st.nlines + 1 else st.nlines }, none)
    else (st, none)
  else if table = bytes "sqlite_stat1" then
    if dd.with_schema ≠ 0 then
      ({ st with
          out := st.out ++ bytes "ANALYZE sqlite_master;\n"
          nlines := if fputs_ret ≥ 0 then st.nlines + 1 else st.nlines }, none)
    else (st, none)
  else if table.take 7 = bytes "sqlite_" then (st, some 0)
  else if sql.take 20 = bytes "CREATE VIRTUAL TABLE" then
    if dd.with_schema ≠ 0 then
      match (table_info_query table).bind table_info with
      | none => (st, some 1)
      | some info =>
        let creat := append true none (some table) 34
        let creat := append true creat (some (bytes "(")) 0
        let creat := creat_loop creat info.rows
        if info.rc ≠ SQLITE_OK then (st, some 1)
        else
          match append true creat (some (bytes ")")) 0 with
          | some text =>
            ({ st with
                out := st.out ++ bytes "CREATE TABLE " ++ text ++ bytes ";\n"
                nlines := st.nlines + 1 }, none)
          | none => (st, none)
    else (st, none)
  else
    if dd.with_schema ≠ 0 then
      ({ st with out := st.out ++ sql ++ bytes ";\n", nlines := st.nlines + 1 }, none)
    else (st, none)

/-- The second part of `dump_cb`, which builds the queries of a table (or,
in CSV and XML mode, of a view) and hands them to `table_dump`; every
allocation succeeds, so that `select` is not NULL. -/
def dump_cb_data (fputs_ret : Int) (table_info : Text → Option TableInfo)
    (engine : Nat → Text → QueryResult) (dd : DUMP_DATA) (st : Dump)
    (table type : Text) : Dump × Int :=
  if type = bytes "table" ∨ (dd.quote_mode < 0 ∧ type = bytes "view") then
    match (table_info_query table).bind table_info with
    | none => (st, 1)
    | some info =>
      if info.rc ≠ SQLITE_OK then (st, 1)
      else
        let queries := dump_cb_queries dd table info.rows
        let st : Dump :=
          match queries.1 with
          | some hdr => (table_dump fputs_ret engine dd st (some hdr)).1
          | none => st
        match queries.2 with
        | none => (st, 0)
        | some select =>
          let r := table_dump fputs_ret engine dd st (some select)
          if r.2 = SQLITE_CORRUPT then
            let select := append true (some select) (some (bytes " ORDER BY rowid DESC")) 0
            ((table_dump fputs_ret engine dd r.1 select).1, 0)
          else (r.1, 0)
  else (st, 0)

/-- The function `dump_cb`, the callback of `sqlite3_exec` on the catalog
query, for the catalog row `(table, type, sql)`. -/
def dump_cb (fputs_ret : Int) (table_info : Text → Option TableInfo)
    (engine : Nat → Text → QueryResult) (dd : DUMP_DATA) (st : Dump) (nargs : Int)
    (table type sql : Text) : Dump × Int :=
  if nargs ≠ 3 then (st, 1)
  else
    match dump_cb_schema fputs_ret table_info dd st table sql with
    | (st, some rc) => (st, rc)
    | (st, none) => dump_cb_data fputs_ret table_info engine dd st table type

/-- The result code `table_dump` returns for an answer of the engine: that of
`sqlite3_prepare` when it fails or hands out no statement, and otherwise that
of `sqlite3_finalize`. -/
def query_rc (r : QueryResult) : Int :=
  if r.prepare_rc ≠ SQLITE_OK ∨ r.stmt = false then r.prepare_rc else r.finalize_rc

/-- The definition of one column in the CREATE TABLE statement written for
a virtual table. -/
def column_def (c : Column) : Text :=
  quoted 34 (c.name.getD []) ++ bytes " " ++ c.type.getD []
    ++ (if c.pk ≠ 0 then bytes " PRIMARY KEY" else [])
    ++ (if c.notnull ≠ 0 then bytes " NOT NULL" else [])
    ++ (if c.dflt_value.getD [] ≠ [] then bytes " DEFAULT " ++ c.dflt_value.getD [] else [])

/-- The answer of `PRAGMA table_info(sqlite_sequence)`, for concrete
evaluation. -/
def sequence_info : TableInfo :=
  { rows :=
      [{ name := some (bytes "name"), type := some [], notnull := 0, dflt_value := none,
         pk := 0 },
       { name := some (bytes "seq"), type := some [], notnull := 0, dflt_value := none,
         pk := 0 }]
    rc := 0 }

/-- An answer of `PRAGMA table_info` with the two sample columns, for
concrete evaluation. -/
def sample_table_info : Text → Option TableInfo :=
  fun _ => some { rows := sample_columns, rc := 0 }

/-- An engine, for concrete evaluation, whose first query ends with
`SQLITE_CORRUPT` and whose later queries return the one row `row`. -/
def corrupt_once : Nat → Text → QueryResult :=
  fun k _ =>
    if k = 0 then { prepare_rc := 0, stmt := true, rows := [], finalize_rc := 11 }
    else { prepare_rc := 0, stmt := true, rows := [bytes "row"], finalize_rc := 0 }

/-! ## quote_xml_str -/

/-- The bytes `quote_xml_str` writes to the output for one character of the
string: the buffer `buf` of the numeric case is filled with `&`, `&`, `#`,
`x`, two hex digits and `;`. -/
def quote_xml_str_step (c : Nat) : Text :=
  if c = 34 then bytes "&quot;"
  else if c = 39 then bytes "&apos;"
  else if c = 60 then bytes "&lt;"
  else if c = 62 then bytes "&gt;"
  else if c = 38 then bytes "&amp;"
  else if c ≤ 32 then [38, 38, 35, 120, xdigit_hi (schar c), xdigit_lo (schar c), 59]
  else [c]

/-- The loop `for (i = 0; str[i]; i++)` of `quote_xml_str`. -/
def quote_xml_str_loop : Text → Text
  | [] => []
  | c :: rest => quote_xml_str_step c ++ quote_xml_str_loop rest

/-- The function `quote_xml_str`: the bytes it writes to the output; `none`
is the NULL pointer. -/
def quote_xml_str (str : Option Text) : Text :=
  match str with
  | none => []
  | some s => quote_xml_str_loop (cstr s)

/-! ## The texts that all_whitespace accepts -/

/-- A text of whitespace and comments only: whitespace characters, complete
block comments, line comments that run to the end of their line (the newline
that ends the line is where the scan resumes), and possibly a last line
comment that runs to the end of the text. -/
inductive WhitespaceText : Text → Prop
  | blank : WhitespaceText []
  | space (c : Nat) (rest : Text) :
      ISSPACE c = true → WhitespaceText rest → WhitespaceText (c :: rest)
  | block (body rest : Text) :
      ¬ [42, 47] <:+: body → WhitespaceText rest →
      WhitespaceText ([47, 42] ++ body ++ [42, 47] ++ rest)
  | line (body rest : Text) :
      10 ∉ body → WhitespaceText rest → WhitespaceText ([45, 45] ++ body ++ [10] ++ rest)
  | last (body : Text) : 10 ∉ body → WhitespaceText ([45, 45] ++ body)

/-! ## schema_dump and the export functions -/

/-- The result code `SQLITE_ABORT`. -/
def SQLITE_ABORT : Int := 4

/-- What the engine answers to a catalog query run through `sqlite3_exec`:
the rows `(name, type, sql)` it hands to the callback, and the result code
when no callback stops the query. -/
structure CatalogResult where
  /-- the rows handed to the callback, three columns each -/
  rows : List (Text × Text × Text)
  /-- the result of `sqlite3_exec` when every callback returned 0 -/
  rc : Int

/-- The state of an export: what the dump has written and counted, and the
log of the catalog queries handed to `sqlite3_exec` by `schema_dump`. -/
structure Walk where
  /-- the output, the field `nlines` and the queries of `table_dump` -/
  dump : Dump
  /-- the catalog queries handed to `sqlite3_exec`, oldest first -/
  catalog : List Text
deriving DecidableEq, Repr

/-- The callback `dump_cb` on the rows of a catalog query, as `sqlite3_exec`
calls it: row after row, until a call returns non-zero; the second component
tells whether a call did. -/
def exec_rows (fputs_ret : Int) (table_info : Text → Option TableInfo)
    (engine : Nat → Text → QueryResult) (dd : DUMP_DATA) (st : Dump) :
    List (Text × Text × Text) → Dump × Bool
  | [] => (st, false)
  | row :: rest =>
    let r := dump_cb fputs_ret table_info engine dd st 3 row.1 row.2.1 row.2.2
    if r.2 ≠ 0 then (r.1, true) else exec_rows fputs_ret table_info engine dd r.1 rest

/-- The call `sqlite3_exec(dd->db, q, dump_cb, dd, errp)` on the answer of
the engine to `q`: a callback that returns non-zero ends the query with
`SQLITE_ABORT`. -/
def exec_dump_cb (fputs_ret : Int) (table_info : Text → Option TableInfo)
    (engine : Nat → Text → QueryResult) (dd : DUMP_DATA) (st : Dump)
    (res : CatalogResult) : Dump × Int :=
  let r := exec_rows fputs_ret table_info engine dd st res.rows
  if r.2 then (r.1, SQLITE_ABORT) else (r.1, res.rc)

/-- The function `schema_dump(dd, 0, query, ...)`; `q` is the query after
formatting, `none` when `sqlite3_vmprintf` fails, and `catalog k q` is the
answer of the engine to `q` as the catalog query number `k`.  The formatting
of the retry succeeds. -/
def schema_dump (fputs_ret : Int) (table_info : Text → Option TableInfo)
    (engine : Nat → Text → QueryResult) (catalog : Nat → Text → CatalogResult)
    (dd : DUMP_DATA) (w : Walk) (q : Option Text) : Walk × Int :=
  match q with
  | none => (w, SQLITE_NOMEM)
  | some q =>
    let r := exec_dump_cb fputs_ret table_info engine dd w.dump (catalog w.catalog.length q)
    let w : Walk := { dump := r.1, catalog := w.catalog ++ [q] }
    if r.2 = SQLITE_CORRUPT then
      let q2 := q ++ bytes " ORDER BY rowid DESC"
      let r2 := exec_dump_cb fputs_ret table_info engine dd w.dump (catalog w.catalog.length q2)
      ({ dump := r2.1, catalog := w.catalog ++ [q2] }, r2.2)
    else (w, r.2)

/-- The conversion `%Q` of `sqlite3_mprintf`: the C string as an SQL string
literal, its single quotes doubled, and `NULL` for a NULL pointer. -/
def fmt_Q (s : Option Text) : Text :=
  match s with
  | none => bytes "NULL"
  | some t => quoted 39 (cstr t)

/-- The variable `filename` of the export functions after the test of
`args[0]`: NULL when there is no argument or the argument is NULL. -/
def filename_arg (E : Engine) (args : List Value) : Option Text :=
  match args with
  | [] => none
  | v :: _ => if v = Value.null then none else sqlite3_value_text E v

/-- The state of an export on entry: `dd->nlines = -1`, nothing written. -/
def walk_entry : Walk := { dump := { out := [], nlines := -1, executed := [] }, catalog := [] }

/-- The fields of `dd` that `export_func` sets from `mode`, with the filter
clause `wh` of the current table: `with_schema = !(mode & 1)`,
`quote_mode = (mode >> 8) & 3`, `indent = 0`. -/
def export_dd (mode : Int) (wh : Option Text) : DUMP_DATA :=
  { with_schema := if mode % 2 ≠ 0 then 0 else 1
    quote_mode := (mode / 256) % 4
    where_ := wh
    indent := 0 }

/-- The table names and filter clauses the loop
`for (i = 2; i < nargs; i += (mode & 2) ? 2 : 1)` of `export_func` visits;
`step2` is `mode & 2` and the list holds `args[2]` onwards.  The filter clause
is `args[i + 1]` when `mode & 2` is set and `i + 1 < nargs`. -/
def export_jobs (E : Engine) (step2 : Bool) : List Value → List (Option Text × Option Text)
  | [] => []
  | [t] => [(sqlite3_value_text E t, none)]
  | t :: x :: rest =>
    if step2 then
      (sqlite3_value_text E t, (sqlite3_value_text E x).map cstr) :: export_jobs E step2 rest
    else (sqlite3_value_text E t, none) :: export_jobs E step2 (x :: rest)

/-- The body of the loop of `export_func` for one table name. -/
def export_table (fputs_ret : Int) (table_info : Text → Option TableInfo)
    (engine : Nat → Text → QueryResult) (catalog : Nat → Text → CatalogResult)
    (mode : Int) (w : Walk) (job : Option Text × Option Text) : Walk :=
  let dd := export_dd mode job.2
  let w := (schema_dump fputs_ret table_info engine catalog dd w
    (some (bytes "SELECT name, type, sql FROM sqlite_master WHERE tbl_name LIKE "
      ++ fmt_Q job.1 ++ bytes " AND type = 'table' AND sql NOT NULL"))).1
  if dd.with_schema ≠ 0 then
    { w with
      dump := (table_dump fputs_ret engine dd w.dump
        (some (bytes ("SELECT sql FROM sqlite_master WHERE sql NOT NULL" ++
            " AND type IN ('index','trigger','view') AND tbl_name LIKE ")
          ++ fmt_Q job.1))).1 }
  else w

/-- The dump of all tables that `export_func` runs when no table name is
given. -/
def export_all (fputs_ret : Int) (table_info : Text → Option TableInfo)
    (engine : Nat → Text → QueryResult) (catalog : Nat → Text → CatalogResult)
    (mode : Int) (w : Walk) : Walk :=
  let dd := export_dd mode none
  let w := (schema_dump fputs_ret table_info engine catalog dd w
    (some (bytes "SELECT name, type, sql FROM sqlite_master WHERE sql NOT NULL AND type = 'table'"))).1
  if dd.with_schema ≠ 0 then
    { w with
      dump := (table_dump fputs_ret engine dd w.dump
        (some (bytes ("SELECT sql FROM sqlite_master WHERE sql NOT NULL" ++
          " AND type IN ('index','trigger','view')")))).1 }
  else w

/-- The function `export_func` (SQL function `export_sql`) on the arguments
`args`; `fopen` tells whether the destination opens, and the value handed to
`sqlite3_result_int` is the field `nlines` of the result. -/
def export_func (E : Engine) (fopen : Text → Bool) (fputs_ret : Int)
    (table_info : Text → Option TableInfo) (engine : Nat → Text → QueryResult)
    (catalog : Nat → Text → CatalogResult) (args : List Value) : Walk :=
  match filename_arg E args with
  | none => walk_entry
  | some filename =>
    if !fopen (cstr filename) then walk_entry
    else
      let mode : Int :=
        match args with
        | _ :: m :: _ => E.value_int m
        | _ => 0
      let w : Walk :=
        { dump :=
            { out := bytes "BEGIN TRANSACTION;\n"
              nlines := if fputs_ret ≥ 0 then 1 else 0
              executed := [] }
          catalog := [] }
      let w : Walk :=
        if args.length ≤ 2 then export_all fputs_ret table_info engine catalog mode w
        else
          (export_jobs E (decide ((mode / 2) % 2 ≠ 0)) (args.drop 2)).foldl
            (export_table fputs_ret table_info engine catalog mode) w
      { w with
        dump :=
          { w.dump with
            out := w.dump.out ++ bytes "COMMIT;\n"
            nlines := if fputs_ret ≥ 0 then w.dump.nlines + 1 else w.dump.nlines } }

/-- The argument as a C string pointer that is NULL for an SQL NULL and for
the empty string: `dd->where` and `root` after their tests. -/
def nonempty_arg (E : Engine) (v : Value) : Option Text :=
  if v = Value.null then none
  else
    match sqlite3_value_text E v with
    | some p => if cstr p = [] then none else some (cstr p)
    | none => none

/-- The variable `schema` after its tests: `sqlite_master` for an SQL NULL
and for the empty string. -/
def schema_arg (E : Engine) (v : Value) : Text :=
  match nonempty_arg E v with
  | some s => s
  | none => bytes "sqlite_master"

/-- The function `indent`: the bytes it writes, `dd->indent` spaces. -/
def indent (n : Int) : Text := List.replicate n.toNat 32

/-- One write stage of a dump to the next: the line count does not go down
and the output is extended. -/
def Grows (a b : Dump) : Prop := a.nlines ≤ b.nlines ∧ a.out <+: b.out

/-- Whether an export can start: a filename is given and the destination
opens. -/
def opens (E : Engine) (fopen : Text → Bool) (args : List Value) : Bool :=
  match filename_arg E args with
  | none => false
  | some filename => fopen (cstr filename)

/-- A catalog, for concrete evaluation, whose every query returns the one
table `A` with the definition `CREATE TABLE A(a,b)`. -/
def sample_catalog : Nat → Text → CatalogResult :=
  fun _ _ => { rows := [(bytes "A", bytes "table", bytes "CREATE TABLE A(a,b)")], rc := 0 }

/-- An engine, for concrete evaluation, whose first query returns the one
row `row` and whose later queries return no row. -/
def rows_once (row : Text) : Nat → Text → QueryResult :=
  fun k _ =>
    if k = 0 then { prepare_rc := 0, stmt := true, rows := [row], finalize_rc := 0 }
    else { prepare_rc := 0, stmt := true, rows := [], finalize_rc := 0 }

/-- The loop `for (i = 3; i <= nargs - 4; i += 4)` of `export_xml_func` on
`args[3]` onwards: one round for each full group of root tag, item tag, table
name and schema; `ind` is `dd->indent` between two rounds, `dd->indent++` and
`dd->indent--` are `int` arithmetic, and `mprintf` formats the catalog query
as in `export_csv_loop`. -/
def export_xml_loop (E : Engine) (mprintf : Text → List (Option Text) → Option Text)
    (fputs_ret : Int) (table_info : Text → Option TableInfo)
    (engine : Nat → Text → QueryResult) (catalog : Nat → Text → CatalogResult)
    (ind : Int) (w : Walk) : List Value → Walk
  | root :: item :: table :: schema :: rest =>
    let root := nonempty_arg E root
    let w : Walk :=
      match root with
      | some r =>
        { w with
          dump :=
            { w.dump with
              out := w.dump.out ++ indent ind ++ bytes "<" ++ quote_xml_str (some r)
                ++ bytes ">\n" } }
      | none => w
    let ind1 : Int := if root.isSome then wrap32 (ind + 1) else ind
    let dd : DUMP_DATA :=
      { with_schema := 0, quote_mode := -2, where_ := nonempty_arg E item, indent := ind1 }
    let w : Walk :=
      match mprintf
          (bytes ("SELECT name, type, sql FROM %s WHERE tbl_name LIKE %%Q AND" ++
            " (type = 'table' OR type = 'view') AND sql NOT NULL"))
          [some (schema_arg E schema)] with
      | some sql =>
        (schema_dump fputs_ret table_info engine catalog dd w
          (mprintf sql [(sqlite3_value_text E table).map cstr])).1
      | none => w
    let ind2 : Int := if root.isSome then wrap32 (ind1 - 1) else ind1
    let w : Walk :=
      match root with
      | some r =>
        { w with
          dump :=
            { w.dump with
              out := w.dump.out ++ indent ind2 ++ bytes "</" ++ quote_xml_str (some r)
                ++ bytes ">\n" } }
      | none => w
    export_xml_loop E mprintf fputs_ret table_info engine catalog ind2 w rest
  | _ => w

/-- The function `export_xml_func` (SQL function `export_xml`); the bytes
written are the same whether the destination is opened for writing or for
appending. -/
def export_xml_func (E : Engine) (mprintf : Text → List (Option Text) → Option Text)
    (fopen : Text → Bool) (fputs_ret : Int)
    (table_info : Text → Option TableInfo) (engine : Nat → Text → QueryResult)
    (catalog : Nat → Text → CatalogResult) (args : List Value) : Walk :=
  match filename_arg E args with
  | none => walk_entry
  | some filename =>
    let ind : Int :=
      match args with
      | _ :: _ :: n :: _ =>
        if n ≠ Value.null then (if E.value_int n < 0 then 0 else E.value_int n) else 0
      | _ => 0
    if !fopen (cstr filename) then walk_entry
    else
      export_xml_loop E mprintf fputs_ret table_info engine catalog ind
        { dump := { out := [], nlines := 0, executed := [] }, catalog := [] } (args.drop 3)

/-- The text a formatter of the family of `sqlite3_mprintf` builds, for
concrete evaluation: `%%` gives `%`, `%s` the next argument (nothing for
NULL), `%Q` the next argument as an SQL string literal, and the text ends at
any other conversion. -/
def sample_format : Text → List (Option Text) → Text
  | [], _ => []
  | [c], _ => if c = 37 then [] else [c]
  | c :: d :: rest, args =>
    if c = 37 then
      if d = 37 then 37 :: sample_format rest args
      else if d = 115 then (args.head?.join.getD []) ++ sample_format rest args.tail
      else if d = 81 then fmt_Q args.head?.join ++ sample_format rest args.tail
      else []
    else c :: sample_format (d :: rest) args

/-- A formatter for concrete evaluation, which never fails. -/
def sample_mprintf : Text → List (Option Text) → Option Text :=
  fun fmt args => some (sample_format fmt args)

/-! ## export_sql on a table, in closed form -/

/-- The data query of SQL-script mode for the mode argument of `export_sql`,
in closed form: INSERT literal by bit 0 of `mode`, the column-name list when
the schema is left out, `quote_sql` with the dialect `(mode >> 8) & 3` as
second argument when it is not 0, and the filter clause. -/
def export_select (mode : Int) (wh : Option Text) (table : Text) (cols : List Column) : Text :=
  (if mode % 2 = 0 then bytes "SELECT 'INSERT INTO ' || "
    else bytes "SELECT 'INSERT OR REPLACE INTO ' || ")
  ++ quoted 39 (quoted 34 table)
  ++ (if mode % 2 = 0 then []
      else bytes " || ' (' || " ++ sep_join (bytes " || ',' || ") (cols.map name_literal)
          ++ bytes "|| ')'")
  ++ bytes " || ' VALUES(' || "
  ++ sep_join (bytes " || ',' || ") (cols.map (quote_sql_call ((mode / 256) % 4)))
  ++ bytes " || ')' FROM " ++ quoted 34 table
  ++ (match wh with
      | some w => bytes " " ++ w
      | none => [])

/-- The lines of SQL-script mode for the rows of a query: each row, `;` and
newline. -/
def sql_rows (rows : List Text) : Text := rows.flatMap (fun r => r ++ bytes ";\n")

/-! ## What the engine yields for the data query of SQL-script mode -/

/-- Modelled from the spec: the SQL engine's evaluation of the projected
calls `quote_sql("c")` on the cells of one row, which is not part of
`impexp.c`; each cell gives the text that `quote_func` returns for it. -/
def cell_texts (E : Engine) : List Value → Option (List Text)
  | [] => some []
  | v :: rest =>
    match result_text E (quote_func E true [v]), cell_texts E rest with
    | some a, some b => some (a :: b)
    | _, _ => none

/-- Modelled from the spec: the SQL engine's evaluation of the data query of
SQL-script mode with schema, which is not part of `impexp.c`; the line it
yields for `'INSERT INTO ' || '"t"' || ' VALUES(' || quote_sql("c1") || ','
|| ... || ')'` on one row is the INSERT statement with the encodings of the
cells joined by `,`. -/
def sql_line (E : Engine) (table : Text) (cells : List Value) : Option Text :=
  match cell_texts E cells with
  | some encs =>
    some (bytes "INSERT INTO " ++ quoted 34 table ++ bytes " VALUES("
      ++ sep_join (bytes ",") encs ++ bytes ")")
  | none => none

/-! ## indent_xml_func -/

/-- The local `dd0` of an entry point at the time the walker starts: a field
that no statement of the entry point has assigned is `none`. -/
structure DUMP_DATA0 where
  /-- field `with_schema` -/
  with_schema : Option Int
  /-- field `quote_mode` -/
  quote_mode : Option Int
  /-- field `where` -/
  where_ : Option (Option Text)
  /-- field `indent` -/
  indent : Option Int
deriving DecidableEq, Repr

/-- The fields `impexp_export_sql` has assigned when it calls `schema_dump`:
`dd->where` (0, or the argument after the table name) and
`dd->with_schema = !(mode & 1)`; no statement of the function assigns
`dd->quote_mode` or `dd->indent`. -/
def impexp_export_sql_dd0 (mode : Int) (wh : Option Text) : DUMP_DATA0 :=
  { with_schema := some (if mode % 2 ≠ 0 then 0 else 1)
    quote_mode := none
    where_ := some wh
    indent := none }

/-- The fields `export_func` has assigned when it calls `schema_dump`:
`dd->where`, `dd->indent = 0`, `dd->with_schema = !(mode & 1)` and
`dd->quote_mode = (mode >> 8) & 3`. -/
def export_func_dd0 (mode : Int) (wh : Option Text) : DUMP_DATA0 :=
  { with_schema := some (if mode % 2 ≠ 0 then 0 else 1)
    quote_mode := some ((mode / 256) % 4)
    where_ := some wh
    indent := some 0 }

/-- What `dump_cb` and `table_dump` find in the fields of `dd0`: the value
assigned, and for a field never assigned the indeterminate value that the
memory of the local happens to hold, given by `stack`. -/
def dd0_read (stack : DUMP_DATA) (d : DUMP_DATA0) : DUMP_DATA :=
  { with_schema := d.with_schema.getD stack.with_schema
    quote_mode := d.quote_mode.getD stack.quote_mode
    where_ := d.where_.getD stack.where_
    indent := d.indent.getD stack.indent }

/-- The table names and filter clauses the loop `while (table)` of
`impexp_export_sql` visits; the list holds the variable arguments, `none`
being the NULL pointer that ends them, and `step2` is `mode & 2`. -/
def impexp_jobs (step2 : Bool) : List (Option Text) → List (Text × Option Text)
  | [] => []
  | none :: _ => []
  | [some t] => [(t, none)]
  | some t :: x :: rest =>
    if step2 then (t, x) :: impexp_jobs step2 rest
    else (t, none) :: impexp_jobs step2 (x :: rest)

/-- The body of the loop of `impexp_export_sql` for one table name. -/
def impexp_table (fputs_ret : Int) (table_info : Text → Option TableInfo)
    (engine : Nat → Text → QueryResult) (catalog : Nat → Text → CatalogResult)
    (stack : DUMP_DATA) (mode : Int) (w : Walk) (job : Text × Option Text) : Walk :=
  let dd := dd0_read stack (impexp_export_sql_dd0 mode job.2)
  let w := (schema_dump fputs_ret table_info engine catalog dd w
    (some (bytes "SELECT name, type, sql FROM sqlite_master WHERE tbl_name LIKE "
      ++ fmt_Q (some job.1) ++ bytes " AND type = 'table' AND sql NOT NULL"))).1
  if dd.with_schema ≠ 0 then
    { w with
      dump := (table_dump fputs_ret engine dd w.dump
        (some (bytes ("SELECT sql FROM sqlite_master WHERE sql NOT NULL" ++
            " AND type IN ('index','trigger','view') AND tbl_name LIKE ")
          ++ fmt_Q (some job.1)))).1 }
  else w

/-- The dump of all tables that `impexp_export_sql` runs when the first
variable argument is NULL. -/
def impexp_all (fputs_ret : Int) (table_info : Text → Option TableInfo)
    (engine : Nat → Text → QueryResult) (catalog : Nat → Text → CatalogResult)
    (stack : DUMP_DATA) (mode : Int) (w : Walk) : Walk :=
  let dd := dd0_read stack (impexp_export_sql_dd0 mode none)
  let w := (schema_dump fputs_ret table_info engine catalog dd w
    (some (bytes "SELECT name, type, sql FROM sqlite_master WHERE sql NOT NULL AND type = 'table'"))).1
  if dd.with_schema ≠ 0 then
    { w with
      dump := (table_dump fputs_ret engine dd w.dump
        (some (bytes ("SELECT sql FROM sqlite_master WHERE sql NOT NULL" ++
          " AND type IN ('index','trigger','view')")))).1 }
  else w

/-- The function `impexp_export_sql(db, filename, mode, ...)`; `db` tells
whether the handle is not NULL, `va` holds the variable arguments, and the
value returned is the field `nlines` of the result (0 for a NULL handle). -/
def impexp_export_sql (stack : DUMP_DATA) (db : Bool) (fopen : Text → Bool) (fputs_ret : Int)
    (table_info : Text → Option TableInfo) (engine : Nat → Text → QueryResult)
    (catalog : Nat → Text → CatalogResult) (filename : Option Text) (mode : Int)
    (va : List (Option Text)) : Walk :=
  if !db then { dump := { out := [], nlines := 0, executed := [] }, catalog := [] }
  else
    match filename with
    | none => walk_entry
    | some filename =>
      if !fopen (cstr filename) then walk_entry
      else
        let w : Walk :=
          { dump :=
              { out := bytes "BEGIN TRANSACTION;\n"
                nlines := if fputs_ret ≥ 0 then 1 else 0
                executed := [] }
            catalog := [] }
        let w : Walk :=
          match va with
          | [] => impexp_all fputs_ret table_info engine catalog stack mode w
          | none :: _ => impexp_all fputs_ret table_info engine catalog stack mode w
          | some _ :: _ =>
            (impexp_jobs (decide ((mode / 2) % 2 ≠ 0)) va).foldl
              (impexp_table fputs_ret table_info engine catalog stack mode) w
        { w with
          dump :=
            { w.dump with
              out := w.dump.out ++ bytes "COMMIT;\n"
              nlines := if fputs_ret ≥ 0 then w.dump.nlines + 1 else w.dump.nlines } }

/-! # Properties -/

/-! ## Lemmas on the quoting loops -/

theorem cstr_of_no_nul (t : Text) (h : 0 ∉ t) : cstr t = t := by
  unfold cstr
  rw [List.takeWhile_eq_self_iff]
  intro c hc
  have : c ≠ 0 := fun e => h (e ▸ hc)
  simpa using this

theorem count_loop_eq (q : Nat) (t : Text) : count_loop q t = (t.count q : Int) := by
  induction t with
  | nil => simp [count_loop]
  | cons c rest ih =>
    by_cases h : c = q
    · subst h; simp [count_loop, ih]
    · have h2 : ¬ (c == q) = true := by simpa using h
      simp [count_loop, h, ih, List.count_cons, h2]

theorem quote_loop_eq (q : Nat) (t : Text) : quote_loop q t = doubled q t := by
  induction t with
  | nil => simp [quote_loop, doubled]
  | cons c rest ih =>
    by_cases h : c = q
    · subst h; simp [quote_loop, doubled, ih]
    · simp [quote_loop, doubled, h, ih]

theorem doubled_cons (q c : Nat) (t : Text) :
    doubled q (c :: t) = (if c = q then [q, q] else [c]) ++ doubled q t := by
  simp [doubled]

theorem undouble_cons_ne (q c : Nat) (s : Text) (h : c ≠ q) :
    undouble q (c :: s) = (undouble q s).map (fun r => c :: r) := by
  cases s <;> simp [undouble, h]

theorem undouble_cons_cons (q : Nat) (s : Text) :
    undouble q (q :: q :: s) = (undouble q s).map (fun r => q :: r) := by
  simp [undouble]

theorem undouble_doubled (q : Nat) (t : Text) : undouble q (doubled q t) = some t := by
  induction t with
  | nil => simp [doubled, undouble]
  | cons c rest ih =>
    rw [doubled_cons]
    by_cases h : c = q
    · subst h
      simp only [if_true, List.cons_append, List.nil_append]
      rw [undouble_cons_cons, ih]; rfl
    · simp only [if_neg h, List.cons_append, List.nil_append]
      rw [undouble_cons_ne q c _ h, ih]; rfl

theorem unquote_doubled (q : Nat) (t : Text) :
    unquote q ([q] ++ doubled q t ++ [q]) = some t := by
  simp [unquote, undouble_doubled]

theorem doubled_length (q : Nat) (t : Text) :
    (doubled q t).length = t.length + t.count q := by
  induction t with
  | nil => simp [doubled]
  | cons c rest ih =>
    rw [doubled_cons]
    by_cases h : c = q
    · subst h
      simp only [if_true, List.length_append, List.length_cons, List.length_nil, ih,
        List.count_cons_self]
      omega
    · have hc : List.count q (c :: rest) = List.count q rest :=
        List.count_cons_of_ne (fun e => h e.symm) rest
      simp only [if_neg h, List.length_append, List.length_cons, List.length_nil, ih, hc]
      omega

theorem wrap32_of_range (x : Int) (h0 : 0 ≤ x) (h1 : x ≤ 2147483647) : wrap32 x = x := by
  unfold wrap32
  omega

theorem sqlite3_malloc_pos (n : Int) (h : 0 < n) : sqlite3_malloc true n = true := by
  simp [sqlite3_malloc, h]

theorem store_fits (size : Int) (p : Text) (h : (p.length : Int) + 1 ≤ size) :
    store size p = Outcome.text p := if_pos h

theorem quote_text_case_ok (q : Nat) (t : Text) (h0 : 0 ∉ t)
    (hsz : t.length + t.count q + 3 ≤ 1000000000) :
    quote_text_case q true (some t) = Outcome.text ([q] ++ doubled q t ++ [q]) := by
  have hw : wrap32 ((t.length : Int) + (t.count q : Int) + 3)
      = (t.length : Int) + (t.count q : Int) + 3 := wrap32_of_range _ (by omega) (by omega)
  have hm := sqlite3_malloc_pos ((t.length : Int) + (t.count q : Int) + 3) (by omega)
  have hs := store_fits ((t.length : Int) + (t.count q : Int) + 3) (q :: doubled q t ++ [q])
    (by simp only [List.length_cons, List.length_append, List.length_nil, doubled_length]
        omega)
  simp only [quote_text_case, cstr_of_no_nul t h0, count_loop_eq, quote_loop_eq, hw, hm, hs]
  rw [if_neg (by omega)]
  simp

/-! ## Claims on the SQL and CSV quoting functions -/

/-- Claim C1: for a NUL-free text below the size ceiling, `quote_sql` returns
a single quote, the text with every single quote doubled, and a single quote;
`quote_csv` does the same with the double quote; and in both cases stripping
the outer quotes and collapsing the doubled ones gives back the text. -/
theorem C1_quote_text_round_trip (E : Engine) (t : Text) (rest : List Value)
    (hnul : 0 ∉ t)
    (hsql : t.length + t.count 39 + 3 ≤ 1000000000)
    (hcsv : t.length + t.count 34 + 3 ≤ 1000000000) :
    quote_func E true (Value.text t :: rest)
        = Outcome.text ([39] ++ doubled 39 t ++ [39]) ∧
      quote_csv_func E true (Value.text t :: rest)
        = Outcome.text ([34] ++ doubled 34 t ++ [34]) ∧
      unquote 39 ([39] ++ doubled 39 t ++ [39]) = some t ∧
      unquote 34 ([34] ++ doubled 34 t ++ [34]) = some t := by
  refine ⟨?_, ?_, unquote_doubled 39 t, unquote_doubled 34 t⟩
  · simp only [quote_func, sqlite3_value_text]
    exact quote_text_case_ok 39 t hnul hsql
  · simp only [quote_csv_func, sqlite3_value_text]
    exact quote_text_case_ok 34 t hnul hcsv

/-- Instance of C1 at the text `it's "so"`. -/
theorem C1_quote_text_round_trip_witness :
    (0 ∉ bytes "it's \"so\"" ∧
      (bytes "it's \"so\"").length + (bytes "it's \"so\"").count 39 + 3 ≤ 1000000000 ∧
      (bytes "it's \"so\"").length + (bytes "it's \"so\"").count 34 + 3 ≤ 1000000000) ∧
    (quote_func intEngine true [Value.text (bytes "it's \"so\"")]
        = Outcome.text ([39] ++ doubled 39 (bytes "it's \"so\"") ++ [39]) ∧
      quote_csv_func intEngine true [Value.text (bytes "it's \"so\"")]
        = Outcome.text ([34] ++ doubled 34 (bytes "it's \"so\"") ++ [34]) ∧
      unquote 39 ([39] ++ doubled 39 (bytes "it's \"so\"") ++ [39]) = some (bytes "it's \"so\"") ∧
      unquote 34 ([34] ++ doubled 34 (bytes "it's \"so\"") ++ [34]) = some (bytes "it's \"so\"")) :=
  ⟨⟨by decide, by decide, by decide⟩,
    C1_quote_text_round_trip intEngine (bytes "it's \"so\"") [] (by decide) (by decide) (by decide)⟩

/-! ## Hex encoding of blobs -/

theorem xdigit_hi_schar (x : Nat) (hx : x < 256) :
    xdigit_hi (schar x) = xdigits.getD (x / 16) 0 := by
  have h : ((schar x / 16) % 16).toNat = x / 16 := by
    unfold schar
    split <;> omega
  simp only [xdigit_hi, h]

theorem xdigit_lo_schar (x : Nat) :
    xdigit_lo (schar x) = xdigits.getD (x % 16) 0 := by
  have h : (schar x % 16).toNat = x % 16 := by
    unfold schar
    split <;> omega
  simp only [xdigit_lo, h]

theorem hex_loop_eq (b : Text) (hb : ∀ x ∈ b, x < 256) : hex_loop b = hex_upper b := by
  induction b with
  | nil => simp [hex_loop, hex_upper]
  | cons x rest ih =>
    have hx : x < 256 := hb x (List.mem_cons_self _ _)
    have hr : ∀ y ∈ rest, y < 256 := fun y hy => hb y (List.mem_cons_of_mem _ hy)
    simp only [hex_loop, xdigit_hi_schar x hx, xdigit_lo_schar x, ih hr]
    simp [hex_upper]

theorem hex_upper_length (b : Text) : (hex_upper b).length = 2 * b.length := by
  induction b with
  | nil => simp [hex_upper]
  | cons x rest ih =>
    have : hex_upper (x :: rest)
        = xdigits.getD (x / 16) 0 :: xdigits.getD (x % 16) 0 :: hex_upper rest := by
      simp [hex_upper]
    rw [this]
    simp only [List.length_cons, ih]
    omega

theorem xdigits_getD_mem (n : Nat) (hn : n < 16) :
    xdigits.getD n 0 ∈ bytes "0123456789ABCDEF" := by
  interval_cases n <;> decide

theorem hexval_xdigits (n : Nat) (hn : n < 16) : hexval (xdigits.getD n 0) = some n := by
  interval_cases n <;> decide

theorem hex_upper_charset (b : Text) (hb : ∀ x ∈ b, x < 256) :
    ∀ c ∈ hex_upper b, c ∈ bytes "0123456789ABCDEF" := by
  intro c hc
  simp only [hex_upper, List.mem_flatMap, List.mem_cons, List.mem_singleton,
    List.not_mem_nil, or_false] at hc
  obtain ⟨x, hxb, hx⟩ := hc
  have hx256 : x < 256 := hb x hxb
  rcases hx with h | h
  · rw [h]; exact xdigits_getD_mem _ (by omega)
  · rw [h]; exact xdigits_getD_mem _ (by omega)

theorem unhex_hex_upper (b : Text) (hb : ∀ x ∈ b, x < 256) : unhex (hex_upper b) = some b := by
  induction b with
  | nil => simp [hex_upper, unhex]
  | cons x rest ih =>
    have hx : x < 256 := hb x (List.mem_cons_self _ _)
    have hr : ∀ y ∈ rest, y < 256 := fun y hy => hb y (List.mem_cons_of_mem _ hy)
    have e : hex_upper (x :: rest)
        = xdigits.getD (x / 16) 0 :: xdigits.getD (x % 16) 0 :: hex_upper rest := by
      simp [hex_upper]
    rw [e, unhex, hexval_xdigits _ (by omega), hexval_xdigits _ (by omega), ih hr]
    simp only [Option.some.injEq, List.cons.injEq, and_true]
    omega

theorem store_hex_wrapped (pre post b : Text) (h : pre.length + post.length ≤ 3) :
    store (2 * (b.length : Int) + 4) (pre ++ hex_upper b ++ post)
      = Outcome.text (pre ++ hex_upper b ++ post) := by
  apply store_fits
  simp only [List.length_append, hex_upper_length]
  omega

theorem quote_func_blob_ok (mode : Int) (b : Text) (hb : ∀ x ∈ b, x < 256)
    (hsz : 2 * b.length + 4 ≤ 1000000000) :
    quote_func_blob true mode b = Outcome.text (
      (if mode = 1 then [39] else if mode = 2 then [48, 120]
        else if mode = 3 then [120, 39] else [88, 39])
      ++ hex_upper b ++ (if mode = 2 then [] else [39])) := by
  have hw : wrap32 (2 * (b.length : Int) + 4) = 2 * (b.length : Int) + 4 :=
    wrap32_of_range _ (by omega) (by omega)
  have hm := sqlite3_malloc_pos (2 * (b.length : Int) + 4) (by omega)
  simp only [quote_func_blob, hex_loop_eq b hb, hw, hm]
  rw [if_neg (by omega)]
  simp only [Bool.not_true, Bool.false_eq_true, if_false]
  by_cases m1 : mode = 1
  · simp only [m1, if_true, if_false, show ¬ ((1 : Int) = 2) by decide]
    exact store_hex_wrapped [39] [39] b (by decide)
  · by_cases m2 : mode = 2
    · simp only [m2, if_true, if_false, show ¬ ((2 : Int) = 1) by decide]
      have e := store_hex_wrapped [48, 120] [] b (by decide)
      simp only [List.append_nil] at e
      simpa using e
    · by_cases m3 : mode = 3
      · simp only [m3, if_true, if_false, show ¬ ((3 : Int) = 1) by decide,
          show ¬ ((3 : Int) = 2) by decide]
        exact store_hex_wrapped [120, 39] [39] b (by decide)
      · simp only [m1, m2, m3, if_false]
        exact store_hex_wrapped [88, 39] [39] b (by decide)

/-- Claim C2: for a blob below the size ceiling, `quote_sql` returns the
dialect wrapper around two uppercase hex digits per byte, high nibble first:
`X'..'` without a dialect argument and for a dialect other than 1, 2, 3,
`'..'` for 1 (Oracle), `0x..` without closing quote for 2 (SQL Server) and
`x'..'` for 3 (MySQL); the hex body has `2 * len` characters, all of them in
`0-9A-F`, and decodes back to the blob. -/
theorem C2_quote_blob_dialects (E : Engine) (b : Text) (m : Value) (more : List Value)
    (hb : ∀ x ∈ b, x < 256) (hsz : 2 * b.length + 4 ≤ 1000000000) :
    quote_func E true [Value.blob b]
        = Outcome.text (bytes "X'" ++ hex_upper b ++ bytes "'") ∧
      (E.value_int m = 1 → quote_func E true (Value.blob b :: m :: more)
        = Outcome.text (bytes "'" ++ hex_upper b ++ bytes "'")) ∧
      (E.value_int m = 2 → quote_func E true (Value.blob b :: m :: more)
        = Outcome.text (bytes "0x" ++ hex_upper b)) ∧
      (E.value_int m = 3 → quote_func E true (Value.blob b :: m :: more)
        = Outcome.text (bytes "x'" ++ hex_upper b ++ bytes "'")) ∧
      (E.value_int m ≠ 1 → E.value_int m ≠ 2 → E.value_int m ≠ 3 →
        quote_func E true (Value.blob b :: m :: more)
          = Outcome.text (bytes "X'" ++ hex_upper b ++ bytes "'")) ∧
      (hex_upper b).length = 2 * b.length ∧
      (∀ c ∈ hex_upper b, c ∈ bytes "0123456789ABCDEF") ∧
      unhex (hex_upper b) = some b := by
  have hX : bytes "X'" = [88, 39] := by decide
  have hq : bytes "'" = [39] := by decide
  have h0 : bytes "0x" = [48, 120] := by decide
  have hx : bytes "x'" = [120, 39] := by decide
  refine ⟨?_, ?_, ?_, ?_, ?_, hex_upper_length b, hex_upper_charset b hb, unhex_hex_upper b hb⟩
  · simp only [quote_func, quote_func_blob_ok 0 b hb hsz, hX, hq]
    simp
  · intro h
    simp only [quote_func, h, quote_func_blob_ok 1 b hb hsz, hq]
    simp
  · intro h
    simp only [quote_func, h, quote_func_blob_ok 2 b hb hsz, h0]
    simp
  · intro h
    simp only [quote_func, h, quote_func_blob_ok 3 b hb hsz, hx, hq]
    simp
  · intro h1 h2 h3
    simp only [quote_func, quote_func_blob_ok (E.value_int m) b hb hsz, hX, hq]
    simp [h1, h2, h3]

/-! ## XML escaping -/

theorem xml_numeric_eq (c : Nat) (hc : c < 256) : xml_numeric (c : Int) = xml_entity c := by
  have h1 : (((c : Int) / 16) % 16).toNat = c / 16 := by omega
  have h2 : ((c : Int) % 16).toNat = c % 16 := by omega
  have e1 : bytes "&#x" = [38, 35, 120] := by decide
  have e2 : bytes ";" = [59] := by decide
  simp [xml_numeric, xml_entity, xdigit_hi, xdigit_lo, h1, h2, e1, e2]

theorem xml_text_step_eq (addtype : Int) (c : Nat) :
    xml_text_step addtype c = xml_escape_byte (decide (addtype < 0)) c := by
  have e1 : bytes "&quot;" = [38, 113, 117, 111, 116, 59] := by decide
  have e2 : bytes "&apos;" = [38, 97, 112, 111, 115, 59] := by decide
  have e3 : bytes "&lt;" = [38, 108, 116, 59] := by decide
  have e4 : bytes "&gt;" = [38, 103, 116, 59] := by decide
  have e5 : bytes "&amp;" = [38, 97, 109, 112, 59] := by decide
  unfold xml_text_step xml_escape_byte
  simp only [e1, e2, e3, e4, e5, decide_eq_true_eq]
  split_ifs with h1 h2 h3 h4 h5 h6 h7 <;> first
    | rfl
    | exact xml_numeric_eq c (by omega)

theorem xml_escape_cons (strict : Bool) (c : Nat) (t : Text) :
    xml_escape strict (c :: t) = xml_escape_byte strict c ++ xml_escape strict t := by
  simp [xml_escape]

theorem xml_text_loop_eq (addtype : Int) (t : Text) :
    xml_text_loop addtype t = xml_escape (decide (addtype < 0)) t := by
  induction t with
  | nil => simp [xml_text_loop, xml_escape]
  | cons c rest ih => rw [xml_text_loop, xml_escape_cons, ih, xml_text_step_eq]

theorem xml_entity_length (c : Nat) : (xml_entity c).length = 6 := by
  have e1 : bytes "&#x" = [38, 35, 120] := by decide
  have e2 : bytes ";" = [59] := by decide
  simp [xml_entity, e1, e2]

theorem xml_escape_byte_length_le (strict : Bool) (c : Nat) :
    ((xml_escape_byte strict c).length : Int)
      ≤ 1 + (if c = 34 ∨ c = 39 ∨ c = 60 ∨ c = 62 ∨ c = 38 ∨ c < 32 then 5 else 0)
          + (if strict = true ∧ c = 32 then 5 else 0) := by
  have e1 : bytes "&quot;" = [38, 113, 117, 111, 116, 59] := by decide
  have e2 : bytes "&apos;" = [38, 97, 112, 111, 115, 59] := by decide
  have e3 : bytes "&lt;" = [38, 108, 116, 59] := by decide
  have e4 : bytes "&gt;" = [38, 103, 116, 59] := by decide
  have e5 : bytes "&amp;" = [38, 97, 109, 112, 59] := by decide
  unfold xml_escape_byte
  simp only [e1, e2, e3, e4, e5]
  split_ifs <;> simp_all [xml_entity_length]

theorem xml_escape_length_le (strict : Bool) (t : Text) :
    ((xml_escape strict t).length : Int)
      ≤ t.length + xml_count_loop t + (if strict = true then 5 * (t.count 32 : Int) else 0) := by
  induction t with
  | nil => simp [xml_escape, xml_count_loop]
  | cons c rest ih =>
    have hb := xml_escape_byte_length_le strict c
    rw [xml_escape_cons]
    simp only [List.length_append, List.length_cons, xml_count_loop, Nat.cast_add,
      Nat.cast_one, List.count_cons]
    cases strict
    · simp only [Bool.false_eq_true, if_false, false_and] at hb ih ⊢
      split_ifs at hb ⊢ <;> omega
    · simp only [if_true, true_and] at hb ih ⊢
      by_cases h32 : c = 32
      · subst h32
        simp only [beq_self_eq_true, if_true, Nat.cast_add, Nat.cast_one] at hb ⊢
        split_ifs at hb ⊢ <;> omega
      · have hne : ¬ (c == 32) = true := by simpa using h32
        simp only [h32, hne, if_false, Nat.cast_add, Nat.cast_zero] at hb ⊢
        split_ifs at hb ⊢ <;> omega

theorem xml_count_loop_nonneg (t : Text) : 0 ≤ xml_count_loop t := by
  induction t with
  | nil => simp [xml_count_loop]
  | cons c rest ih =>
    simp only [xml_count_loop]
    split_ifs <;> omega

theorem xml_blob_loop_length (b : Text) : (xml_blob_loop b).length = 6 * b.length := by
  induction b with
  | nil => simp [xml_blob_loop]
  | cons x rest ih =>
    simp only [xml_blob_loop, xml_numeric, List.length_append, List.length_cons,
      List.length_nil, ih]
    omega

theorem store_text_cases (size : Int) (p : Text) :
    store size p = Outcome.text p ∨ store size p = Outcome.overrun := by
  unfold store
  split_ifs
  · exact Or.inl rfl
  · exact Or.inr rfl

/-- Claim C3, at the input where the code departs from it: for the text of
seven spaces and tag mode -1 the escape is seven numeric entities, 42 bytes,
but the counting loop of `quote_xml_func` does not count the space, so the
buffer has 7 + 0 + 32 = 39 bytes and the write loop stores 43 bytes into it. -/
theorem C3_quote_xml_strict_spaces_overrun :
    quote_xml_func intEngine true [Value.text (bytes "       "), Value.integer (-1)]
        = Outcome.overrun ∧
      xml_escape true (bytes "       ")
        = bytes "&#x20;&#x20;&#x20;&#x20;&#x20;&#x20;&#x20;" ∧
      wrap32 (((cstr (bytes "       ")).length : Int)
        + xml_count_loop (cstr (bytes "       ")) + 32) = 39 ∧
      (xml_text_loop (-1) (cstr (bytes "       "))).length + 1 = 43 := by
  decide

theorem ends_with_semicolon_prefix (l r : Text) :
    ∀ n, n ≤ l.length → ends_with_semicolon (l ++ r) n = ends_with_semicolon l n := by
  intro n
  induction n with
  | zero => intro _; rfl
  | succ k ih =>
    intro hk
    have hg : (l ++ r).getD k 0 = l.getD k 0 := by
      simp only [List.getD_eq_getElem?_getD]
      rw [List.getElem?_append_left (by omega)]
    simp only [ends_with_semicolon, hg, ih (by omega)]

theorem ends_with_semicolon_snoc (l : Text) (c : Nat) :
    ends_with_semicolon (l ++ [c]) (l ++ [c]).length
      = if ISSPACE c then ends_with_semicolon l l.length else c == 59 := by
  have hg : (l ++ [c]).getD l.length 0 = c := by
    simp [List.getD_eq_getElem?_getD]
  have hl : (l ++ [c]).length = l.length + 1 := by simp
  rw [hl, ends_with_semicolon, hg, ends_with_semicolon_prefix l [c] l.length (le_refl _)]

theorem ends_with_semicolon_iff (t : Text) :
    ends_with_semicolon t t.length = true ↔ trimmed_ends_in_semicolon t := by
  induction t using List.reverseRecOn with
  | nil => simp [ends_with_semicolon, trimmed_ends_in_semicolon]
  | append_singleton l c ih =>
    rw [ends_with_semicolon_snoc]
    unfold trimmed_ends_in_semicolon at ih ⊢
    simp only [List.reverse_append, List.reverse_cons, List.reverse_nil, List.nil_append,
      List.singleton_append, List.dropWhile_cons]
    by_cases hc : ISSPACE c = true
    · simp only [hc, if_true]
      exact ih
    · simp only [hc, Bool.false_eq_true, if_false, List.head?_cons, Option.some.injEq]
      simp

theorem all_whitespace_from_line (body : Text) (h : 10 ∉ body) :
    all_whitespace_from .line body = true := by
  induction body with
  | nil => rfl
  | cons c rest ih =>
    have hc : c ≠ 10 := fun e => h (e ▸ List.mem_cons_self _ _)
    have hr : 10 ∉ rest := fun m => h (List.mem_cons_of_mem _ m)
    simp only [all_whitespace_from, hc, if_false, ih hr]

theorem all_whitespace_from_block (body rest : Text) (h : ¬ [42, 47] <:+: body) :
    all_whitespace_from .block (body ++ [42, 47] ++ rest)
      = all_whitespace_from .code rest := by
  induction body with
  | nil => simp [all_whitespace_from]
  | cons c b ih =>
    have hb : ¬ [42, 47] <:+: b := fun m => h (m.trans (List.suffix_cons c b).isInfix)
    cases b with
    | nil =>
      have hc : ¬ (c = 42 ∧ (42 : Nat) = 47) := by simp
      simp [all_whitespace_from]
    | cons d b2 =>
      have hcd : ¬ (c = 42 ∧ d = 47) := by
        rintro ⟨rfl, rfl⟩
        exact h ⟨[], b2, by simp⟩
      have e : (c :: d :: b2) ++ [42, 47] ++ rest = c :: d :: (b2 ++ [42, 47] ++ rest) := by
        simp
      rw [e, all_whitespace_from, if_neg hcd]
      have e2 : d :: (b2 ++ [42, 47] ++ rest) = (d :: b2) ++ [42, 47] ++ rest := by simp
      rw [e2]
      exact ih hb

theorem all_whitespace_of_comment_only (l : Text) (h : CommentOnly l) :
    all_whitespace l = true := by
  unfold all_whitespace
  induction h with
  | blank => rfl
  | space c rest hc _ ih =>
    cases rest with
    | nil => simpa [all_whitespace_from] using hc
    | cons d r => simp only [all_whitespace_from, hc, if_true, ih]
  | block body rest hb _ ih =>
    have e : [47, 42] ++ body ++ [42, 47] ++ rest = 47 :: 42 :: (body ++ [42, 47] ++ rest) := by
      simp
    have h47 : ISSPACE 47 = false := by decide
    rw [e, all_whitespace_from]
    simp only [h47, Bool.false_eq_true, if_false, and_self, if_true]
    rw [all_whitespace_from_block body rest hb]
    exact ih
  | line body hb =>
    have e : [45, 45] ++ body = 45 :: 45 :: body := by simp
    have h45 : ISSPACE 45 = false := by decide
    rw [e, all_whitespace_from]
    simp only [h45, Bool.false_eq_true, if_false, and_self, if_true]
    have : ¬ ((45 : Nat) = 47 ∧ (45 : Nat) = 42) := by decide
    simp only [this, if_false]
    exact all_whitespace_from_line body hb

theorem all_whitespace_of_spaces (l : Text) (h : l.dropWhile ISSPACE = []) :
    all_whitespace l = true := by
  apply all_whitespace_of_comment_only
  induction l with
  | nil => exact CommentOnly.blank
  | cons c rest ih =>
    by_cases hc : ISSPACE c = true
    · simp only [List.dropWhile_cons, hc, if_true] at h
      exact CommentOnly.space c rest hc (ih h)
    · simp [List.dropWhile_cons, hc] at h

/-- The loop body in closed form: a line is discarded, or the buffer cannot be
grown, or the grown text is executed, or it is kept. -/
theorem process_line_eq {σ : Type} (complete : Text → Bool) (exec : σ → Text → σ × Bool)
    (alloc : Nat → Bool) (s : Session σ) (line : Text) :
    process_line complete exec alloc s line =
      if s.stopped then s
      else if skips s line then s
      else if alloc s.allocs then
        if ends_with_semicolon (joined s line) (joined s line).length
            && complete (joined s line) then
          { s with
            sql := none
            db := (exec s.db (joined s line)).1
            errors := if (exec s.db (joined s line)).2 then s.errors else s.errors + 1
            executed := s.executed ++ [(joined s line, (exec s.db (joined s line)).2)]
            allocs := s.allocs + 1 }
        else { s with sql := some (joined s line), allocs := s.allocs + 1 }
      else { s with errors := s.errors + 1, allocs := s.allocs + 1, stopped := true } := by
  unfold process_line skips joined
  by_cases hst : s.stopped = true
  · simp [hst]
  · simp only [hst, Bool.false_eq_true, if_false]
    cases hsql : s.sql with
    | none =>
      simp only [Option.isNone_none, Bool.true_or, Bool.true_and]
      by_cases hw : all_whitespace line = true
      · simp [hw]
      · simp only [hw, Bool.false_eq_true, if_false]
        cases hd : line.dropWhile ISSPACE with
        | nil => exact absurd (all_whitespace_of_spaces line hd) hw
        | cons c r =>
          by_cases ha : alloc s.allocs = true
          · simp only [ha, if_true, hst, Bool.false_eq_true, if_false]
          · simp [ha]
    | some q =>
      by_cases hq : q = []
      · subst hq
        by_cases hw : all_whitespace line = true
        · simp [hw]
        · by_cases ha : alloc s.allocs = true
          · simp only [hw, ha, if_true, hst, Bool.false_eq_true, if_false, Bool.and_false]
          · simp [hw, ha]
      · have hne : (some q == some ([] : Text)) = false := by
          simpa using hq
        by_cases ha : alloc s.allocs = true
        · simp only [Option.isNone_some, hne, Bool.or_self, Bool.false_and, ha, if_true, hst,
            Bool.false_eq_true, if_false]
        · simp [hne, ha]

theorem process_loop_nil {σ : Type} (complete : Text → Bool) (exec : σ → Text → σ × Bool)
    (alloc : Nat → Bool) (s : Session σ) : process_loop complete exec alloc s [] = s := rfl

theorem process_loop_cons {σ : Type} (complete : Text → Bool) (exec : σ → Text → σ × Bool)
    (alloc : Nat → Bool) (s : Session σ) (l : Text) (ls : List Text) :
    process_loop complete exec alloc s (l :: ls)
      = process_loop complete exec alloc (process_line complete exec alloc s l) ls := rfl

theorem process_loop_append {σ : Type} (complete : Text → Bool) (exec : σ → Text → σ × Bool)
    (alloc : Nat → Bool) (s : Session σ) (xs ys : List Text) :
    process_loop complete exec alloc s (xs ++ ys)
      = process_loop complete exec alloc (process_loop complete exec alloc s xs) ys := by
  simp [process_loop, List.foldl_append]

/-- A property of sessions that the loop body keeps is kept by the loop. -/
theorem process_loop_invariant {σ : Type} (complete : Text → Bool)
    (exec : σ → Text → σ × Bool) (alloc : Nat → Bool) (P : Session σ → Prop)
    (step : ∀ s l, P s → P (process_line complete exec alloc s l)) :
    ∀ (lines : List Text) (s : Session σ), P s → P (process_loop complete exec alloc s lines) := by
  intro lines
  induction lines with
  | nil => intro s h; exact h
  | cons l ls ih =>
    intro s h
    rw [process_loop_cons]
    exact ih _ (step s l h)

theorem process_line_executed_ok {σ : Type} (complete : Text → Bool)
    (exec : σ → Text → σ × Bool) (alloc : Nat → Bool) (s : Session σ) (l : Text)
    (h : ∀ e ∈ s.executed, trimmed_ends_in_semicolon e.1 ∧ complete e.1 = true) :
    ∀ e ∈ (process_line complete exec alloc s l).executed,
      trimmed_ends_in_semicolon e.1 ∧ complete e.1 = true := by
  rw [process_line_eq]
  by_cases h1 : s.stopped = true
  · simpa [h1] using h
  by_cases h2 : skips s l = true
  · simpa [h1, h2] using h
  by_cases h3 : alloc s.allocs = true
  · by_cases h4 : (ends_with_semicolon (joined s l) (joined s l).length
        && complete (joined s l)) = true
    · simp only [h1, h2, h3, h4, if_true, if_false, Bool.false_eq_true]
      intro e he
      simp only [List.mem_append, List.mem_singleton] at he
      rcases he with he | he
      · exact h e he
      · subst he
        simp only [Bool.and_eq_true] at h4
        exact ⟨(ends_with_semicolon_iff _).1 h4.1, h4.2⟩
    · simpa [h1, h2, h3, h4] using h
  · simpa [h1, h2, h3] using h

/-- Claim C5: while the loop runs, a line leads to an execution exactly when
it has been added to the buffer (it was not discarded and the buffer could be
grown) and the accumulated text, which is the line or the held text, one
newline and the line, ends in `;` after its trailing whitespace and is
accepted by the completeness oracle; that text is then what is executed and
the buffer is empty afterwards; otherwise nothing is executed and an added
line leaves the accumulated text in the buffer; hence every text
`process_input` executes satisfies both conditions. -/
theorem C5_execute_exactly_when_complete {σ : Type} (complete : Text → Bool)
    (exec : σ → Text → σ × Bool) (alloc : Nat → Bool) :
    (∀ (s : Session σ) (line : Text), s.stopped = false →
      ((skips s line = false ∧ alloc s.allocs = true) ∧
          trimmed_ends_in_semicolon (joined s line) ∧ complete (joined s line) = true →
        (process_line complete exec alloc s line).executed
            = s.executed ++ [(joined s line, (exec s.db (joined s line)).2)] ∧
          (process_line complete exec alloc s line).db = (exec s.db (joined s line)).1 ∧
          (process_line complete exec alloc s line).sql = none) ∧
      (¬ ((skips s line = false ∧ alloc s.allocs = true) ∧
          trimmed_ends_in_semicolon (joined s line) ∧ complete (joined s line) = true) →
        (process_line complete exec alloc s line).executed = s.executed ∧
          (process_line complete exec alloc s line).db = s.db) ∧
      ((skips s line = false ∧ alloc s.allocs = true) →
        ¬ (trimmed_ends_in_semicolon (joined s line) ∧ complete (joined s line) = true) →
        (process_line complete exec alloc s line).sql = some (joined s line))) ∧
    (∀ (db : σ) (lines : List Text),
      ∀ e ∈ (process_input complete exec alloc db lines).executed,
        trimmed_ends_in_semicolon e.1 ∧ complete e.1 = true) := by
  constructor
  · intro s line hst
    have hsemi := ends_with_semicolon_iff (joined s line)
    rw [process_line_eq]
    simp only [hst, Bool.false_eq_true, if_false]
    refine ⟨?_, ?_, ?_⟩
    · rintro ⟨⟨hsk, hal⟩, hts, hco⟩
      have hc : (ends_with_semicolon (joined s line) (joined s line).length
          && complete (joined s line)) = true := by
        simp [hsemi.2 hts, hco]
      simp [hsk, hal, hc]
    · intro hn
      by_cases hsk : skips s line = true
      · simp [hsk]
      · by_cases hal : alloc s.allocs = true
        · have hc : ¬ (ends_with_semicolon (joined s line) (joined s line).length
              && complete (joined s line)) = true := by
            intro hc
            simp only [Bool.and_eq_true] at hc
            exact hn ⟨⟨by simpa using hsk, hal⟩, hsemi.1 hc.1, hc.2⟩
          simp [hsk, hal, hc]
        · simp [hsk, hal]
    · rintro ⟨hsk, hal⟩ hn
      have hc : ¬ (ends_with_semicolon (joined s line) (joined s line).length
          && complete (joined s line)) = true := by
        intro hc
        simp only [Bool.and_eq_true] at hc
        exact hn ⟨hsemi.1 hc.1, hc.2⟩
      simp [hsk, hal, hc]
  · intro db lines
    have h := process_loop_invariant complete exec alloc
      (fun s => ∀ e ∈ s.executed, trimmed_ends_in_semicolon e.1 ∧ complete e.1 = true)
      (fun s l hs => process_line_executed_ok complete exec alloc s l hs) lines (entry db)
      (by intro e he; simp [entry] at he)
    exact h

theorem process_line_skip {σ : Type} (complete : Text → Bool) (exec : σ → Text → σ × Bool)
    (alloc : Nat → Bool) (s : Session σ) (l : Text) (hs : s.sql = none)
    (hl : all_whitespace l = true) : process_line complete exec alloc s l = s := by
  rw [process_line_eq]
  have : skips s l = true := by simp [skips, hs, hl]
  simp [this]

theorem process_loop_skip {σ : Type} (complete : Text → Bool) (exec : σ → Text → σ × Bool)
    (alloc : Nat → Bool) (s : Session σ) (hs : s.sql = none) :
    ∀ ins : List Text, (∀ l ∈ ins, all_whitespace l = true) →
      process_loop complete exec alloc s ins = s := by
  intro ins
  induction ins with
  | nil => intro _; rfl
  | cons l ls ih =>
    intro h
    rw [process_loop_cons, process_line_skip complete exec alloc s l hs
      (h l (List.mem_cons_self _ _))]
    exact ih (fun x hx => h x (List.mem_cons_of_mem _ hx))

/-- Claim C6: blank and comment-only lines inserted where no partial
statement is held change neither the texts executed, nor the error count, nor
the database; and the stream of a line comment, a blank line and
`INSERT INTO t VALUES(1);` executes exactly that one statement. -/
theorem C6_blank_and_comment_lines_skipped {σ : Type} (complete : Text → Bool)
    (exec : σ → Text → σ × Bool) (alloc : Nat → Bool) (db : σ)
    (pre ins post : List Text)
    (hins : ∀ l ∈ ins, CommentOnly l)
    (hidle : (process_loop complete exec alloc (entry db) pre).sql = none) :
    ((process_input complete exec alloc db (pre ++ ins ++ post)).executed
        = (process_input complete exec alloc db (pre ++ post)).executed ∧
      (process_input complete exec alloc db (pre ++ ins ++ post)).errors
        = (process_input complete exec alloc db (pre ++ post)).errors ∧
      (process_input complete exec alloc db (pre ++ ins ++ post)).db
        = (process_input complete exec alloc db (pre ++ post)).db) ∧
    (complete (bytes "INSERT INTO t VALUES(1);") = true → alloc 0 = true →
      (process_input complete exec alloc db
          [bytes "-- sample data", bytes "", bytes "INSERT INTO t VALUES(1);"]).executed
        = [(bytes "INSERT INTO t VALUES(1);",
            (exec db (bytes "INSERT INTO t VALUES(1);")).2)]) := by
  constructor
  · have hw : ∀ l ∈ ins, all_whitespace l = true :=
      fun l hl => all_whitespace_of_comment_only l (hins l hl)
    have e : process_loop complete exec alloc (entry db) (pre ++ ins ++ post)
        = process_loop complete exec alloc (entry db) (pre ++ post) := by
      rw [process_loop_append, process_loop_append, process_loop_append,
        process_loop_skip complete exec alloc _ hidle ins hw]
    simp only [process_input, e, and_self]
  · intro hc ha
    have w1 : all_whitespace (bytes "-- sample data") = true := by decide
    have w2 : all_whitespace (bytes "") = true := by decide
    have w3 : all_whitespace (bytes "INSERT INTO t VALUES(1);") = false := by decide
    have w4 : ends_with_semicolon (bytes "INSERT INTO t VALUES(1);")
        (bytes "INSERT INTO t VALUES(1);").length = true := by decide
    have s1 : process_line complete exec alloc (entry db) (bytes "-- sample data")
        = entry db := process_line_skip _ _ _ _ _ rfl w1
    have s2 : process_line complete exec alloc (entry db) (bytes "") = entry db :=
      process_line_skip _ _ _ _ _ rfl w2
    simp only [process_input, process_loop_cons, process_loop_nil, s1, s2]
    rw [process_line_eq]
    simp [entry, skips, joined, w3, w4, hc, ha]

theorem not_ends_with_semicolon_of_not_mem (t : Text) (h : 59 ∉ t) :
    ends_with_semicolon t t.length = false := by
  cases hc : ends_with_semicolon t t.length with
  | false => rfl
  | true =>
    have ht := (ends_with_semicolon_iff t).1 hc
    unfold trimmed_ends_in_semicolon at ht
    have hm : 59 ∈ t.reverse.dropWhile ISSPACE := List.mem_of_mem_head? ht
    have hm2 : 59 ∈ t.reverse := (List.dropWhile_sublist _).subset hm
    exact absurd (List.mem_reverse.1 hm2) h

theorem process_line_no_semicolon {σ : Type} (complete : Text → Bool)
    (exec : σ → Text → σ × Bool) (alloc : Nat → Bool) (s : Session σ) (l : Text)
    (hl : 59 ∉ l)
    (h : s.executed = [] ∧ (∀ q, s.sql = some q → 59 ∉ q) ∧
      ((∀ k, alloc k = true) → s.errors = 0)) :
    (process_line complete exec alloc s l).executed = [] ∧
      (∀ q, (process_line complete exec alloc s l).sql = some q → 59 ∉ q) ∧
      ((∀ k, alloc k = true) → (process_line complete exec alloc s l).errors = 0) := by
  obtain ⟨he, hq, hz⟩ := h
  have hj : 59 ∉ joined s l := by
    unfold joined
    cases hs : s.sql with
    | none => exact hl
    | some q =>
      have := hq q hs
      simp only [List.append_assoc, List.singleton_append, List.mem_append, List.mem_cons]
      rintro (h1 | h1 | h1)
      · exact this h1
      · exact absurd h1 (by decide)
      · exact hl h1
  have hn := not_ends_with_semicolon_of_not_mem _ hj
  rw [process_line_eq]
  by_cases h1 : s.stopped = true
  · simp only [h1, if_true]
    exact ⟨he, hq, hz⟩
  by_cases h2 : skips s l = true
  · simp only [h1, h2, if_true, if_false, Bool.false_eq_true]
    exact ⟨he, hq, hz⟩
  by_cases h3 : alloc s.allocs = true
  · simp only [h1, h2, h3, hn, if_true, if_false, Bool.false_eq_true, Bool.false_and]
    refine ⟨he, ?_, hz⟩
    intro q hq2
    simp only [Option.some.injEq] at hq2
    exact hq2 ▸ hj
  · simp only [h1, h2, h3, if_false, Bool.false_eq_true]
    refine ⟨he, hq, ?_⟩
    intro hall
    exact absurd (hall s.allocs) h3

/-- Claim C8: when the input is exhausted, `process_input` hands back what
the loop had executed and counted, whatever text is still held, and holds no
text; a stream without any semicolon executes nothing and, when no allocation
fails, returns 0; so the single line `INSERT INTO t VALUES(1)` executes
nothing and returns 0. -/
theorem C8_held_text_discarded {σ : Type} (complete : Text → Bool)
    (exec : σ → Text → σ × Bool) (alloc : Nat → Bool) (db : σ) (lines : List Text) :
    ((process_input complete exec alloc db lines).executed
        = (process_loop complete exec alloc (entry db) lines).executed ∧
      (process_input complete exec alloc db lines).errors
        = (process_loop complete exec alloc (entry db) lines).errors ∧
      (process_input complete exec alloc db lines).db
        = (process_loop complete exec alloc (entry db) lines).db ∧
      (process_input complete exec alloc db lines).sql = none) ∧
    ((∀ l ∈ lines, 59 ∉ l) →
      (process_input complete exec alloc db lines).executed = [] ∧
        ((∀ k, alloc k = true) → (process_input complete exec alloc db lines).errors = 0)) ∧
    ((process_input complete exec (fun _ => true) db
        [bytes "INSERT INTO t VALUES(1)"]).executed = [] ∧
      (process_input complete exec (fun _ => true) db
        [bytes "INSERT INTO t VALUES(1)"]).errors = 0 ∧
      (process_loop complete exec (fun _ => true) (entry db)
        [bytes "INSERT INTO t VALUES(1)"]).sql = some (bytes "INSERT INTO t VALUES(1)")) := by
  have gen : ∀ (al : Nat → Bool) (ls : List Text), (∀ l ∈ ls, 59 ∉ l) →
      ∀ s : Session σ,
        (s.executed = [] ∧ (∀ q, s.sql = some q → 59 ∉ q) ∧
          ((∀ k, al k = true) → s.errors = 0)) →
        ((process_loop complete exec al s ls).executed = [] ∧
          (∀ q, (process_loop complete exec al s ls).sql = some q → 59 ∉ q) ∧
          ((∀ k, al k = true) → (process_loop complete exec al s ls).errors = 0)) := by
    intro al ls
    induction ls with
    | nil => intro _ s h; exact h
    | cons l rest ih =>
      intro hls s h
      rw [process_loop_cons]
      exact ih (fun x hx => hls x (List.mem_cons_of_mem _ hx)) _
        (process_line_no_semicolon complete exec al s l (hls l (List.mem_cons_self _ _)) h)
  have start : ∀ al : Nat → Bool,
      (entry db).executed = [] ∧ (∀ q, (entry db).sql = some q → 59 ∉ q) ∧
        ((∀ k, al k = true) → (entry db).errors = 0) := by
    intro al
    refine ⟨rfl, ?_, fun _ => rfl⟩
    intro q hq
    simp [entry] at hq
  refine ⟨⟨rfl, rfl, rfl, rfl⟩, ?_, ?_⟩
  · intro hls
    have h := gen alloc lines hls (entry db) (start alloc)
    exact ⟨h.1, h.2.2⟩
  · have h59 : ∀ l ∈ [bytes "INSERT INTO t VALUES(1)"], 59 ∉ l := by
      intro l hl
      simp only [List.mem_singleton] at hl
      subst hl
      decide
    have h := gen (fun _ => true) [bytes "INSERT INTO t VALUES(1)"] h59 (entry db)
      (start (fun _ => true))
    refine ⟨h.1, h.2.2 (fun _ => rfl), ?_⟩
    have w : all_whitespace (bytes "INSERT INTO t VALUES(1)") = false := by decide
    have n : ends_with_semicolon (bytes "INSERT INTO t VALUES(1)")
        (bytes "INSERT INTO t VALUES(1)").length = false := by decide
    rw [process_loop_cons, process_loop_nil, process_line_eq]
    simp [entry, skips, joined, w, n]

/-! ## The queries built by dump_cb -/

theorem append_plain (s a : Text) : append true (some s) (some a) 0 = some (s ++ a) := by
  unfold append
  by_cases h : a.length = 0
  · have : a = [] := List.length_eq_zero.1 h
    subst this
    simp
  · simp [h]

theorem append_quote (inp app : Option Text) (q : Nat) (hq : q ≠ 0) :
    append true inp app q = some (inp.getD [] ++ quoted q (app.getD [])) := by
  unfold append quoted
  simp [hq, quote_loop_eq]

theorem names_loop_eq (cols : List Column) :
    ∀ s : Text, names_loop (some s) cols
      = some (s ++ sep_join (bytes " || ',' || ") (cols.map name_literal)) := by
  induction cols with
  | nil => intro s; simp [names_loop, sep_join]
  | cons c rest ih =>
    intro s
    have hq : append true none c.name 34 = some (quoted 34 (c.name.getD [])) := by
      rw [append_quote _ _ 34 (by decide)]; simp
    cases rest with
    | nil =>
      simp only [names_loop, hq, append_quote _ _ 39 (by decide : (39 : Nat) ≠ 0),
        List.isEmpty_nil, Bool.not_true, Bool.false_eq_true, if_false, List.map_cons,
        List.map_nil, sep_join, Option.getD_some, name_literal]
    | cons c2 rest2 =>
      rw [names_loop]
      simp only [hq, append_quote _ _ 39 (by decide : (39 : Nat) ≠ 0), List.isEmpty_cons,
        Bool.not_false, if_true, Option.getD_some, append_plain]
      rw [ih]
      simp only [List.map_cons, sep_join, name_literal, List.append_assoc]

theorem values_loop_sql (dd : DUMP_DATA) (hq : 0 ≤ dd.quote_mode) (cols : List Column)
    (hne : cols ≠ []) :
    ∀ s : Text, values_loop dd (some s) cols
      = some (s ++ sep_join (bytes " || ',' || ") (cols.map (quote_sql_call dd.quote_mode))
          ++ bytes " ") := by
  have h1 : ¬ dd.quote_mode < -1 := by omega
  have h2 : ¬ dd.quote_mode < 0 := by omega
  have e1 : bytes ") " = bytes ")" ++ bytes " " := by decide
  have e2 : bytes ") || ',' || " = bytes ")" ++ bytes " || ',' || " := by decide
  have step : ∀ (c : Column) (s t : Text),
      append true
        (if dd.quote_mode ≠ 0 then
          append true (append true (append true (some s) (some (bytes "quote_sql(")) 0)
            c.name 34) (some (bytes "," ++ fmt_d dd.quote_mode)) 0
        else append true (append true (some s) (some (bytes "quote_sql(")) 0) c.name 34)
        (some (bytes ")" ++ t)) 0
        = some (s ++ quote_sql_call dd.quote_mode c ++ t) := by
    intro c s t
    unfold quote_sql_call
    split_ifs
    · simp [append_plain, append_quote]
    · simp [append_plain, append_quote]
  induction cols with
  | nil => exact absurd rfl hne
  | cons c rest ih =>
    intro s
    cases rest with
    | nil =>
      rw [values_loop]
      simp only [h1, h2, if_false, e1, step, List.isEmpty_nil, Bool.not_true,
        Bool.false_eq_true]
      simp only [values_loop, List.map_cons, List.map_nil, sep_join]
    | cons c2 rest2 =>
      rw [values_loop]
      simp only [h1, h2, if_false, e2, step, List.isEmpty_cons, Bool.not_false, if_true]
      rw [ih (by simp)]
      simp only [List.map_cons, sep_join, List.append_assoc]

/-- The data query of SQL-script mode in closed form. -/
theorem dump_cb_select_sql (dd : DUMP_DATA) (table : Text) (cols : List Column)
    (hq : 0 ≤ dd.quote_mode) (hne : cols ≠ []) :
    (dump_cb_queries dd table cols).2 = some (
      (if dd.with_schema ≠ 0 then bytes "SELECT 'INSERT INTO ' || "
        else bytes "SELECT 'INSERT OR REPLACE INTO ' || ")
      ++ quoted 39 (quoted 34 table)
      ++ (if dd.with_schema = 0 then
            bytes " || ' (' || " ++ sep_join (bytes " || ',' || ") (cols.map name_literal)
              ++ bytes "|| ')'"
          else [])
      ++ bytes " || ' VALUES(' || "
      ++ sep_join (bytes " || ',' || ") (cols.map (quote_sql_call dd.quote_mode))
      ++ bytes " || ')' FROM " ++ quoted 34 table
      ++ (match dd.where_ with
          | some w => bytes " " ++ w
          | none => [])) := by
  have h1 : ¬ dd.quote_mode < -1 := by omega
  have h2 : ¬ dd.quote_mode < 0 := by omega
  have h3 : dd.quote_mode ≥ 0 := hq
  have h4 : ¬ dd.quote_mode = -1 := by omega
  have a1 : append true none (some (bytes "SELECT 'INSERT INTO ' || ")) 0
      = some (bytes "SELECT 'INSERT INTO ' || ") := by decide
  have a2 : append true none (some (bytes "SELECT 'INSERT OR REPLACE INTO ' || ")) 0
      = some (bytes "SELECT 'INSERT OR REPLACE INTO ' || ") := by decide
  have e3 : bytes " || ')' FROM " = bytes " " ++ bytes "|| ')' FROM " := by decide
  have hv := values_loop_sql dd hq cols hne
  have hn := names_loop_eq cols
  unfold dump_cb_queries select_head
  by_cases hs : dd.with_schema = 0
  · cases hw : dd.where_ with
    | none =>
      simp only [h1, h2, h3, h4, hs, if_false, if_true, a1, a2, append_plain,
        append_quote _ _ 34 (by decide : (34 : Nat) ≠ 0),
        append_quote _ _ 39 (by decide : (39 : Nat) ≠ 0), Option.getD_some, Option.getD_none,
        hv, hn, List.nil_append, ne_eq, not_true_eq_false, true_and, and_true, false_and,
        e3, List.append_assoc, List.append_nil]
    | some w =>
      simp only [h1, h2, h3, h4, hs, if_false, if_true, a1, a2, append_plain,
        append_quote _ _ 34 (by decide : (34 : Nat) ≠ 0),
        append_quote _ _ 39 (by decide : (39 : Nat) ≠ 0), Option.getD_some, Option.getD_none,
        hv, hn, List.nil_append, ne_eq, not_true_eq_false, true_and, and_true, false_and,
        e3, List.append_assoc, List.append_nil]
  · cases hw : dd.where_ with
    | none =>
      simp only [h1, h2, h3, h4, hs, if_false, if_true, a1, a2, append_plain,
        append_quote _ _ 34 (by decide : (34 : Nat) ≠ 0),
        append_quote _ _ 39 (by decide : (39 : Nat) ≠ 0), Option.getD_some, Option.getD_none,
        hv, hn, List.nil_append, ne_eq, not_false_eq_true, true_and, and_true, and_false,
        false_and, e3, List.append_assoc, List.append_nil]
    | some w =>
      simp only [h1, h2, h3, h4, hs, if_false, if_true, a1, a2, append_plain,
        append_quote _ _ 34 (by decide : (34 : Nat) ≠ 0),
        append_quote _ _ 39 (by decide : (39 : Nat) ≠ 0), Option.getD_some, Option.getD_none,
        hv, hn, List.nil_append, ne_eq, not_false_eq_true, true_and, and_true, and_false,
        false_and, e3, List.append_assoc, List.append_nil]

/-- Claim C9, as the code has it: in SQL-script mode the SELECT holds the
parenthesised list of column names between the table name and ` VALUES(`
when schema output is excluded (`with_schema = 0`, the data-only dump), and
goes from the table name straight to ` VALUES(` when schema output is
included. -/
theorem C9_column_list_when_schema_excluded (dd : DUMP_DATA) (table : Text)
    (cols : List Column) (hq : 0 ≤ dd.quote_mode) (hne : cols ≠ []) :
    (dd.with_schema = 0 → ∃ tail : Text,
      (dump_cb_queries dd table cols).2 = some (
        bytes "SELECT 'INSERT OR REPLACE INTO ' || " ++ quoted 39 (quoted 34 table)
        ++ bytes " || ' (' || " ++ sep_join (bytes " || ',' || ") (cols.map name_literal)
        ++ bytes "|| ')'" ++ bytes " || ' VALUES(' || " ++ tail)) ∧
    (dd.with_schema ≠ 0 → ∃ tail : Text,
      (dump_cb_queries dd table cols).2 = some (
        bytes "SELECT 'INSERT INTO ' || " ++ quoted 39 (quoted 34 table)
        ++ bytes " || ' VALUES(' || " ++ tail)) := by
  have h := dump_cb_select_sql dd table cols hq hne
  constructor
  · intro hs
    refine ⟨sep_join (bytes " || ',' || ") (cols.map (quote_sql_call dd.quote_mode))
      ++ bytes " || ')' FROM " ++ quoted 34 table
      ++ (match dd.where_ with
          | some w => bytes " " ++ w
          | none => []), ?_⟩
    rw [h]
    simp only [hs, ne_eq, not_true_eq_false, if_false, if_true, List.append_assoc]
  · intro hs
    refine ⟨sep_join (bytes " || ',' || ") (cols.map (quote_sql_call dd.quote_mode))
      ++ bytes " || ')' FROM " ++ quoted 34 table
      ++ (match dd.where_ with
          | some w => bytes " " ++ w
          | none => []), ?_⟩
    rw [h]
    simp only [hs, ne_eq, not_false_eq_true, if_false, if_true, List.append_assoc,
      List.nil_append]

/-- Instance of the amended C9 at table `t(a, b)`, data-only dump. -/
theorem C9_column_list_when_schema_excluded_witness :
    ((0 : Int) ≤ 0 ∧ sample_columns ≠ []) ∧
    ((0 : Int) = 0 → ∃ tail : Text,
      (dump_cb_queries ⟨0, 0, none, 0⟩ (bytes "t") sample_columns).2 = some (
        bytes "SELECT 'INSERT OR REPLACE INTO ' || " ++ quoted 39 (quoted 34 (bytes "t"))
        ++ bytes " || ' (' || "
        ++ sep_join (bytes " || ',' || ") (sample_columns.map name_literal)
        ++ bytes "|| ')'" ++ bytes " || ' VALUES(' || " ++ tail)) :=
  ⟨⟨le_refl _, by simp [sample_columns]⟩,
    (C9_column_list_when_schema_excluded ⟨0, 0, none, 0⟩ (bytes "t") sample_columns
      (le_refl _) (by simp [sample_columns])).1⟩

/-- Claim C9 as stated fails: for table `t(a, b)` the SELECT built with schema
output included has no column-name list, and the one built with schema output
excluded has it. -/
theorem C9_counterexample :
    (dump_cb_queries ⟨1, 0, none, 0⟩ (bytes "t") sample_columns).2
        = some (bytes ("SELECT 'INSERT INTO ' || '\"t\"' || ' VALUES(' || " ++
            "quote_sql(\"a\") || ',' || quote_sql(\"b\") || ')' FROM \"t\"")) ∧
      (dump_cb_queries ⟨0, 0, none, 0⟩ (bytes "t") sample_columns).2
        = some (bytes ("SELECT 'INSERT OR REPLACE INTO ' || '\"t\"' || ' (' || " ++
            "'\"a\"' || ',' || '\"b\"'|| ')' || ' VALUES(' || " ++
            "quote_sql(\"a\") || ',' || quote_sql(\"b\") || ')' FROM \"t\"")) := by
  decide

/-- Claim C10: in SQL-script mode, for a table with at least one column and a
dialect `d` in 0..3, the SELECT starts with the literal `'INSERT INTO '` when
schema output is included and `'INSERT OR REPLACE INTO '` when it is excluded,
and its VALUES part is `quote_sql("c")` for every column in the order of
`table_info`, with `,d` as second argument exactly when `d` is not zero,
separated by `|| ',' ||` and closed by `|| ')'`, then `FROM "t"` and, when a
filter clause is configured, a space and the clause as it is. -/
theorem C10_insert_select_shape (dd : DUMP_DATA) (table : Text) (cols : List Column)
    (hd : 0 ≤ dd.quote_mode ∧ dd.quote_mode ≤ 3) (hne : cols ≠ []) :
    (dump_cb_queries dd table cols).2 = some (
      bytes "SELECT "
      ++ (if dd.with_schema ≠ 0 then bytes "'INSERT INTO '"
          else bytes "'INSERT OR REPLACE INTO '")
      ++ bytes " || " ++ quoted 39 (quoted 34 table)
      ++ (if dd.with_schema = 0 then
            bytes " || ' (' || " ++ sep_join (bytes " || ',' || ") (cols.map name_literal)
              ++ bytes "|| ')'"
          else [])
      ++ bytes " || ' VALUES(' || "
      ++ sep_join (bytes " || ',' || ") (cols.map (fun c =>
          bytes "quote_sql(" ++ quoted 34 (c.name.getD [])
            ++ (if dd.quote_mode ≠ 0 then bytes "," ++ [48 + dd.quote_mode.toNat] else [])
            ++ bytes ")"))
      ++ bytes " || ')' FROM " ++ quoted 34 table
      ++ (match dd.where_ with
          | some w => bytes " " ++ w
          | none => [])) := by
  have h := dump_cb_select_sql dd table cols hd.1 hne
  have hf : dd.quote_mode ≠ 0 → fmt_d dd.quote_mode = [48 + dd.quote_mode.toNat] := by
    intro h0
    have : dd.quote_mode = 1 ∨ dd.quote_mode = 2 ∨ dd.quote_mode = 3 := by omega
    rcases this with e | e | e <;> rw [e] <;> decide
  have hc : (fun c : Column =>
      bytes "quote_sql(" ++ quoted 34 (c.name.getD [])
        ++ (if dd.quote_mode ≠ 0 then bytes "," ++ [48 + dd.quote_mode.toNat] else [])
        ++ bytes ")") = quote_sql_call dd.quote_mode := by
    funext c
    unfold quote_sql_call
    by_cases h0 : dd.quote_mode = 0
    · simp [h0]
    · simp [h0, hf h0]
  have e1 : bytes "SELECT 'INSERT INTO ' || "
      = bytes "SELECT " ++ bytes "'INSERT INTO '" ++ bytes " || " := by decide
  have e2 : bytes "SELECT 'INSERT OR REPLACE INTO ' || "
      = bytes "SELECT " ++ bytes "'INSERT OR REPLACE INTO '" ++ bytes " || " := by decide
  rw [h, hc, e1, e2]
  by_cases hs : dd.with_schema = 0
  · simp only [hs, ne_eq, not_true_eq_false, if_false, if_true, List.append_assoc]
  · simp only [hs, ne_eq, not_false_eq_true, if_false, if_true, List.append_assoc]

set_option maxRecDepth 8000 in
/-- Instance of C10 at table `t(a, b)`, dialect 2, filter `WHERE a > 1`. -/
theorem C10_insert_select_shape_witness :
    (((0 : Int) ≤ 2 ∧ (2 : Int) ≤ 3) ∧ sample_columns ≠ []) ∧
    (dump_cb_queries ⟨0, 2, some (bytes "WHERE a > 1"), 0⟩ (bytes "t") sample_columns).2
      = some (bytes ("SELECT 'INSERT OR REPLACE INTO ' || '\"t\"' || ' (' || " ++
          "'\"a\"' || ',' || '\"b\"'|| ')' || ' VALUES(' || " ++
          "quote_sql(\"a\",2) || ',' || quote_sql(\"b\",2) || ')' FROM \"t\" WHERE a > 1")) :=
  ⟨⟨⟨by decide, by decide⟩, by simp [sample_columns]⟩,
    (C10_insert_select_shape ⟨0, 2, some (bytes "WHERE a > 1"), 0⟩ (bytes "t") sample_columns
      ⟨by decide, by decide⟩ (by simp [sample_columns])).trans (by decide)⟩

/-! ## Instances at concrete inputs -/

/-- Instance of C2 at the blob `01 AB FF`, SQL Server dialect. -/
theorem C2_quote_blob_dialects_witness :
    ((∀ x ∈ [1, 171, 255], x < 256) ∧ 2 * [1, 171, 255].length + 4 ≤ 1000000000) ∧
    quote_func intEngine true [Value.blob [1, 171, 255], Value.integer 2]
      = Outcome.text (bytes "0x01ABFF") :=
  ⟨⟨by decide, by decide⟩,
    ((C2_quote_blob_dialects intEngine [1, 171, 255] (Value.integer 2) []
      (by decide) (by decide)).2.2.1 (by decide)).trans (by decide)⟩

/-- Instance of C6: a line comment and a blank line between two statements. -/
theorem C6_blank_and_comment_lines_skipped_witness :
    ((∀ l ∈ [bytes "-- sample data", bytes ""], CommentOnly l) ∧
      (process_loop (fun _ => true) (fun (n : Nat) (_ : Text) => (n + 1, true))
        (fun _ => true) (entry 0) [bytes "CREATE TABLE t(a);"]).sql = none) ∧
    (process_input (fun _ => true) (fun (n : Nat) (_ : Text) => (n + 1, true))
        (fun _ => true) 0
        ([bytes "CREATE TABLE t(a);"] ++ [bytes "-- sample data", bytes ""]
          ++ [bytes "INSERT INTO t VALUES(1);"])).executed
      = (process_input (fun _ => true) (fun (n : Nat) (_ : Text) => (n + 1, true))
        (fun _ => true) 0
        ([bytes "CREATE TABLE t(a);"] ++ [bytes "INSERT INTO t VALUES(1);"])).executed :=
  have hins : ∀ l ∈ [bytes "-- sample data", bytes ""], CommentOnly l := by
    intro l hl
    simp only [List.mem_cons, List.mem_singleton, List.not_mem_nil, or_false] at hl
    rcases hl with rfl | rfl
    · exact CommentOnly.line (bytes " sample data") (by decide)
    · exact CommentOnly.blank
  ⟨⟨hins, by decide⟩,
    (C6_blank_and_comment_lines_skipped (fun _ => true)
      (fun (n : Nat) (_ : Text) => (n + 1, true)) (fun _ => true) 0
      [bytes "CREATE TABLE t(a);"] [bytes "-- sample data", bytes ""]
      [bytes "INSERT INTO t VALUES(1);"] hins (by decide)).1.1⟩

/-! ## The function append -/

/-- Claim C19: a successful `append(b, t, q)` with a quote character `q`
other than 0 returns `b` (nothing when `b` is absent), then `q`, the text with
every `q` doubled, and `q`; the result has `len(b) + len(t) + 2` bytes plus
one for each `q` in `t`, and un-doubling the wrapped part gives `t` back;
with `q = 0` it returns `b` followed by `t`, and `b` itself, absent or not,
when `t` is empty or absent. -/
theorem C19_append_quotes_and_concatenates (b : Option Text) (t : Text) (q : Nat)
    (hq : q ≠ 0) :
    append true b (some t) q = some (b.getD [] ++ ([q] ++ doubled q t ++ [q])) ∧
      (∀ r, append true b (some t) q = some r →
        r.length = (b.getD []).length + t.length + 2 + t.count q) ∧
      unquote q ([q] ++ doubled q t ++ [q]) = some t ∧
      append true b none q = some (b.getD [] ++ [q, q]) ∧
      (t ≠ [] → append true b (some t) 0 = some (b.getD [] ++ t)) ∧
      append true b (some []) 0 = b ∧
      append true b none 0 = b := by
  have h1 : append true b (some t) q = some (b.getD [] ++ ([q] ++ doubled q t ++ [q])) := by
    rw [append_quote b (some t) q hq]; rfl
  refine ⟨h1, ?_, unquote_doubled q t, ?_, ?_, ?_, ?_⟩
  · intro r hr
    rw [h1] at hr
    have e := Option.some.inj hr
    rw [← e]
    simp only [List.length_append, List.length_cons, List.length_nil, doubled_length]
    omega
  · rw [append_quote b none q hq]
    simp [quoted, doubled]
  · intro ht
    have hl : t.length ≠ 0 := fun h => ht (List.length_eq_zero.1 h)
    simp [append, hl]
  · simp [append]
  · simp [append]

/-- Instance of C19: quoting the table name `t"x` with `"` after `FROM `. -/
theorem C19_append_quotes_and_concatenates_witness :
    (34 : Nat) ≠ 0 ∧
    append true (some (bytes "FROM ")) (some (bytes "t\"x")) 34
      = some (bytes "FROM \"t\"\"x\"") :=
  ⟨by decide,
    (C19_append_quotes_and_concatenates (some (bytes "FROM ")) (bytes "t\"x") 34
      (by decide)).1.trans (by decide)⟩

/-! ## The CSV data query -/

theorem select_head_csv (dd : DUMP_DATA) (table : Text) (hm : dd.quote_mode = -1) :
    select_head dd table = some (csv_head dd) := by
  have h1 : ¬ dd.quote_mode < -1 := by omega
  have h2 : dd.quote_mode < 0 := by omega
  have a1 : append true none (some (bytes "SELECT ")) 0 = some (bytes "SELECT ") := by decide
  have a2 : append true none (some (bytes "SELECT quote_csv(")) 0
      = some (bytes "SELECT quote_csv(") := by decide
  have e : bytes "SELECT quote_csv(" = bytes "SELECT " ++ bytes "quote_csv(" := by decide
  have e2 : bytes ") || ',' || " = bytes ")" ++ bytes " || ',' || " := by decide
  unfold select_head csv_head
  simp only [h1, h2, if_false, if_true]
  cases dd.where_ with
  | none => simp only [a1]
  | some w =>
    simp only [a2, append_quote _ _ 34 (by decide : (34 : Nat) ≠ 0), Option.getD_some,
      append_plain, quote_csv_token]
    simp only [e, e2, List.append_assoc]

theorem hdr_loop_eq (cols : List Column) :
    ∀ s : Text, hdr_loop (some s) cols
      = some (s ++ sep_join (bytes " || ',' || ") (cols.map quote_csv_call)) := by
  have e2 : bytes ") || ',' || " = bytes ")" ++ bytes " || ',' || " := by decide
  induction cols with
  | nil => intro s; simp [hdr_loop, sep_join]
  | cons c rest ih =>
    intro s
    rw [hdr_loop]
    simp only [append_plain, append_quote _ _ 34 (by decide : (34 : Nat) ≠ 0),
      Option.getD_some]
    cases rest with
    | nil =>
      simp only [List.isEmpty_nil, Bool.not_true, Bool.false_eq_true, if_false,
        append_plain, hdr_loop]
      simp [sep_join, quote_csv_call, quote_csv_token]
    | cons c2 rest2 =>
      simp only [List.isEmpty_cons, Bool.not_false, if_true, append_plain]
      rw [ih]
      simp [sep_join, quote_csv_call, quote_csv_token, e2]

/-- The header query of CSV mode in closed form: it projects every column of
`table_info`, whatever its declared type. -/
theorem dump_cb_hdr_csv (dd : DUMP_DATA) (table : Text) (cols : List Column)
    (hm : dd.quote_mode = -1) (hi : dd.indent ≠ 0) :
    (dump_cb_queries dd table cols).1 = some (
      csv_head dd ++ sep_join (bytes " || ',' || ") (cols.map quote_csv_call)) := by
  have h1 : ¬ dd.quote_mode < -1 := by omega
  have h2 : dd.quote_mode < 0 := by omega
  have hh : append true none (some (csv_head dd)) 0 = some (csv_head dd) := by
    have hl : (csv_head dd).length ≠ 0 := by
      unfold csv_head
      cases dd.where_ <;> simp [bytes]
    simp [append, hl]
  unfold dump_cb_queries
  simp only [select_head_csv dd table hm, h1, h2, hi, if_false, if_true, ne_eq,
    not_false_eq_true, hh]
  simp only [hm, and_self, if_true, true_and, hdr_loop_eq]

/-- Claim C12, at an input where the code departs from it: for the table
`t(a INTEGER, b BLOB)` and the header enabled, the data query leaves the
column `b` out but the header query projects its name. -/
theorem C12_csv_header_keeps_blob_column :
    (dump_cb_queries ⟨0, -1, none, 1⟩ (bytes "t") sample_blob_columns).1
        = some (bytes "SELECT quote_csv(\"a\") || ',' || quote_csv(\"b\")") ∧
      (dump_cb_queries ⟨0, -1, none, 1⟩ (bytes "t") sample_blob_columns).2
        = some (bytes "SELECT quote_csv(\"a\") FROM \"t\"") := by
  decide

/-! ## The CSV lines -/

/-- The documented CSV example: table `A(a, b)` with the rows `(1, 2)` and
`(3, 'foo')`, row prefix `aa`, header enabled. -/
theorem csv_documented_example :
    dump_cb_queries ⟨0, -1, some (bytes "aa"), 1⟩ (bytes "A") sample_columns
        = (some (bytes "SELECT quote_csv(\"aa\") || ',' || quote_csv(\"a\") || ',' || quote_csv(\"b\")"),
           some (bytes ("SELECT quote_csv(\"aa\") || ',' || quote_csv(\"a\") || ',' || " ++
             "quote_csv(\"b\") FROM \"A\""))) ∧
      csv_line intEngine (row_token []) [bytes "aa", bytes "a", bytes "b"]
        = some (bytes "\"aa\",\"a\",\"b\"") ∧
      csv_line intEngine
          (row_token [(bytes "a", Value.integer 1), (bytes "b", Value.integer 2)])
          [bytes "aa", bytes "a", bytes "b"]
        = some (bytes "\"aa\",1,2") ∧
      csv_line intEngine
          (row_token [(bytes "a", Value.integer 3), (bytes "b", Value.text (bytes "foo"))])
          [bytes "aa", bytes "a", bytes "b"]
        = some (bytes "\"aa\",3,\"foo\"") := by
  decide

/-- Claim C13, at an input where the code departs from it: for the table
`A(a, b)` with the row `(1, 2)` and the row prefix `a`, the data query
projects the prefix as `quote_csv("a")`, the very expression it projects for
the column `a`, so the line starts with the cell of that column, `1,1,2`, and
not with the quoted prefix, `"a",1,2`. -/
theorem C13_csv_prefix_read_as_column :
    (dump_cb_queries ⟨0, -1, some (bytes "a"), 0⟩ (bytes "A") sample_columns).2
        = some (bytes ("SELECT quote_csv(\"a\") || ',' || quote_csv(\"a\") || ',' || " ++
            "quote_csv(\"b\") FROM \"A\"")) ∧
      csv_line intEngine
          (row_token [(bytes "a", Value.integer 1), (bytes "b", Value.integer 2)])
          [bytes "a", bytes "a", bytes "b"]
        = some (bytes "1,1,2") ∧
      quote_csv_func intEngine true [Value.text (bytes "a")]
        = Outcome.text (bytes "\"a\"") := by
  decide

/-- The line of a CSV query is the encodings of the values of its tokens,
joined by `,`. -/
theorem csv_line_eq (E : Engine) (read : Text → Value) (xs : List Text) (outs : List Text)
    (h : List.Forall₂ (fun x o => result_text E (quote_csv_func E true [read x]) = some o)
      xs outs) :
    csv_line E read xs = some (sep_join [44] outs) := by
  induction h with
  | nil => rfl
  | cons hx hrest ih =>
    rename_i x o xs2 outs2
    cases hrest with
    | nil => simp [csv_line, sep_join, hx]
    | cons hy hr =>
      rename_i y o2 xs3 outs3
      rw [csv_line, hx, ih]
      simp [sep_join]

/-! ## The XML data query -/

theorem table_dump_rows_executed (fputs_ret : Int) (dd : DUMP_DATA) (rows : List Text) :
    ∀ st : Dump, (table_dump_rows fputs_ret dd st rows).executed = st.executed := by
  induction rows with
  | nil => intro st; rfl
  | cons r rest ih =>
    intro st
    rw [table_dump_rows, ih]
    split_ifs <;> rfl

theorem table_dump_rows_out (fputs_ret : Int) (dd : DUMP_DATA) (rows : List Text) :
    ∀ st : Dump, (table_dump_rows fputs_ret dd st rows).out
      = st.out ++ rows.flatMap (fun r => r
          ++ (if dd.quote_mode ≥ 0 then [59] else [])
          ++ (if dd.quote_mode = -1 then [13] else [])
          ++ (if dd.quote_mode ≥ -1 then [10] else [])) := by
  induction rows with
  | nil => intro st; simp [table_dump_rows]
  | cons r rest ih =>
    intro st
    rw [table_dump_rows, ih]
    simp only [List.flatMap_cons]
    split_ifs <;> simp

theorem table_dump_executed (fputs_ret : Int) (engine : Nat → Text → QueryResult)
    (dd : DUMP_DATA) (st : Dump) (q : Text) :
    (table_dump fputs_ret engine dd st (some q)).1.executed = st.executed ++ [q] ∧
      (table_dump fputs_ret engine dd st (some q)).2
        = query_rc (engine st.executed.length q) := by
  unfold table_dump query_rc
  simp only
  split_ifs <;> simp [table_dump_rows_executed]

/-- Claim C18, as the code has it: for the rows a query returns, `table_dump`
writes each row's text followed by `;` and newline in SQL mode, by carriage
return and newline in CSV mode, and by nothing in XML mode. -/
theorem C18_row_terminators (fputs_ret : Int) (engine : Nat → Text → QueryResult)
    (dd : DUMP_DATA) (st : Dump) (q : Text)
    (hp : (engine st.executed.length q).prepare_rc = SQLITE_OK ∧
      (engine st.executed.length q).stmt = true) :
    (dd.quote_mode ≥ 0 →
      (table_dump fputs_ret engine dd st (some q)).1.out
        = st.out ++ (engine st.executed.length q).rows.flatMap (fun r => r ++ bytes ";\n")) ∧
    (dd.quote_mode = -1 →
      (table_dump fputs_ret engine dd st (some q)).1.out
        = st.out ++ (engine st.executed.length q).rows.flatMap (fun r => r ++ bytes "\r\n")) ∧
    (dd.quote_mode < -1 →
      (table_dump fputs_ret engine dd st (some q)).1.out
        = st.out ++ (engine st.executed.length q).rows.flatMap (fun r => r)) := by
  have e1 : bytes ";\n" = [59, 10] := by decide
  have e2 : bytes "\r\n" = [13, 10] := by decide
  have h : (table_dump fputs_ret engine dd st (some q)).1.out
      = st.out ++ (engine st.executed.length q).rows.flatMap (fun r => r
          ++ (if dd.quote_mode ≥ 0 then [59] else [])
          ++ (if dd.quote_mode = -1 then [13] else [])
          ++ (if dd.quote_mode ≥ -1 then [10] else [])) := by
    unfold table_dump
    simp only [hp.1, hp.2, ne_eq, not_true_eq_false, Bool.true_eq_false, or_self, if_false,
      table_dump_rows_out]
  refine ⟨?_, ?_, ?_⟩
  · intro hm
    have h1 : ¬ dd.quote_mode = -1 := by omega
    have h2 : dd.quote_mode ≥ -1 := by omega
    rw [h]
    simp [hm, h1, h2, e1]
  · intro hm
    rw [h]
    simp [hm, e2]
  · intro hm
    have h0 : ¬ dd.quote_mode ≥ 0 := by omega
    have h1 : ¬ dd.quote_mode = -1 := by omega
    have h2 : ¬ dd.quote_mode ≥ -1 := by omega
    rw [h]
    simp [h0, h1, h2]

/-- Instance of the amended C18: one CSV row. -/
theorem C18_row_terminators_witness :
    ((0 : Int) = SQLITE_OK ∧ true = true) ∧
    (table_dump 1 (fun _ _ => ⟨0, true, [bytes "\"aa\",1,2"], 0⟩) ⟨0, -1, none, 0⟩
        ⟨[], 0, []⟩ (some (bytes "SELECT 1"))).1.out
      = bytes "\"aa\",1,2\r\n" :=
  ⟨⟨rfl, rfl⟩,
    ((C18_row_terminators 1 (fun _ _ => ⟨0, true, [bytes "\"aa\",1,2"], 0⟩) ⟨0, -1, none, 0⟩
      ⟨[], 0, []⟩ (bytes "SELECT 1") ⟨rfl, rfl⟩).2.1 rfl).trans (by decide)⟩

/-- Claim C18 as stated fails: in CSV mode (`quote_mode = -1`) the row
`"aa",1,2` is followed by carriage return and newline, not by a bare
newline. -/
theorem C18_counterexample :
    (table_dump 1 (fun _ _ => ⟨0, true, [bytes "\"aa\",1,2"], 0⟩) ⟨0, -1, none, 0⟩
        ⟨[], 0, []⟩ (some (bytes "SELECT 1"))).1.out = bytes "\"aa\",1,2\r\n" ∧
      (table_dump 1 (fun _ _ => ⟨0, true, [bytes "\"aa\",1,2"], 0⟩) ⟨0, -1, none, 0⟩
        ⟨[], 0, []⟩ (some (bytes "SELECT 1"))).1.out ≠ bytes "\"aa\",1,2\n" := by
  decide

/-! ## dump_cb -/

theorem dump_cb_select_some (dd : DUMP_DATA) (table : Text) (cols : List Column) :
    ∃ select, (dump_cb_queries dd table cols).2 = some select := by
  unfold dump_cb_queries
  simp only [append_quote _ _ 34 (by decide : (34 : Nat) ≠ 0)]
  cases dd.where_ with
  | none => exact ⟨_, rfl⟩
  | some w =>
    by_cases h : dd.quote_mode ≥ 0
    · simp only [h, if_true, append_plain]
      exact ⟨_, rfl⟩
    · simp only [h, if_false]
      exact ⟨_, rfl⟩

theorem table_info_query_eq (table : Text) :
    table_info_query table
      = some (bytes "PRAGMA table_info(" ++ quoted 34 table ++ bytes ");") := by
  have a : append true none (some (bytes "PRAGMA table_info(")) 0
      = some (bytes "PRAGMA table_info(") := by decide
  simp only [table_info_query, a, append_quote _ _ 34 (by decide : (34 : Nat) ≠ 0),
    append_plain, Option.getD_some]

/-- The queries the data part of `dump_cb` hands to the engine, and its
return value, when `table_info` answers without error. -/
theorem dump_cb_data_executed (fputs_ret : Int) (table_info : Text → Option TableInfo)
    (engine : Nat → Text → QueryResult) (dd : DUMP_DATA) (st : Dump) (table type : Text)
    (info : TableInfo) (select : Text)
    (ht : type = bytes "table" ∨ (dd.quote_mode < 0 ∧ type = bytes "view"))
    (hi : (table_info_query table).bind table_info = some info) (hrc : info.rc = SQLITE_OK)
    (hs : (dump_cb_queries dd table info.rows).2 = some select) :
    (dump_cb_data fputs_ret table_info engine dd st table type).1.executed
      = st.executed ++ (dump_cb_queries dd table info.rows).1.toList ++ [select]
        ++ (if query_rc (engine
              (st.executed ++ (dump_cb_queries dd table info.rows).1.toList).length select)
              = SQLITE_CORRUPT
            then [select ++ bytes " ORDER BY rowid DESC"] else []) ∧
      (dump_cb_data fputs_ret table_info engine dd st table type).2 = 0 := by
  unfold dump_cb_data
  simp only [ht, if_true, hi, hrc, ne_eq, not_true_eq_false, if_false, hs, append_plain]
  cases hq : (dump_cb_queries dd table info.rows).1 with
  | none =>
    simp only [Option.toList_none, List.append_nil]
    have h1 := table_dump_executed fputs_ret engine dd st select
    by_cases hc : query_rc (engine st.executed.length select) = SQLITE_CORRUPT
    · simp only [h1.2, hc, if_true]
      have h2 := table_dump_executed fputs_ret engine dd
        (table_dump fputs_ret engine dd st (some select)).1
        (select ++ bytes " ORDER BY rowid DESC")
      simp only [h2.1, h1.1, and_self, List.append_assoc]
    · simp only [h1.2, hc, if_false, h1.1, List.append_nil, and_self]
  | some hdr =>
    simp only [Option.toList_some]
    have h0 := table_dump_executed fputs_ret engine dd st hdr
    have h1 := table_dump_executed fputs_ret engine dd
      (table_dump fputs_ret engine dd st (some hdr)).1 select
    rw [h0.1] at h1
    by_cases hc : query_rc (engine (st.executed ++ [hdr]).length select) = SQLITE_CORRUPT
    · simp only [h1.2, hc, if_true]
      have h2 := table_dump_executed fputs_ret engine dd
        (table_dump fputs_ret engine dd
          (table_dump fputs_ret engine dd st (some hdr)).1 (some select)).1
        (select ++ bytes " ORDER BY rowid DESC")
      simp only [h2.1, h1.1, and_self, List.append_assoc]
    · simp only [h1.2, hc, if_false, h1.1, List.append_nil, and_self]

theorem dump_cb_schema_executed (fputs_ret : Int) (table_info : Text → Option TableInfo)
    (dd : DUMP_DATA) (st : Dump) (table sql : Text) :
    (dump_cb_schema fputs_ret table_info dd st table sql).1.executed = st.executed := by
  unfold dump_cb_schema
  split_ifs <;> try rfl
  all_goals
    cases (table_info_query table).bind table_info with
    | none => rfl
    | some info =>
      simp only
      split_ifs
      · rfl
      · split <;> rfl

theorem dump_cb_schema_continues (fputs_ret : Int) (table_info : Text → Option TableInfo)
    (dd : DUMP_DATA) (st : Dump) (table sql : Text) (info : TableInfo)
    (hskip : table = bytes "sqlite_sequence" ∨ table = bytes "sqlite_stat1" ∨
      table.take 7 ≠ bytes "sqlite_")
    (hi : (table_info_query table).bind table_info = some info) (hrc : info.rc = SQLITE_OK) :
    (dump_cb_schema fputs_ret table_info dd st table sql).2 = none := by
  unfold dump_cb_schema
  by_cases h1 : table = bytes "sqlite_sequence"
  · simp only [h1, if_true]
    split_ifs <;> rfl
  by_cases h2 : table = bytes "sqlite_stat1"
  · simp only [h1, h2, if_true, if_false]
    split_ifs <;> rfl
  have h3 : table.take 7 ≠ bytes "sqlite_" := by
    rcases hskip with h | h | h
    · exact absurd h h1
    · exact absurd h h2
    · exact h
  simp only [h1, h2, h3, if_false, hi, hrc, ne_eq, not_true_eq_false]
  split_ifs
  all_goals rfl

theorem dump_cb_eq_data (fputs_ret : Int) (table_info : Text → Option TableInfo)
    (engine : Nat → Text → QueryResult) (dd : DUMP_DATA) (st : Dump)
    (table type sql : Text)
    (h : (dump_cb_schema fputs_ret table_info dd st table sql).2 = none) :
    dump_cb fputs_ret table_info engine dd st 3 table type sql
      = dump_cb_data fputs_ret table_info engine dd
          (dump_cb_schema fputs_ret table_info dd st table sql).1 table type := by
  unfold dump_cb
  simp only [ne_eq, not_true_eq_false, if_false]
  generalize dump_cb_schema fputs_ret table_info dd st table sql = p at h ⊢
  obtain ⟨s1, o⟩ := p
  simp only at h
  subst h
  rfl

/-- Claim C17: for a catalog entry whose data is dumped (a table, or a view
in CSV and XML mode, that is not skipped and whose `table_info` is read
without error), `dump_cb` hands the data query to the engine once, and a
second time if and only if the first execution returned `SQLITE_CORRUPT`,
then with ` ORDER BY rowid DESC` appended to the same text; nothing is
executed after that, and `dump_cb` returns 0. -/
theorem C17_corruption_retry_once (fputs_ret : Int) (table_info : Text → Option TableInfo)
    (engine : Nat → Text → QueryResult) (dd : DUMP_DATA) (st : Dump)
    (table type sql : Text) (info : TableInfo)
    (hskip : table = bytes "sqlite_sequence" ∨ table = bytes "sqlite_stat1" ∨
      table.take 7 ≠ bytes "sqlite_")
    (ht : type = bytes "table" ∨ (dd.quote_mode < 0 ∧ type = bytes "view"))
    (hi : (table_info_query table).bind table_info = some info) (hrc : info.rc = SQLITE_OK) :
    ∃ select : Text, (dump_cb_queries dd table info.rows).2 = some select ∧
      (dump_cb fputs_ret table_info engine dd st 3 table type sql).1.executed
        = st.executed ++ (dump_cb_queries dd table info.rows).1.toList ++ [select]
          ++ (if query_rc (engine
                (st.executed ++ (dump_cb_queries dd table info.rows).1.toList).length select)
                = SQLITE_CORRUPT
              then [select ++ bytes " ORDER BY rowid DESC"] else []) ∧
      (dump_cb fputs_ret table_info engine dd st 3 table type sql).2 = 0 := by
  obtain ⟨select, hs⟩ := dump_cb_select_some dd table info.rows
  refine ⟨select, hs, ?_⟩
  rw [dump_cb_eq_data fputs_ret table_info engine dd st table type sql
    (dump_cb_schema_continues fputs_ret table_info dd st table sql info hskip hi hrc)]
  have h := dump_cb_data_executed fputs_ret table_info engine dd
    (dump_cb_schema fputs_ret table_info dd st table sql).1 table type info select ht hi hrc hs
  rw [dump_cb_schema_executed] at h
  exact h

/-- Instance of C17: the first execution of the data query of `t(a, b)`
returns `SQLITE_CORRUPT`, the second one succeeds. -/
theorem C17_corruption_retry_once_witness :
    ((bytes "t" = bytes "sqlite_sequence" ∨ bytes "t" = bytes "sqlite_stat1" ∨
        (bytes "t").take 7 ≠ bytes "sqlite_") ∧
      (bytes "table" = bytes "table" ∨ ((0 : Int) < 0 ∧ bytes "table" = bytes "view")) ∧
      (table_info_query (bytes "t")).bind sample_table_info
        = some { rows := sample_columns, rc := 0 } ∧
      (0 : Int) = SQLITE_OK) ∧
    (dump_cb 1 sample_table_info corrupt_once ⟨1, 0, none, 0⟩ ⟨[], 0, []⟩ 3 (bytes "t")
        (bytes "table") (bytes "CREATE TABLE t(a,b)")).2 = 0 ∧
    (dump_cb 1 sample_table_info corrupt_once ⟨1, 0, none, 0⟩ ⟨[], 0, []⟩ 3 (bytes "t")
        (bytes "table") (bytes "CREATE TABLE t(a,b)")).1.executed
      = [bytes ("SELECT 'INSERT INTO ' || '\"t\"' || ' VALUES(' || quote_sql(\"a\") || " ++
            "',' || quote_sql(\"b\") || ')' FROM \"t\""),
         bytes ("SELECT 'INSERT INTO ' || '\"t\"' || ' VALUES(' || quote_sql(\"a\") || " ++
            "',' || quote_sql(\"b\") || ')' FROM \"t\" ORDER BY rowid DESC")] :=
  have hi : (table_info_query (bytes "t")).bind sample_table_info
      = some { rows := sample_columns, rc := 0 } := by
    rw [table_info_query_eq]; rfl
  ⟨⟨by decide, by decide, hi, rfl⟩,
    (match C17_corruption_retry_once 1 sample_table_info corrupt_once ⟨1, 0, none, 0⟩
        ⟨[], 0, []⟩ (bytes "t") (bytes "table") (bytes "CREATE TABLE t(a,b)")
        { rows := sample_columns, rc := 0 } (by decide) (by decide) hi rfl with
      | ⟨_, _, _, hr⟩ => hr),
    by decide⟩

/-- Claim C15, as the code has it: for the catalog entries `sqlite_sequence`
and `sqlite_stat1`, `dump_cb` writes the fixed statement (`DELETE FROM
sqlite_sequence;`, `ANALYZE sqlite_master;`) when schema output is requested
and no schema statement otherwise, never the stored definition, and then goes
on to the data part like for any other entry: for an entry of type `table`
whose `table_info` is read, the data SELECT is built and executed. -/
theorem C15_bookkeeping_tables (fputs_ret : Int) (table_info : Text → Option TableInfo)
    (engine : Nat → Text → QueryResult) (dd : DUMP_DATA) (st : Dump) (type sql : Text)
    (hf : 0 ≤ fputs_ret) :
    (dd.with_schema ≠ 0 →
      dump_cb fputs_ret table_info engine dd st 3 (bytes "sqlite_sequence") type sql
          = dump_cb_data fputs_ret table_info engine dd
              { st with
                out := st.out ++ bytes "DELETE FROM sqlite_sequence;\n"
                nlines := st.nlines + 1 } (bytes "sqlite_sequence") type ∧
        dump_cb fputs_ret table_info engine dd st 3 (bytes "sqlite_stat1") type sql
          = dump_cb_data fputs_ret table_info engine dd
              { st with
                out := st.out ++ bytes "ANALYZE sqlite_master;\n"
                nlines := st.nlines + 1 } (bytes "sqlite_stat1") type) ∧
    (dd.with_schema = 0 →
      dump_cb fputs_ret table_info engine dd st 3 (bytes "sqlite_sequence") type sql
          = dump_cb_data fputs_ret table_info engine dd st (bytes "sqlite_sequence") type ∧
        dump_cb fputs_ret table_info engine dd st 3 (bytes "sqlite_stat1") type sql
          = dump_cb_data fputs_ret table_info engine dd st (bytes "sqlite_stat1") type) ∧
    (∀ (table : Text) (info : TableInfo) (s : Dump), type = bytes "table" →
      (table_info_query table).bind table_info = some info → info.rc = SQLITE_OK →
      ∃ select, (dump_cb_queries dd table info.rows).2 = some select ∧
        select ∈ (dump_cb_data fputs_ret table_info engine dd s table type).1.executed) := by
  have hne : bytes "sqlite_stat1" ≠ bytes "sqlite_sequence" := by decide
  have hf2 : fputs_ret ≥ 0 := hf
  refine ⟨?_, ?_, ?_⟩
  · intro hs
    constructor
    · unfold dump_cb dump_cb_schema
      simp only [ne_eq, not_true_eq_false, if_false, if_true, hs, not_false_eq_true, hf2]
    · unfold dump_cb dump_cb_schema
      simp only [ne_eq, not_true_eq_false, if_false, if_true, hs, not_false_eq_true, hf2, hne]
  · intro hs
    constructor
    · unfold dump_cb dump_cb_schema
      simp only [ne_eq, not_true_eq_false, if_false, if_true, hs]
    · unfold dump_cb dump_cb_schema
      simp only [ne_eq, not_true_eq_false, if_false, if_true, hs, hne]
  · intro table info s ht hi hrc
    obtain ⟨select, hsel⟩ := dump_cb_select_some dd table info.rows
    refine ⟨select, hsel, ?_⟩
    rw [(dump_cb_data_executed fputs_ret table_info engine dd s table type info select
      (Or.inl ht) hi hrc hsel).1]
    simp

/-- Instance of the amended C15: `sqlite_sequence` with schema output. -/
theorem C15_bookkeeping_tables_witness :
    (0 : Int) ≤ 1 ∧
    dump_cb 1 (fun _ => some sequence_info) corrupt_once ⟨1, 0, none, 0⟩ ⟨[], 0, []⟩ 3
        (bytes "sqlite_sequence") (bytes "table")
        (bytes "CREATE TABLE sqlite_sequence(name,seq)")
      = dump_cb_data 1 (fun _ => some sequence_info) corrupt_once ⟨1, 0, none, 0⟩
          { (⟨[], 0, []⟩ : Dump) with
            out := [] ++ bytes "DELETE FROM sqlite_sequence;\n"
            nlines := 0 + 1 } (bytes "sqlite_sequence") (bytes "table") :=
  ⟨by decide,
    ((C15_bookkeeping_tables 1 (fun _ => some sequence_info) corrupt_once
      ⟨1, 0, none, 0⟩ ⟨[], 0, []⟩ (bytes "table")
      (bytes "CREATE TABLE sqlite_sequence(name,seq)") (by decide)).1 (by decide)).1⟩

set_option maxRecDepth 8000 in
/-- Claim C15 as stated fails: for the entry `sqlite_sequence` of type `table`
with schema output requested, `dump_cb` writes the DELETE statement and then
builds and executes the data SELECT and writes its rows. -/
theorem C15_counterexample :
    dump_cb 1 (fun _ => some sequence_info)
        (fun _ _ => ⟨0, true, [bytes "INSERT INTO \"sqlite_sequence\" VALUES('t',1)"], 0⟩)
        ⟨1, 0, none, 0⟩ ⟨[], 0, []⟩ 3 (bytes "sqlite_sequence") (bytes "table")
        (bytes "CREATE TABLE sqlite_sequence(name,seq)")
      = (⟨bytes ("DELETE FROM sqlite_sequence;\n" ++
            "INSERT INTO \"sqlite_sequence\" VALUES('t',1);\n"), 2,
          [bytes ("SELECT 'INSERT INTO ' || '\"sqlite_sequence\"' || ' VALUES(' || " ++
            "quote_sql(\"name\") || ',' || quote_sql(\"seq\") || ')' " ++
            "FROM \"sqlite_sequence\"")]⟩, 0) := by
  decide

theorem creat_loop_eq (cols : List Column) :
    ∀ s : Text, creat_loop (some s) cols
      = some (s ++ sep_join (bytes ",") (cols.map column_def)) := by
  induction cols with
  | nil => intro s; simp [creat_loop, sep_join]
  | cons c rest ih =>
    intro s
    have hstep : ∀ t : Text,
        (if !rest.isEmpty then
            append true (some (s ++ column_def c)) (some (bytes ",")) 0
          else some (s ++ column_def c)) = some t →
        creat_loop (some s) (c :: rest) = creat_loop (some t) rest := by
      intro t ht
      rw [creat_loop, ← ht]
      congr 1
      unfold column_def
      rcases c with ⟨name, type, notnull, dflt, pk⟩
      simp only [append_quote _ _ 34 (by decide : (34 : Nat) ≠ 0), append_plain,
        Option.getD_some]
      cases type with
      | none =>
        cases dflt with
        | none =>
          by_cases hp : pk = 0 <;> by_cases hn : notnull = 0 <;>
            simp [hp, hn, append_plain]
        | some d =>
          by_cases hd : d = [] <;> by_cases hp : pk = 0 <;> by_cases hn : notnull = 0 <;>
            simp [hd, hp, hn, append_plain]
      | some ty =>
        cases dflt with
        | none =>
          by_cases hty : ty = [] <;> by_cases hp : pk = 0 <;> by_cases hn : notnull = 0 <;>
            simp [hty, hp, hn, append_plain]
        | some d =>
          by_cases hty : ty = [] <;> by_cases hd : d = [] <;> by_cases hp : pk = 0 <;>
            by_cases hn : notnull = 0 <;> simp [hty, hd, hp, hn, append_plain]
    cases rest with
    | nil =>
      rw [hstep (s ++ column_def c) (by simp)]
      simp [creat_loop, sep_join]
    | cons c2 rest2 =>
      rw [hstep (s ++ column_def c ++ bytes ",") (by simp [append_plain]), ih]
      simp [sep_join]

/-- Claim C16: for a catalog entry whose definition starts with `CREATE
VIRTUAL TABLE` (and whose name is not reserved), when schema output is
requested `dump_cb` writes, instead of the stored definition, the one line
`CREATE TABLE "name"(col1,...,coln);` with the columns in the order of
`table_info`, separated by `,`, each the double-quoted name, a space, the
declared type when it is not empty, ` PRIMARY KEY` for a primary-key column,
` NOT NULL` for a not-null column, ` DEFAULT ` and the default text when
there is one; when schema output is not requested it writes no definition;
in both cases it then goes on to the data part. -/
theorem C16_virtual_table_definition (fputs_ret : Int)
    (table_info : Text → Option TableInfo) (engine : Nat → Text → QueryResult)
    (dd : DUMP_DATA) (st : Dump) (table type sql : Text) (info : TableInfo)
    (hname : table.take 7 ≠ bytes "sqlite_")
    (hsql : sql.take 20 = bytes "CREATE VIRTUAL TABLE")
    (hi : (table_info_query table).bind table_info = some info) (hrc : info.rc = SQLITE_OK) :
    (dd.with_schema ≠ 0 →
      dump_cb fputs_ret table_info engine dd st 3 table type sql
        = dump_cb_data fputs_ret table_info engine dd
            { st with
              out := st.out ++ bytes "CREATE TABLE " ++ (quoted 34 table ++ bytes "("
                ++ sep_join (bytes ",") (info.rows.map (fun c =>
                    quoted 34 (c.name.getD []) ++ bytes " " ++ c.type.getD []
                    ++ (if c.pk ≠ 0 then bytes " PRIMARY KEY" else [])
                    ++ (if c.notnull ≠ 0 then bytes " NOT NULL" else [])
                    ++ (if c.dflt_value.getD [] ≠ [] then
                          bytes " DEFAULT " ++ c.dflt_value.getD [] else [])))
                ++ bytes ")") ++ bytes ";\n"
              nlines := st.nlines + 1 } table type) ∧
    (dd.with_schema = 0 →
      dump_cb fputs_ret table_info engine dd st 3 table type sql
        = dump_cb_data fputs_ret table_info engine dd st table type) := by
  have h1 : table ≠ bytes "sqlite_sequence" := by
    rintro rfl
    exact hname (by decide)
  have h2 : table ≠ bytes "sqlite_stat1" := by
    rintro rfl
    exact hname (by decide)
  have hf : (fun c : Column =>
      quoted 34 (c.name.getD []) ++ bytes " " ++ c.type.getD []
      ++ (if c.pk ≠ 0 then bytes " PRIMARY KEY" else [])
      ++ (if c.notnull ≠ 0 then bytes " NOT NULL" else [])
      ++ (if c.dflt_value.getD [] ≠ [] then
            bytes " DEFAULT " ++ c.dflt_value.getD [] else [])) = column_def := rfl
  rw [hf]
  constructor
  · intro hs
    unfold dump_cb dump_cb_schema
    simp only [ne_eq, not_true_eq_false, if_false, h1, h2, hname, hsql, if_true, hs,
      not_false_eq_true, hi, hrc, append_quote _ _ 34 (by decide : (34 : Nat) ≠ 0),
      append_plain, Option.getD_none, Option.getD_some, List.nil_append, creat_loop_eq,
      List.append_assoc]
  · intro hs
    unfold dump_cb dump_cb_schema
    simp only [ne_eq, not_true_eq_false, if_false, h1, h2, hname, hsql, if_true, hs]

/-- Instance of C16: the virtual table `v` with the columns `a INTEGER` and
`b TEXT`, schema output requested. -/
theorem C16_virtual_table_definition_witness :
    ((bytes "v").take 7 ≠ bytes "sqlite_" ∧
      (bytes "CREATE VIRTUAL TABLE v USING m(a,b)").take 20 = bytes "CREATE VIRTUAL TABLE" ∧
      (table_info_query (bytes "v")).bind sample_table_info
        = some { rows := sample_columns, rc := 0 } ∧
      (0 : Int) = SQLITE_OK) ∧
    (dump_cb 1 sample_table_info corrupt_once ⟨1, 0, none, 0⟩ ⟨[], 0, []⟩ 3 (bytes "v")
        (bytes "view") (bytes "CREATE VIRTUAL TABLE v USING m(a,b)")).1.out
      = bytes "CREATE TABLE \"v\"(\"a\" INTEGER,\"b\" TEXT);\n" :=
  have hi : (table_info_query (bytes "v")).bind sample_table_info
      = some { rows := sample_columns, rc := 0 } := by
    rw [table_info_query_eq]; rfl
  ⟨⟨by decide, by decide, hi, rfl⟩,
    (congrArg (fun r => r.1.out)
      ((C16_virtual_table_definition 1 sample_table_info corrupt_once ⟨1, 0, none, 0⟩
        ⟨[], 0, []⟩ (bytes "v") (bytes "view") (bytes "CREATE VIRTUAL TABLE v USING m(a,b)")
        { rows := sample_columns, rc := 0 } (by decide) (by decide) hi rfl).1
        (by decide))).trans (by decide)⟩

/-! ## The size checks of the quoting functions -/

theorem store_overrun (size : Int) (p : Text) (h : size < (p.length : Int) + 1) :
    store size p = Outcome.overrun := by
  unfold store
  rw [if_neg (by omega)]

theorem quote_xml_blob_wraps (addtype : Int) (b : Text) (hb : b.length = 715827883) :
    quote_xml_blob true addtype b = Outcome.overrun := by
  have hw : wrap32 (6 * (b.length : Int) + 34) = 36 := by
    rw [hb]; unfold wrap32; norm_num
  have hm : sqlite3_malloc true 36 = true := by decide
  simp only [quote_xml_blob, hw, hm]
  rw [if_neg (by norm_num)]
  simp only [Bool.not_true, Bool.false_eq_true, if_false]
  apply store_overrun
  simp only [List.length_append, xml_blob_loop_length, hb, Nat.cast_add]
  have : (0 : Int) ≤ ((if addtype > 0 then bytes " TYPE=\"BLOB\">" else []).length : Int) :=
    Int.natCast_nonneg _
  push_cast
  omega

theorem quote_func_blob_wraps (mode : Int) (b : Text) (hb : b.length = 1073741822) :
    quote_func_blob true mode b = Outcome.error (bytes "out of memory") := by
  have hw : wrap32 (2 * (b.length : Int) + 4) = -2147483648 := by
    rw [hb]; unfold wrap32; norm_num
  have hm : sqlite3_malloc true (-2147483648) = false := by decide
  simp only [quote_func_blob, hw, hm]
  rw [if_neg (by norm_num)]
  simp

/-- The size check of the BLOB cases is exact as long as the encoded length
is representable as an `int`. -/
theorem blob_size_check_exact (avail : Bool) (mode addtype : Int) (b : Text) :
    (2 * (b.length : Int) + 4 ≤ 2147483647 →
      (quote_func_blob avail mode b = Outcome.error (bytes "value too large")
          ↔ 2 * (b.length : Int) + 4 > 1000000000) ∧
        (quote_csv_func_blob avail b = Outcome.error (bytes "value too large")
          ↔ 2 * (b.length : Int) + 4 > 1000000000)) ∧
    (6 * (b.length : Int) + 34 ≤ 2147483647 →
      (quote_xml_blob avail addtype b = Outcome.error (bytes "value too large")
        ↔ 6 * (b.length : Int) + 34 > 1000000000)) := by
  have hne : bytes "out of memory" ≠ bytes "value too large" := by decide
  have st : ∀ (size : Int) (p : Text),
      store size p ≠ Outcome.error (bytes "value too large") := by
    intro size p
    rcases store_text_cases size p with h | h <;> rw [h] <;> simp
  constructor
  · intro h
    have hw : wrap32 (2 * (b.length : Int) + 4) = 2 * (b.length : Int) + 4 :=
      wrap32_of_range _ (by omega) h
    constructor
    · unfold quote_func_blob
      simp only [hw]
      by_cases hc : 2 * (b.length : Int) + 4 > 1000000000
      · simp [hc]
      · simp only [hc, if_false, iff_false]
        split_ifs
        all_goals first
          | exact st _ _
          | simp [hne]
    · unfold quote_csv_func_blob
      simp only [hw]
      by_cases hc : 2 * (b.length : Int) + 4 > 1000000000
      · simp [hc]
      · simp only [hc, if_false, iff_false]
        split_ifs
        all_goals first
          | exact st _ _
          | simp [hne]
  · intro h
    have hw : wrap32 (6 * (b.length : Int) + 34) = 6 * (b.length : Int) + 34 :=
      wrap32_of_range _ (by omega) h
    unfold quote_xml_blob
    simp only [hw]
    by_cases hc : 6 * (b.length : Int) + 34 > 1000000000
    · simp [hc]
    · simp only [hc, if_false, iff_false]
      split_ifs
      all_goals first
        | exact st _ _
        | simp [hne]

/-- Claim C20, at inputs where the code departs from it: for a blob of
715827883 bytes the size `6n + 34` of `quote_xml_func` is 2^32 + 36 and wraps
to 36, so no error is reported, 36 bytes are allocated and the entities are
stored past their end; for a blob of 1073741822 bytes the size `2n + 4` of
`quote_func` is 2^31 and wraps to a negative number, so the error reported is
`out of memory` and not `value too large`. -/
theorem C20_size_check_wraps :
    wrap32 (6 * 715827883 + 34) = 36 ∧
      (∀ (E : Engine) (b : Text) (rest : List Value), b.length = 715827883 →
        quote_xml_func E true (Value.blob b :: rest) = Outcome.overrun) ∧
      quote_xml_func intEngine true [Value.blob (List.replicate 715827883 0)]
        = Outcome.overrun ∧
      wrap32 (2 * 1073741822 + 4) = -2147483648 ∧
      (∀ (E : Engine) (b : Text) (rest : List Value), b.length = 1073741822 →
        quote_func E true (Value.blob b :: rest) = Outcome.error (bytes "out of memory")) := by
  refine ⟨by unfold wrap32; norm_num, ?_, ?_, by unfold wrap32; norm_num, ?_⟩
  · intro E b rest hb
    simp only [quote_xml_func]
    exact quote_xml_blob_wraps _ b hb
  · simp only [quote_xml_func]
    exact quote_xml_blob_wraps _ _ (List.length_replicate _ _)
  · intro E b rest hb
    simp only [quote_func]
    exact quote_func_blob_wraps _ b hb

/-! ## Allocation failure in the quoting functions -/

theorem sqlite3_malloc_unavail (n : Int) : sqlite3_malloc false n = false := by
  simp [sqlite3_malloc]

theorem quote_text_case_unavail (q : Nat) (t : Text)
    (hsz : (cstr t).length + (cstr t).count q + 3 ≤ 1000000000) :
    quote_text_case q false (some t)
      = Outcome.error_then_null_store (bytes "out of memory") := by
  have hw : wrap32 (((cstr t).length : Int) + ((cstr t).count q : Int) + 3)
      = ((cstr t).length : Int) + ((cstr t).count q : Int) + 3 :=
    wrap32_of_range _ (by omega) (by omega)
  simp only [quote_text_case, count_loop_eq, hw, sqlite3_malloc_unavail]
  rw [if_neg (by omega)]
  simp

/-- Claim C21, at the inputs where the code departs from it: when the
allocation fails in the TEXT branch of `quote_func` and of `quote_csv_func`,
the error `out of memory` is set but the function does not return, and goes
on to store the opening quote through the NULL pointer; the TEXT branch of
`quote_xml_func` and the BLOB and number branches report the error and return. -/
theorem C21_text_branch_stores_through_null :
    quote_func intEngine false [Value.text (bytes "abc")]
        = Outcome.error_then_null_store (bytes "out of memory") ∧
      quote_csv_func intEngine false [Value.text (bytes "abc")]
        = Outcome.error_then_null_store (bytes "out of memory") ∧
      (∀ (E : Engine) (t : Text) (rest : List Value),
        (cstr t).length + (cstr t).count 39 + 3 ≤ 1000000000 →
        quote_func E false (Value.text t :: rest)
          = Outcome.error_then_null_store (bytes "out of memory")) ∧
      (∀ (E : Engine) (t : Text) (rest : List Value),
        (cstr t).length + (cstr t).count 34 + 3 ≤ 1000000000 →
        quote_csv_func E false (Value.text t :: rest)
          = Outcome.error_then_null_store (bytes "out of memory")) ∧
      quote_xml_func intEngine false [Value.text (bytes "abc")]
        = Outcome.error (bytes "out of memory") ∧
      quote_func intEngine false [Value.blob [1, 2]] = Outcome.error (bytes "out of memory") ∧
      quote_csv_func intEngine false [Value.blob [1, 2]]
        = Outcome.error (bytes "out of memory") ∧
      quote_xml_func intEngine false [Value.blob [1, 2]]
        = Outcome.error (bytes "out of memory") ∧
      quote_xml_func intEngine false [Value.integer 5, Value.integer 1]
        = Outcome.error (bytes "out of memory") := by
  refine ⟨by decide, by decide, ?_, ?_, by decide, by decide, by decide, by decide, by decide⟩
  · intro E t rest h
    simp only [quote_func, sqlite3_value_text]
    exact quote_text_case_unavail 39 t h
  · intro E t rest h
    simp only [quote_csv_func, sqlite3_value_text]
    exact quote_text_case_unavail 34 t h

/-! ## The buffer of the TEXT case of quote_xml_func -/

theorem cstr_replicate (n c : Nat) (hc : c ≠ 0) :
    cstr (List.replicate n c) = List.replicate n c := by
  apply cstr_of_no_nul
  intro h
  exact hc (List.eq_of_mem_replicate h).symm

theorem xml_count_loop_spaces (n : Nat) : xml_count_loop (List.replicate n 32) = 0 := by
  induction n with
  | zero => rfl
  | succ k ih =>
    rw [List.replicate_succ, xml_count_loop, ih]
    simp

theorem xml_text_loop_spaces (addtype : Int) (h : addtype < 0) (n : Nat) :
    (xml_text_loop addtype (List.replicate n 32)).length = 6 * n := by
  induction n with
  | zero => rfl
  | succ k ih =>
    rw [List.replicate_succ, xml_text_loop, List.length_append, ih]
    simp [xml_text_step, xml_numeric, h]
    omega

/-- Claim C29, at the inputs where the code departs from it: with a negative
tag mode every space is written as the six bytes of a numeric entity, but the
counting loop that sizes the buffer counts it as one byte; for a text of `n`
spaces, 7 or more, the buffer has `n + 32` bytes and the write loop stores
`6 * n` bytes and the terminator, so the stores run past its end.  With a tag
mode that is not negative the bytes written, terminator included, fit the
allocated size. -/
theorem C29_strict_spaces_exceed_allocation :
    (∀ (addtype : Int) (n : Nat), addtype < 0 → 7 ≤ n → n + 32 ≤ 1000000000 →
        wrap32 (((cstr (List.replicate n 32)).length : Int)
          + xml_count_loop (cstr (List.replicate n 32)) + 32) = (n : Int) + 32 ∧
        ((xml_text_loop addtype (cstr (List.replicate n 32))).length : Int) + 1
          = 6 * (n : Int) + 1 ∧
        (n : Int) + 32 < 6 * (n : Int) + 1 ∧
        quote_xml_text true addtype (some (List.replicate n 32)) = Outcome.overrun) ∧
      quote_xml_func intEngine true [Value.text (bytes "a       b"), Value.integer (-1)]
        = Outcome.overrun ∧
      (∀ (addtype : Int) (t : Text), 0 ≤ addtype → 0 ∉ t →
        (t.length : Int) + xml_count_loop t + 32 ≤ 1000000000 →
        (((if addtype > 0 then bytes " TYPE=\"TEXT\">" else [])
            ++ xml_text_loop addtype (cstr t)).length : Int) + 1
          ≤ wrap32 (((cstr t).length : Int) + xml_count_loop (cstr t) + 32)) := by
  refine ⟨?_, by decide, ?_⟩
  · intro addtype n ha hn hsz
    have hc := cstr_replicate n 32 (by decide)
    have hw : wrap32 ((n : Int) + 0 + 32) = (n : Int) + 32 := by
      rw [wrap32_of_range _ (by omega) (by omega)]
      omega
    have hl := xml_text_loop_spaces addtype ha n
    refine ⟨?_, ?_, by omega, ?_⟩
    · rw [hc, xml_count_loop_spaces, List.length_replicate, hw]
    · rw [hc, hl]
      push_cast
      rfl
    · have hm := sqlite3_malloc_pos ((n : Int) + 32) (by omega)
      have hg : ¬ addtype > 0 := by omega
      simp only [quote_xml_text, hc, xml_count_loop_spaces, List.length_replicate, hw, hm, hg,
        if_false, List.nil_append]
      rw [if_neg (by omega)]
      simp only [Bool.not_true, Bool.false_eq_true, if_false]
      apply store_overrun
      rw [hl]
      push_cast
      omega
  · intro addtype t ha h0 hsz
    have hn := xml_count_loop_nonneg t
    have hw : wrap32 ((t.length : Int) + xml_count_loop t + 32)
        = (t.length : Int) + xml_count_loop t + 32 := wrap32_of_range _ (by omega) (by omega)
    have hl := xml_escape_length_le (decide (addtype < 0)) t
    have hneg : ¬ addtype < 0 := by omega
    have hp : (bytes " TYPE=\"TEXT\">").length = 13 := by decide
    rw [cstr_of_no_nul t h0, hw, xml_text_loop_eq]
    simp only [hneg, decide_False, Bool.false_eq_true, if_false] at hl ⊢
    split_ifs
    · simp only [List.length_append, hp, Nat.cast_add]
      omega
    · simp only [List.nil_append]
      omega

/-! ## quote_xml_str against quote_xml_func -/

theorem quote_xml_str_step_eq (c : Nat) (h0 : c ≠ 0) :
    quote_xml_str_step c
      = if c ≤ 32 then 38 :: xml_text_step (-1) c else xml_text_step (-1) c := by
  have e1 : bytes "&quot;" = [38, 113, 117, 111, 116, 59] := by decide
  have e2 : bytes "&apos;" = [38, 97, 112, 111, 115, 59] := by decide
  have e3 : bytes "&lt;" = [38, 108, 116, 59] := by decide
  have e4 : bytes "&gt;" = [38, 103, 116, 59] := by decide
  have e5 : bytes "&amp;" = [38, 97, 109, 112, 59] := by decide
  by_cases h : c ≤ 32
  · interval_cases c <;> first
      | exact absurd rfl h0
      | decide
  · unfold quote_xml_str_step xml_text_step
    simp only [e1, e2, e3, e4, e5, h, if_false]
    have hlt : ¬ c < 32 := by omega
    have h32 : ¬ c = 32 := by omega
    simp only [hlt, h32, and_false, if_false]

/-- Claim C30, at the input where the code departs from it: for the root tag
`a b` the function `quote_xml_str` fills its buffer with `&` twice and writes
`a&&#x20;b`, while `quote_xml('a b', -1)` gives `a&#x20;b`.  The two agree on
every byte above 0x20; for a byte at or below 0x20 `quote_xml_str` writes one
`&` more. -/
theorem C30_quote_xml_str_doubles_ampersand :
    quote_xml_str (some (bytes "a b")) = bytes "a&&#x20;b" ∧
      quote_xml_func intEngine true [Value.text (bytes "a b"), Value.integer (-1)]
        = Outcome.text (bytes "a&#x20;b") ∧
      (∀ c : Nat, c ≠ 0 →
        quote_xml_str_step c
          = if c ≤ 32 then 38 :: xml_text_step (-1) c else xml_text_step (-1) c) ∧
      (∀ s : Text, (∀ c ∈ s, 32 < c) →
        quote_xml_str (some s) = xml_text_loop (-1) (cstr s)) := by
  refine ⟨by decide, by decide, quote_xml_str_step_eq, ?_⟩
  intro s hs
  have h0 : 0 ∉ s := fun h => absurd (hs 0 h) (by decide)
  rw [quote_xml_str, cstr_of_no_nul s h0]
  induction s with
  | nil => rfl
  | cons c rest ih =>
    have hc : 32 < c := hs c (List.mem_cons_self c rest)
    have hr : ∀ x ∈ rest, 32 < x := fun x hx => hs x (List.mem_cons_of_mem c hx)
    have h0r : 0 ∉ rest := fun h => absurd (hr 0 h) (by decide)
    rw [quote_xml_str_loop, xml_text_loop, ih hr h0r, quote_xml_str_step_eq c (by omega),
      if_neg (by omega)]

/-! ## The language of all_whitespace -/

theorem all_whitespace_from_line_nl (body rest : Text) (h : 10 ∉ body) :
    all_whitespace_from .line (body ++ [10] ++ rest) = all_whitespace_from .code rest := by
  induction body with
  | nil => simp [all_whitespace_from]
  | cons c b ih =>
    have hc : c ≠ 10 := fun e => h (e ▸ List.mem_cons_self _ _)
    have hr : 10 ∉ b := fun m => h (List.mem_cons_of_mem _ m)
    have e : (c :: b) ++ [10] ++ rest = c :: (b ++ [10] ++ rest) := by simp
    rw [e, all_whitespace_from, if_neg hc, ih hr]

theorem all_whitespace_of_whitespace_text (l : Text) (h : WhitespaceText l) :
    all_whitespace_from .code l = true := by
  have h47 : ISSPACE 47 = false := by decide
  have h45 : ISSPACE 45 = false := by decide
  induction h with
  | blank => rfl
  | space c rest hc _ ih =>
    cases rest with
    | nil => simpa [all_whitespace_from] using hc
    | cons d r => simp only [all_whitespace_from, hc, if_true, ih]
  | block body rest hb _ ih =>
    have e : [47, 42] ++ body ++ [42, 47] ++ rest = 47 :: 42 :: (body ++ [42, 47] ++ rest) := by
      simp
    rw [e, all_whitespace_from]
    simp only [h47, Bool.false_eq_true, if_false, and_self, if_true]
    rw [all_whitespace_from_block body rest hb]
    exact ih
  | line body rest hb _ ih =>
    have e : [45, 45] ++ body ++ [10] ++ rest = 45 :: 45 :: (body ++ [10] ++ rest) := by simp
    rw [e, all_whitespace_from]
    simp only [h45, Bool.false_eq_true, if_false, and_self, if_true]
    have h2 : ¬ ((45 : Nat) = 47 ∧ (45 : Nat) = 42) := by decide
    simp only [h2, if_false]
    rw [all_whitespace_from_line_nl body rest hb]
    exact ih
  | last body hb =>
    have e : [45, 45] ++ body = 45 :: 45 :: body := by simp
    rw [e, all_whitespace_from]
    simp only [h45, Bool.false_eq_true, if_false, and_self, if_true]
    have h2 : ¬ ((45 : Nat) = 47 ∧ (45 : Nat) = 42) := by decide
    simp only [h2, if_false]
    exact all_whitespace_from_line body hb

theorem all_whitespace_block_inv (l : Text) (h : all_whitespace_from .block l = true) :
    ∃ body rest, l = body ++ [42, 47] ++ rest ∧ ¬ [42, 47] <:+: body ∧
      all_whitespace_from .code rest = true := by
  induction l with
  | nil => simp [all_whitespace_from] at h
  | cons c t ih =>
    cases t with
    | nil => simp [all_whitespace_from] at h
    | cons d r =>
      rw [all_whitespace_from] at h
      by_cases hcd : c = 42 ∧ d = 47
      · rw [if_pos hcd] at h
        obtain ⟨rfl, rfl⟩ := hcd
        exact ⟨[], r, by simp, by simp, h⟩
      · rw [if_neg hcd] at h
        obtain ⟨body, rest, e, hb, hr⟩ := ih h
        refine ⟨c :: body, rest, by simp [e], ?_, hr⟩
        intro hin
        rcases List.infix_cons_iff.mp hin with hp | hi
        · cases body with
          | nil =>
            have := hp.length_le
            simp at this
          | cons x b2 =>
            have e2 : d :: r = x :: (b2 ++ [42, 47] ++ rest) := by simpa using e
            have hx : d = x := (List.cons.inj e2).1
            obtain ⟨s, hs⟩ := hp
            have hs2 : (42 : Nat) :: 47 :: s = c :: x :: b2 := by simpa using hs
            have h1 := (List.cons.inj hs2).1
            have h2 := (List.cons.inj (List.cons.inj hs2).2).1
            exact hcd ⟨h1.symm, by omega⟩
        · exact hb hi

theorem all_whitespace_line_inv (l : Text) (h : all_whitespace_from .line l = true) :
    10 ∉ l ∨ ∃ body rest, l = body ++ [10] ++ rest ∧ 10 ∉ body ∧
      all_whitespace_from .code rest = true := by
  induction l with
  | nil => exact Or.inl (by simp)
  | cons c t ih =>
    rw [all_whitespace_from] at h
    by_cases hc : c = 10
    · rw [if_pos hc] at h
      subst hc
      exact Or.inr ⟨[], t, by simp, by simp, h⟩
    · rw [if_neg hc] at h
      rcases ih h with hn | ⟨body, rest, e, hb, hr⟩
      · left
        intro hm
        rcases List.mem_cons.mp hm with h1 | h1
        · exact hc h1.symm
        · exact hn h1
      · right
        refine ⟨c :: body, rest, by simp [e], ?_, hr⟩
        intro hm
        rcases List.mem_cons.mp hm with h1 | h1
        · exact hc h1.symm
        · exact hb h1

theorem whitespace_text_of_all_whitespace :
    ∀ (n : Nat) (l : Text), l.length ≤ n → all_whitespace_from .code l = true →
      WhitespaceText l := by
  intro n
  induction n with
  | zero =>
    intro l hl _
    have : l = [] := List.length_eq_zero.mp (by omega)
    subst this
    exact WhitespaceText.blank
  | succ k ih =>
    intro l hl h
    match l, hl, h with
    | [], _, _ => exact WhitespaceText.blank
    | [c], _, h =>
      have hc : ISSPACE c = true := by simpa [all_whitespace_from] using h
      exact WhitespaceText.space c [] hc WhitespaceText.blank
    | c :: d :: rest, hl, h =>
      rw [all_whitespace_from] at h
      have hlen : rest.length + 2 ≤ k + 1 := by simpa using hl
      by_cases hs : ISSPACE c = true
      · rw [if_pos hs] at h
        exact WhitespaceText.space c (d :: rest) hs
          (ih (d :: rest) (by simp only [List.length_cons]; omega) h)
      · rw [if_neg hs] at h
        by_cases hb : c = 47 ∧ d = 42
        · rw [if_pos hb] at h
          obtain ⟨rfl, rfl⟩ := hb
          obtain ⟨body, r, e, hbody, hr⟩ := all_whitespace_block_inv rest h
          have hrl : r.length ≤ k := by
            have := congrArg List.length e
            simp only [List.length_append, List.length_cons, List.length_nil] at this
            omega
          have e2 : 47 :: 42 :: rest = [47, 42] ++ body ++ [42, 47] ++ r := by simp [e]
          rw [e2]
          exact WhitespaceText.block body r hbody (ih r hrl hr)
        · rw [if_neg hb] at h
          by_cases hd : c = 45 ∧ d = 45
          · rw [if_pos hd] at h
            obtain ⟨rfl, rfl⟩ := hd
            rcases all_whitespace_line_inv rest h with hn | ⟨body, r, e, hbody, hr⟩
            · exact WhitespaceText.last rest hn
            · have hrl : r.length ≤ k := by
                have := congrArg List.length e
                simp only [List.length_append, List.length_cons, List.length_nil] at this
                omega
              have e2 : 45 :: 45 :: rest = [45, 45] ++ body ++ [10] ++ r := by simp [e]
              rw [e2]
              exact WhitespaceText.line body r hbody (ih r hrl hr)
          · rw [if_neg hd] at h
            exact absurd h (by simp)

theorem all_whitespace_iff_whitespace_text (l : Text) :
    all_whitespace l = true ↔ WhitespaceText l :=
  ⟨whitespace_text_of_all_whitespace l.length l (le_refl _),
    all_whitespace_of_whitespace_text l⟩

theorem whitespace_text_of_comment_only (l : Text) (h : CommentOnly l) : WhitespaceText l := by
  induction h with
  | blank => exact WhitespaceText.blank
  | space c rest hc _ ih => exact WhitespaceText.space c rest hc ih
  | block body rest hb _ ih => exact WhitespaceText.block body rest hb ih
  | line body hb => exact WhitespaceText.last body hb

theorem comment_only_of_whitespace_text (l : Text) (h : WhitespaceText l) (hn : 10 ∉ l) :
    CommentOnly l := by
  induction h with
  | blank => exact CommentOnly.blank
  | space c rest hc _ ih =>
    exact CommentOnly.space c rest hc (ih (fun m => hn (List.mem_cons_of_mem _ m)))
  | block body rest hb _ ih =>
    exact CommentOnly.block body rest hb (ih (fun m => hn (by simp [m])))
  | line body rest hb _ _ => exact absurd (by simp) hn
  | last body hb => exact CommentOnly.line body hb

/-- Claim C28: `all_whitespace` returns true exactly for the texts made of
whitespace characters, complete block comments and `--` comments, each `--`
comment running to the end of its line and the last one possibly to the end of
the text; on a line that holds no newline this is a sequence of whitespace
characters and complete block comments, optionally followed by one `--`
comment.  A block comment opened and not closed gives false, as for `/*/` and
`/* x`. -/
theorem C28_all_whitespace_language (line : Text) (_h0 : 0 ∉ line) :
    (all_whitespace line = true ↔ WhitespaceText line) ∧
      (10 ∉ line → (all_whitespace line = true ↔ CommentOnly line)) ∧
      (∀ body : Text, ¬ [42, 47] <:+: body → all_whitespace ([47, 42] ++ body) = false) ∧
      all_whitespace (bytes "/*/") = false ∧ all_whitespace (bytes "/* x") = false := by
  refine ⟨all_whitespace_iff_whitespace_text line, ?_, ?_, by decide, by decide⟩
  · intro hn
    constructor
    · intro h
      exact comment_only_of_whitespace_text line
        ((all_whitespace_iff_whitespace_text line).mp h) hn
    · intro h
      exact all_whitespace_of_comment_only line h
  · intro body hb
    cases hres : all_whitespace ([47, 42] ++ body) with
    | false => rfl
    | true =>
      exfalso
      have e : [47, 42] ++ body = 47 :: 42 :: body := by simp
      have h47 : ISSPACE 47 = false := by decide
      unfold all_whitespace at hres
      rw [e, all_whitespace_from] at hres
      simp only [h47, Bool.false_eq_true, if_false, and_self, if_true] at hres
      obtain ⟨b, r, e2, _, _⟩ := all_whitespace_block_inv body hres
      exact hb ⟨b, r, e2.symm⟩

/-- Instance of C28: a block comment, a blank and a line comment. -/
theorem C28_all_whitespace_language_witness :
    0 ∉ bytes "/* a */ -- b" ∧ all_whitespace (bytes "/* a */ -- b") = true ∧
      WhitespaceText (bytes "/* a */ -- b") :=
  ⟨by decide, by decide,
    (C28_all_whitespace_language (bytes "/* a */ -- b") (by decide)).1.mp (by decide)⟩

/-! ## The output and the line count only grow -/

theorem grows_refl (a : Dump) : Grows a a := ⟨le_refl _, List.prefix_refl _⟩

theorem grows_trans {a b c : Dump} (h1 : Grows a b) (h2 : Grows b c) : Grows a c :=
  ⟨le_trans h1.1 h2.1, h1.2.trans h2.2⟩

theorem grows_write (a : Dump) (t : Text) (n : Int) (ex : List Text) (hn : a.nlines ≤ n) :
    Grows a { out := a.out ++ t, nlines := n, executed := ex } :=
  ⟨hn, List.prefix_append _ _⟩

theorem table_dump_rows_grows (fputs_ret : Int) (dd : DUMP_DATA) (rows : List Text) :
    ∀ st : Dump, Grows st (table_dump_rows fputs_ret dd st rows) := by
  induction rows with
  | nil => intro st; exact grows_refl st
  | cons row rest ih =>
    intro st
    rw [table_dump_rows]
    refine grows_trans ?_ (ih _)
    constructor
    · dsimp only
      split_ifs <;> first
        | omega
        | (dsimp only; omega)
    · dsimp only
      split_ifs <;> simp only [List.append_assoc] <;> exact List.prefix_append _ _

theorem table_dump_grows (fputs_ret : Int) (engine : Nat → Text → QueryResult)
    (dd : DUMP_DATA) (st : Dump) (q : Option Text) :
    Grows st (table_dump fputs_ret engine dd st q).1 := by
  cases q with
  | none => exact grows_refl st
  | some query =>
    unfold table_dump
    dsimp only
    split_ifs
    · exact ⟨le_refl _, List.prefix_refl _⟩
    · exact grows_trans ⟨le_refl _, List.prefix_refl _⟩ (table_dump_rows_grows _ _ _ _)

theorem dump_cb_schema_grows (fputs_ret : Int) (table_info : Text → Option TableInfo)
    (dd : DUMP_DATA) (st : Dump) (table sql : Text) :
    Grows st (dump_cb_schema fputs_ret table_info dd st table sql).1 := by
  unfold dump_cb_schema
  split_ifs
  all_goals first
    | exact grows_refl st
    | (constructor
       · dsimp only
         omega
       · simp only [List.append_assoc]
         exact List.prefix_append _ _)
    | skip
  all_goals
    cases h : (table_info_query table).bind table_info with
    | none => exact grows_refl st
    | some info =>
      dsimp only
      split_ifs
      · exact grows_refl st
      · split
        · constructor
          · dsimp only
            omega
          · simp only [List.append_assoc]
            exact List.prefix_append _ _
        · exact grows_refl st

theorem dump_cb_data_grows (fputs_ret : Int) (table_info : Text → Option TableInfo)
    (engine : Nat → Text → QueryResult) (dd : DUMP_DATA) (st : Dump) (table type : Text) :
    Grows st (dump_cb_data fputs_ret table_info engine dd st table type).1 := by
  unfold dump_cb_data
  split_ifs
  · cases (table_info_query table).bind table_info with
    | none => exact grows_refl st
    | some info =>
      dsimp only
      split_ifs
      · exact grows_refl st
      · have h1 : Grows st (match (dump_cb_queries dd table info.rows).1 with
            | some hdr => (table_dump fputs_ret engine dd st (some hdr)).1
            | none => st) := by
          split
          · exact table_dump_grows _ _ _ _ _
          · exact grows_refl st
        split
        · exact h1
        · split_ifs
          · exact grows_trans h1
              (grows_trans (table_dump_grows _ _ _ _ _) (table_dump_grows _ _ _ _ _))
          · exact grows_trans h1 (table_dump_grows _ _ _ _ _)
  · exact grows_refl st

theorem dump_cb_grows (fputs_ret : Int) (table_info : Text → Option TableInfo)
    (engine : Nat → Text → QueryResult) (dd : DUMP_DATA) (st : Dump) (nargs : Int)
    (table type sql : Text) :
    Grows st (dump_cb fputs_ret table_info engine dd st nargs table type sql).1 := by
  unfold dump_cb
  split_ifs
  · exact grows_refl st
  · have h := dump_cb_schema_grows fputs_ret table_info dd st table sql
    split
    · rename_i st2 rc heq
      rw [heq] at h
      exact h
    · rename_i st2 heq
      rw [heq] at h
      exact grows_trans h (dump_cb_data_grows _ _ _ _ _ _ _)

theorem exec_rows_grows (fputs_ret : Int) (table_info : Text → Option TableInfo)
    (engine : Nat → Text → QueryResult) (dd : DUMP_DATA) (rows : List (Text × Text × Text)) :
    ∀ st : Dump, Grows st (exec_rows fputs_ret table_info engine dd st rows).1 := by
  induction rows with
  | nil => intro st; exact grows_refl st
  | cons row rest ih =>
    intro st
    rw [exec_rows]
    split_ifs
    · exact dump_cb_grows _ _ _ _ _ _ _ _ _
    · exact grows_trans (dump_cb_grows _ _ _ _ _ _ _ _ _) (ih _)

theorem exec_dump_cb_grows (fputs_ret : Int) (table_info : Text → Option TableInfo)
    (engine : Nat → Text → QueryResult) (dd : DUMP_DATA) (st : Dump) (res : CatalogResult) :
    Grows st (exec_dump_cb fputs_ret table_info engine dd st res).1 := by
  unfold exec_dump_cb
  dsimp only
  split_ifs <;> exact exec_rows_grows _ _ _ _ _ _

theorem schema_dump_grows (fputs_ret : Int) (table_info : Text → Option TableInfo)
    (engine : Nat → Text → QueryResult) (catalog : Nat → Text → CatalogResult)
    (dd : DUMP_DATA) (w : Walk) (q : Option Text) :
    Grows w.dump (schema_dump fputs_ret table_info engine catalog dd w q).1.dump := by
  cases q with
  | none => exact grows_refl _
  | some q =>
    unfold schema_dump
    dsimp only
    split_ifs
    · exact grows_trans (exec_dump_cb_grows _ _ _ _ _ _) (exec_dump_cb_grows _ _ _ _ _ _)
    · exact exec_dump_cb_grows _ _ _ _ _ _

theorem format_dump_grows (mprintf : Text → List (Option Text) → Option Text)
    (fputs_ret : Int) (table_info : Text → Option TableInfo)
    (engine : Nat → Text → QueryResult) (catalog : Nat → Text → CatalogResult)
    (dd : DUMP_DATA) (w : Walk) (fmt : Text) (a1 a2 : List (Option Text)) :
    Grows w.dump
      (match mprintf fmt a1 with
        | some sql => (schema_dump fputs_ret table_info engine catalog dd w (mprintf sql a2)).1
        | none => w).dump := by
  split
  · exact schema_dump_grows _ _ _ _ _ _ _
  · exact grows_refl _

theorem export_jobs_plain (E : Engine) (args : List Value) :
    export_jobs E false args = args.map (fun t => (sqlite3_value_text E t, none)) := by
  induction args with
  | nil => rfl
  | cons t rest ih =>
    cases rest with
    | nil => rfl
    | cons x r =>
      rw [export_jobs]
      simp only [Bool.false_eq_true, if_false, List.map_cons]
      rw [ih]
      rfl

theorem export_select_eq (mode : Int) (wh : Option Text) (table : Text) (cols : List Column)
    (hne : cols ≠ []) :
    (dump_cb_queries (export_dd mode wh) table cols).2
      = some (export_select mode wh table cols) := by
  have hq : 0 ≤ (mode / 256) % 4 := by omega
  rw [dump_cb_select_sql (export_dd mode wh) table cols hq hne]
  unfold export_dd export_select
  dsimp only
  by_cases h : mode % 2 = 0
  · cases wh <;> simp [h]
  · cases wh <;> simp [h]

theorem dump_cb_hdr_none (dd : DUMP_DATA) (table : Text) (cols : List Column)
    (hq : 0 ≤ dd.quote_mode) : (dump_cb_queries dd table cols).1 = none := by
  have h1 : ¬ dd.quote_mode < -1 := by omega
  have h2 : ¬ dd.quote_mode < 0 := by omega
  have h3 : ¬ dd.quote_mode = -1 := by omega
  unfold dump_cb_queries
  simp only [h1, h2, h3, if_false, false_and]

theorem table_dump_plain (fputs_ret : Int) (engine : Nat → Text → QueryResult)
    (rows : Text → List Text) (dd : DUMP_DATA) (st : Dump) (q : Text)
    (hq : 0 ≤ dd.quote_mode)
    (heng : ∀ k q, engine k q
      = { prepare_rc := SQLITE_OK, stmt := true, rows := rows q, finalize_rc := SQLITE_OK }) :
    (table_dump fputs_ret engine dd st (some q)).1.out = st.out ++ sql_rows (rows q) ∧
      (table_dump fputs_ret engine dd st (some q)).1.executed = st.executed ++ [q] ∧
      (table_dump fputs_ret engine dd st (some q)).2 = SQLITE_OK := by
  have h1 : dd.quote_mode ≥ 0 := hq
  have h2 : ¬ dd.quote_mode = -1 := by omega
  have h3 : dd.quote_mode ≥ -1 := by omega
  have e : bytes ";\n" = [59, 10] := by decide
  unfold table_dump
  simp only [heng, ne_eq, not_true_eq_false, Bool.true_eq_false, or_self, if_false,
    table_dump_rows_out, table_dump_rows_executed, h1, h2, h3, if_true, sql_rows, e]
  simp

theorem dump_cb_plain (fputs_ret : Int) (table_info : Text → Option TableInfo)
    (engine : Nat → Text → QueryResult) (rows : Text → List Text) (dd : DUMP_DATA) (st : Dump)
    (t sql : Text) (info : TableInfo) (select : Text)
    (hq : 0 ≤ dd.quote_mode)
    (hti : ∀ q, table_info q = some info) (hrc : info.rc = SQLITE_OK)
    (ht : t.take 7 ≠ bytes "sqlite_") (hsql : sql.take 20 ≠ bytes "CREATE VIRTUAL TABLE")
    (hsel : (dump_cb_queries dd t info.rows).2 = some select)
    (heng : ∀ k q, engine k q
      = { prepare_rc := SQLITE_OK, stmt := true, rows := rows q, finalize_rc := SQLITE_OK }) :
    (dump_cb fputs_ret table_info engine dd st 3 t (bytes "table") sql).1.out
        = st.out ++ (if dd.with_schema ≠ 0 then sql ++ bytes ";\n" else [])
          ++ sql_rows (rows select) ∧
      (dump_cb fputs_ret table_info engine dd st 3 t (bytes "table") sql).1.executed
        = st.executed ++ [select] ∧
      (dump_cb fputs_ret table_info engine dd st 3 t (bytes "table") sql).2 = 0 := by
  have h1 : t ≠ bytes "sqlite_sequence" := by
    rintro rfl
    exact ht (by decide)
  have h2 : t ≠ bytes "sqlite_stat1" := by
    rintro rfl
    exact ht (by decide)
  have hi : (table_info_query t).bind table_info = some info := by
    rw [table_info_query_eq]
    exact hti _
  have hcont : (dump_cb_schema fputs_ret table_info dd st t sql).2 = none :=
    dump_cb_schema_continues fputs_ret table_info dd st t sql info (Or.inr (Or.inr ht)) hi hrc
  rw [dump_cb_eq_data fputs_ret table_info engine dd st t (bytes "table") sql hcont]
  have hs1 : (dump_cb_schema fputs_ret table_info dd st t sql).1.out
      = st.out ++ (if dd.with_schema ≠ 0 then sql ++ bytes ";\n" else []) := by
    unfold dump_cb_schema
    simp only [h1, h2, ht, hsql, if_false]
    split_ifs <;> simp
  have hs2 := dump_cb_schema_executed fputs_ret table_info dd st t sql
  generalize (dump_cb_schema fputs_ret table_info dd st t sql).1 = s1 at hs1 hs2 ⊢
  have hh := dump_cb_hdr_none dd t info.rows hq
  have hne : SQLITE_OK ≠ SQLITE_CORRUPT := by decide
  have htd := table_dump_plain fputs_ret engine rows dd s1 select hq heng
  unfold dump_cb_data
  simp only [true_or, if_true, hi, hrc, ne_eq, not_true_eq_false, if_false, hh, hsel, htd.2.2,
    hne, htd.1, htd.2.1, hs1, hs2, and_self, and_true]

theorem schema_dump_plain (fputs_ret : Int) (table_info : Text → Option TableInfo)
    (engine : Nat → Text → QueryResult) (catalog : Nat → Text → CatalogResult)
    (rows : Text → List Text) (dd : DUMP_DATA) (w : Walk)
    (t sql : Text) (info : TableInfo) (select q : Text)
    (hq : 0 ≤ dd.quote_mode)
    (hcat : ∀ k q, catalog k q = { rows := [(t, bytes "table", sql)], rc := SQLITE_OK })
    (hti : ∀ q, table_info q = some info) (hrc : info.rc = SQLITE_OK)
    (ht : t.take 7 ≠ bytes "sqlite_") (hsql : sql.take 20 ≠ bytes "CREATE VIRTUAL TABLE")
    (hsel : (dump_cb_queries dd t info.rows).2 = some select)
    (heng : ∀ k q, engine k q
      = { prepare_rc := SQLITE_OK, stmt := true, rows := rows q, finalize_rc := SQLITE_OK }) :
    (schema_dump fputs_ret table_info engine catalog dd w (some q)).1.dump.out
        = w.dump.out ++ (if dd.with_schema ≠ 0 then sql ++ bytes ";\n" else [])
          ++ sql_rows (rows select) ∧
      (schema_dump fputs_ret table_info engine catalog dd w (some q)).1.dump.executed
        = w.dump.executed ++ [select] ∧
      (schema_dump fputs_ret table_info engine catalog dd w (some q)).1.catalog
        = w.catalog ++ [q] := by
  have hd := dump_cb_plain fputs_ret table_info engine rows dd w.dump t sql info select hq hti
    hrc ht hsql hsel heng
  have hne : SQLITE_OK ≠ SQLITE_CORRUPT := by decide
  unfold schema_dump exec_dump_cb
  simp only [hcat, exec_rows, hd.2.2, ne_eq, not_true_eq_false, if_false, Bool.false_eq_true,
    hne, hd.1, hd.2.1, and_self]

theorem export_table_plain (fputs_ret : Int) (table_info : Text → Option TableInfo)
    (engine : Nat → Text → QueryResult) (catalog : Nat → Text → CatalogResult)
    (rows : Text → List Text) (mode : Int) (w : Walk) (job : Option Text × Option Text)
    (t sql : Text) (info : TableInfo)
    (hcat : ∀ k q, catalog k q = { rows := [(t, bytes "table", sql)], rc := SQLITE_OK })
    (hti : ∀ q, table_info q = some info) (hrc : info.rc = SQLITE_OK)
    (hcols : info.rows ≠ [])
    (ht : t.take 7 ≠ bytes "sqlite_") (hsql : sql.take 20 ≠ bytes "CREATE VIRTUAL TABLE")
    (heng : ∀ k q, engine k q
      = { prepare_rc := SQLITE_OK, stmt := true, rows := rows q, finalize_rc := SQLITE_OK }) :
    (export_table fputs_ret table_info engine catalog mode w job).catalog
        = w.catalog ++ [bytes "SELECT name, type, sql FROM sqlite_master WHERE tbl_name LIKE "
            ++ fmt_Q job.1 ++ bytes " AND type = 'table' AND sql NOT NULL"] ∧
      (export_table fputs_ret table_info engine catalog mode w job).dump.executed
        = w.dump.executed ++ export_select mode job.2 t info.rows ::
            (if mode % 2 = 0 then
              [bytes ("SELECT sql FROM sqlite_master WHERE sql NOT NULL" ++
                  " AND type IN ('index','trigger','view') AND tbl_name LIKE ")
                ++ fmt_Q job.1]
            else []) ∧
      (export_table fputs_ret table_info engine catalog mode w job).dump.out
        = w.dump.out ++ ((if mode % 2 = 0 then sql ++ bytes ";\n" else [])
            ++ sql_rows (rows (export_select mode job.2 t info.rows))
            ++ (if mode % 2 = 0 then
                sql_rows (rows (bytes ("SELECT sql FROM sqlite_master WHERE sql NOT NULL" ++
                    " AND type IN ('index','trigger','view') AND tbl_name LIKE ")
                  ++ fmt_Q job.1))
              else [])) := by
  have hq : 0 ≤ (export_dd mode job.2).quote_mode := by
    show 0 ≤ (mode / 256) % 4
    omega
  have hs := schema_dump_plain fputs_ret table_info engine catalog rows (export_dd mode job.2) w
    t sql info (export_select mode job.2 t info.rows)
    (bytes "SELECT name, type, sql FROM sqlite_master WHERE tbl_name LIKE "
      ++ fmt_Q job.1 ++ bytes " AND type = 'table' AND sql NOT NULL")
    hq hcat hti hrc ht hsql (export_select_eq mode job.2 t info.rows hcols) heng
  have hw : (export_dd mode job.2).with_schema = if mode % 2 ≠ 0 then 0 else 1 := rfl
  unfold export_table
  by_cases hm : mode % 2 = 0
  · have hw1 : (export_dd mode job.2).with_schema ≠ 0 := by
      rw [hw]
      simp [hm]
    have htd := table_dump_plain fputs_ret engine rows (export_dd mode job.2)
      (schema_dump fputs_ret table_info engine catalog (export_dd mode job.2) w
        (some (bytes "SELECT name, type, sql FROM sqlite_master WHERE tbl_name LIKE "
          ++ fmt_Q job.1 ++ bytes " AND type = 'table' AND sql NOT NULL"))).1.dump
      (bytes ("SELECT sql FROM sqlite_master WHERE sql NOT NULL" ++
          " AND type IN ('index','trigger','view') AND tbl_name LIKE ")
        ++ fmt_Q job.1) hq heng
    simp only [hw1, ne_eq, not_false_eq_true, if_true, hs.2.2, htd.1, htd.2.1, hs.1, hs.2.1, hm]
    simp
  · have hw1 : (export_dd mode job.2).with_schema = 0 := by
      rw [hw]
      simp [hm]
    simp only [hw1, ne_eq, not_true_eq_false, if_false, hs.2.2, hs.1, hs.2.1, hm]
    simp

theorem export_all_plain (fputs_ret : Int) (table_info : Text → Option TableInfo)
    (engine : Nat → Text → QueryResult) (catalog : Nat → Text → CatalogResult)
    (rows : Text → List Text) (mode : Int) (w : Walk)
    (t sql : Text) (info : TableInfo)
    (hcat : ∀ k q, catalog k q = { rows := [(t, bytes "table", sql)], rc := SQLITE_OK })
    (hti : ∀ q, table_info q = some info) (hrc : info.rc = SQLITE_OK)
    (hcols : info.rows ≠ [])
    (ht : t.take 7 ≠ bytes "sqlite_") (hsql : sql.take 20 ≠ bytes "CREATE VIRTUAL TABLE")
    (heng : ∀ k q, engine k q
      = { prepare_rc := SQLITE_OK, stmt := true, rows := rows q, finalize_rc := SQLITE_OK }) :
    (export_all fputs_ret table_info engine catalog mode w).catalog
        = w.catalog
          ++ [bytes "SELECT name, type, sql FROM sqlite_master WHERE sql NOT NULL AND type = 'table'"] ∧
      (export_all fputs_ret table_info engine catalog mode w).dump.executed
        = w.dump.executed ++ export_select mode none t info.rows ::
            (if mode % 2 = 0 then
              [bytes ("SELECT sql FROM sqlite_master WHERE sql NOT NULL" ++
                  " AND type IN ('index','trigger','view')")]
            else []) ∧
      (export_all fputs_ret table_info engine catalog mode w).dump.out
        = w.dump.out ++ ((if mode % 2 = 0 then sql ++ bytes ";\n" else [])
            ++ sql_rows (rows (export_select mode none t info.rows))
            ++ (if mode % 2 = 0 then
                sql_rows (rows (bytes ("SELECT sql FROM sqlite_master WHERE sql NOT NULL" ++
                    " AND type IN ('index','trigger','view')")))
              else [])) := by
  have hq : 0 ≤ (export_dd mode none).quote_mode := by
    show 0 ≤ (mode / 256) % 4
    omega
  have hs := schema_dump_plain fputs_ret table_info engine catalog rows (export_dd mode none) w
    t sql info (export_select mode none t info.rows)
    (bytes "SELECT name, type, sql FROM sqlite_master WHERE sql NOT NULL AND type = 'table'")
    hq hcat hti hrc ht hsql (export_select_eq mode none t info.rows hcols) heng
  have hw : (export_dd mode none).with_schema = if mode % 2 ≠ 0 then 0 else 1 := rfl
  unfold export_all
  by_cases hm : mode % 2 = 0
  · have hw1 : (export_dd mode none).with_schema ≠ 0 := by
      rw [hw]
      simp [hm]
    have htd := table_dump_plain fputs_ret engine rows (export_dd mode none)
      (schema_dump fputs_ret table_info engine catalog (export_dd mode none) w
        (some (bytes
          "SELECT name, type, sql FROM sqlite_master WHERE sql NOT NULL AND type = 'table'"))).1.dump
      (bytes ("SELECT sql FROM sqlite_master WHERE sql NOT NULL" ++
          " AND type IN ('index','trigger','view')")) hq heng
    simp only [hw1, ne_eq, not_false_eq_true, if_true, hs.2.2, htd.1, htd.2.1, hs.1, hs.2.1, hm]
    simp
  · have hw1 : (export_dd mode none).with_schema = 0 := by
      rw [hw]
      simp [hm]
    simp only [hw1, ne_eq, not_true_eq_false, if_false, hs.2.2, hs.1, hs.2.1, hm]
    simp

theorem export_tables_plain (fputs_ret : Int) (table_info : Text → Option TableInfo)
    (engine : Nat → Text → QueryResult) (catalog : Nat → Text → CatalogResult)
    (rows : Text → List Text) (mode : Int)
    (t sql : Text) (info : TableInfo)
    (hcat : ∀ k q, catalog k q = { rows := [(t, bytes "table", sql)], rc := SQLITE_OK })
    (hti : ∀ q, table_info q = some info) (hrc : info.rc = SQLITE_OK)
    (hcols : info.rows ≠ [])
    (ht : t.take 7 ≠ bytes "sqlite_") (hsql : sql.take 20 ≠ bytes "CREATE VIRTUAL TABLE")
    (heng : ∀ k q, engine k q
      = { prepare_rc := SQLITE_OK, stmt := true, rows := rows q, finalize_rc := SQLITE_OK }) :
    ∀ (jobs : List (Option Text × Option Text)) (w : Walk),
      (jobs.foldl (export_table fputs_ret table_info engine catalog mode) w).catalog
          = w.catalog ++ jobs.map (fun j =>
              bytes "SELECT name, type, sql FROM sqlite_master WHERE tbl_name LIKE "
                ++ fmt_Q j.1 ++ bytes " AND type = 'table' AND sql NOT NULL") ∧
        (jobs.foldl (export_table fputs_ret table_info engine catalog mode) w).dump.executed
          = w.dump.executed ++ jobs.flatMap (fun j =>
              export_select mode j.2 t info.rows ::
                (if mode % 2 = 0 then
                  [bytes ("SELECT sql FROM sqlite_master WHERE sql NOT NULL" ++
                      " AND type IN ('index','trigger','view') AND tbl_name LIKE ")
                    ++ fmt_Q j.1]
                else [])) ∧
        (jobs.foldl (export_table fputs_ret table_info engine catalog mode) w).dump.out
          = w.dump.out ++ jobs.flatMap (fun j =>
              (if mode % 2 = 0 then sql ++ bytes ";\n" else [])
                ++ sql_rows (rows (export_select mode j.2 t info.rows))
                ++ (if mode % 2 = 0 then
                    sql_rows (rows (bytes ("SELECT sql FROM sqlite_master WHERE sql NOT NULL" ++
                        " AND type IN ('index','trigger','view') AND tbl_name LIKE ")
                      ++ fmt_Q j.1))
                  else [])) := by
  intro jobs
  induction jobs with
  | nil =>
    intro w
    simp
  | cons j rest ih =>
    intro w
    have h1 := export_table_plain fputs_ret table_info engine catalog rows mode w j t sql info
      hcat hti hrc hcols ht hsql heng
    have h2 := ih (export_table fputs_ret table_info engine catalog mode w j)
    simp only [List.foldl_cons, List.map_cons, List.flatMap_cons]
    rw [h2.1, h2.2.1, h2.2.2, h1.1, h1.2.1, h1.2.2]
    simp

theorem export_jobs_pairs (E : Engine) :
    ∀ (n : Nat) (names : List Value), names.length ≤ n →
      (export_jobs E true names).length = (names.length + 1) / 2 ∧
      ∀ i : Nat, 2 * i < names.length →
        (export_jobs E true names)[i]?
          = some (sqlite3_value_text E (names.getD (2 * i) Value.null),
              (names[2 * i + 1]?).bind (fun x => (sqlite3_value_text E x).map cstr)) := by
  intro n
  induction n with
  | zero =>
    intro names h
    have e : names = [] := List.length_eq_zero.mp (Nat.le_zero.mp h)
    subst e
    exact ⟨rfl, fun i hi => absurd hi (by simp)⟩
  | succ n ih =>
    intro names h
    match names, h with
    | [], _ => exact ⟨rfl, fun i hi => absurd hi (by simp)⟩
    | [a], _ =>
      refine ⟨by simp [export_jobs], fun i hi => ?_⟩
      have e : i = 0 := by
        simp only [List.length_singleton] at hi
        omega
      subst e
      simp [export_jobs]
    | a :: b :: rest, h =>
      have hl : rest.length ≤ n := by
        simp only [List.length_cons] at h
        omega
      have e : export_jobs E true (a :: b :: rest)
          = (sqlite3_value_text E a, (sqlite3_value_text E b).map cstr)
              :: export_jobs E true rest := by
        rw [export_jobs]
        simp
      rw [e]
      refine ⟨?_, fun i hi => ?_⟩
      · simp only [List.length_cons, (ih rest hl).1]
        omega
      · cases i with
        | zero => simp
        | succ i =>
          have hi2 : 2 * i < rest.length := by
            simp only [List.length_cons] at hi
            omega
          have e2 : 2 * (i + 1) = (2 * i + 1) + 1 := by ring
          have e3 : 2 * (i + 1) + 1 = (2 * i + 1 + 1) + 1 := by ring
          rw [List.getElem?_cons_succ, (ih rest hl).2 i hi2, e3, e2]
          simp only [List.getD_cons_succ, List.getElem?_cons_succ]

/-- Claim C22: `export_sql` takes its mode from the second argument and, on a
database whose catalog answers with one ordinary table, runs per table name the
catalog query and the data query of closed form `export_select`, whose INSERT
literal and column list follow bit 0 and whose `quote_sql` calls carry the
dialect `(mode >> 8) & 3`; the CREATE statement is written, and the query for
indexes, triggers and views run, exactly when bit 0 is clear; a filter clause
is read after each table name exactly when bit 1 is set; the mode values 0,
256, 512 and 768 give the dialects 0, 1, 2 and 3; without a table name all
tables are dumped, and without a mode argument the mode is 0. -/
theorem C22_export_mode (E : Engine) (fopen : Text → Bool) (fputs_ret : Int)
    (table_info : Text → Option TableInfo) (engine : Nat → Text → QueryResult)
    (catalog : Nat → Text → CatalogResult) (rows : Text → List Text)
    (f m : Value) (names : List Value) (t sql : Text) (info : TableInfo)
    (hopen : opens E fopen [f] = true)
    (hcat : ∀ k q, catalog k q = { rows := [(t, bytes "table", sql)], rc := SQLITE_OK })
    (hti : ∀ q, table_info q = some info) (hrc : info.rc = SQLITE_OK)
    (hcols : info.rows ≠ [])
    (ht : t.take 7 ≠ bytes "sqlite_") (hsql : sql.take 20 ≠ bytes "CREATE VIRTUAL TABLE")
    (heng : ∀ k q, engine k q
      = { prepare_rc := SQLITE_OK, stmt := true, rows := rows q, finalize_rc := SQLITE_OK }) :
    (names ≠ [] →
      (export_func E fopen fputs_ret table_info engine catalog (f :: m :: names)).catalog
        = (export_jobs E (decide ((E.value_int m / 2) % 2 ≠ 0)) names).map (fun j =>
            bytes "SELECT name, type, sql FROM sqlite_master WHERE tbl_name LIKE "
              ++ fmt_Q j.1 ++ bytes " AND type = 'table' AND sql NOT NULL") ∧
      (export_func E fopen fputs_ret table_info engine catalog (f :: m :: names)).dump.executed
        = (export_jobs E (decide ((E.value_int m / 2) % 2 ≠ 0)) names).flatMap (fun j =>
            export_select (E.value_int m) j.2 t info.rows ::
              (if E.value_int m % 2 = 0 then
                [bytes ("SELECT sql FROM sqlite_master WHERE sql NOT NULL" ++
                    " AND type IN ('index','trigger','view') AND tbl_name LIKE ")
                  ++ fmt_Q j.1]
              else [])) ∧
      (export_func E fopen fputs_ret table_info engine catalog (f :: m :: names)).dump.out
        = bytes "BEGIN TRANSACTION;\n"
          ++ (export_jobs E (decide ((E.value_int m / 2) % 2 ≠ 0)) names).flatMap (fun j =>
            (if E.value_int m % 2 = 0 then sql ++ bytes ";\n" else [])
              ++ sql_rows (rows (export_select (E.value_int m) j.2 t info.rows))
              ++ (if E.value_int m % 2 = 0 then
                  sql_rows (rows (bytes ("SELECT sql FROM sqlite_master WHERE sql NOT NULL" ++
                      " AND type IN ('index','trigger','view') AND tbl_name LIKE ")
                    ++ fmt_Q j.1))
                else []))
          ++ bytes "COMMIT;\n") ∧
    ((export_func E fopen fputs_ret table_info engine catalog [f, m]).catalog
        = [bytes "SELECT name, type, sql FROM sqlite_master WHERE sql NOT NULL AND type = 'table'"] ∧
      (export_func E fopen fputs_ret table_info engine catalog [f, m]).dump.executed
        = export_select (E.value_int m) none t info.rows ::
            (if E.value_int m % 2 = 0 then
              [bytes ("SELECT sql FROM sqlite_master WHERE sql NOT NULL" ++
                  " AND type IN ('index','trigger','view')")]
            else []) ∧
      (export_func E fopen fputs_ret table_info engine catalog [f, m]).dump.out
        = bytes "BEGIN TRANSACTION;\n"
          ++ ((if E.value_int m % 2 = 0 then sql ++ bytes ";\n" else [])
            ++ sql_rows (rows (export_select (E.value_int m) none t info.rows))
            ++ (if E.value_int m % 2 = 0 then
                sql_rows (rows (bytes ("SELECT sql FROM sqlite_master WHERE sql NOT NULL" ++
                    " AND type IN ('index','trigger','view')")))
              else []))
          ++ bytes "COMMIT;\n") ∧
    ((export_func E fopen fputs_ret table_info engine catalog [f]).dump.executed
        = [export_select 0 none t info.rows,
            bytes ("SELECT sql FROM sqlite_master WHERE sql NOT NULL" ++
              " AND type IN ('index','trigger','view')")] ∧
      (export_func E fopen fputs_ret table_info engine catalog [f]).dump.out
        = bytes "BEGIN TRANSACTION;\n" ++ (sql ++ bytes ";\n")
          ++ sql_rows (rows (export_select 0 none t info.rows))
          ++ sql_rows (rows (bytes ("SELECT sql FROM sqlite_master WHERE sql NOT NULL" ++
              " AND type IN ('index','trigger','view')")))
          ++ bytes "COMMIT;\n") ∧
    ((E.value_int m / 2) % 2 = 0 →
      export_jobs E (decide ((E.value_int m / 2) % 2 ≠ 0)) names
        = names.map (fun v => (sqlite3_value_text E v, none))) ∧
    ((E.value_int m / 2) % 2 ≠ 0 →
      (export_jobs E (decide ((E.value_int m / 2) % 2 ≠ 0)) names).length
        = (names.length + 1) / 2 ∧
      ∀ i : Nat, 2 * i < names.length →
        (export_jobs E (decide ((E.value_int m / 2) % 2 ≠ 0)) names)[i]?
          = some (sqlite3_value_text E (names.getD (2 * i) Value.null),
              (names[2 * i + 1]?).bind (fun x => (sqlite3_value_text E x).map cstr))) ∧
    (∀ (wh : Option Text) (table : Text) (cols : List Column), cols ≠ [] →
      (dump_cb_queries (export_dd (E.value_int m) wh) table cols).2
        = some (export_select (E.value_int m) wh table cols)) ∧
    (∀ wh : Option Text,
      ((export_dd (E.value_int m) wh).with_schema ≠ 0 ↔ E.value_int m % 2 = 0) ∧
      (export_dd (E.value_int m) wh).quote_mode = (E.value_int m / 256) % 4 ∧
      (0 ≤ (export_dd (E.value_int m) wh).quote_mode ∧
        (export_dd (E.value_int m) wh).quote_mode ≤ 3) ∧
      (export_dd (E.value_int m) wh).where_ = wh ∧ (export_dd (E.value_int m) wh).indent = 0 ∧
      (export_dd 0 wh).quote_mode = 0 ∧ (export_dd 256 wh).quote_mode = 1 ∧
      (export_dd 512 wh).quote_mode = 2 ∧ (export_dd 768 wh).quote_mode = 3) := by
  have hstart : ∃ name, filename_arg E [f] = some name ∧ fopen (cstr name) = true := by
    unfold opens at hopen
    cases hf : filename_arg E [f] with
    | none => rw [hf] at hopen; exact absurd hopen (by simp)
    | some name =>
      rw [hf] at hopen
      exact ⟨name, rfl, hopen⟩
  obtain ⟨name, hf, hfo⟩ := hstart
  refine ⟨?_, ?_, ?_, ?_, ?_, ?_, ?_⟩
  · intro hn
    obtain ⟨a, tl, rfl⟩ := List.exists_cons_of_ne_nil hn
    have e : filename_arg E (f :: m :: a :: tl) = filename_arg E [f] := rfl
    have hl : ¬ (f :: m :: a :: tl).length ≤ 2 := by
      simp only [List.length_cons]
      omega
    have hp := export_tables_plain fputs_ret table_info engine catalog rows (E.value_int m)
      t sql info hcat hti hrc hcols ht hsql heng
      (export_jobs E (decide ((E.value_int m / 2) % 2 ≠ 0)) (a :: tl))
      { dump :=
          { out := bytes "BEGIN TRANSACTION;\n", nlines := if fputs_ret ≥ 0 then 1 else 0,
            executed := [] }
        catalog := [] }
    unfold export_func
    rw [e, hf]
    simp only [hfo, Bool.not_true, Bool.false_eq_true, if_false, hl, List.drop_succ_cons,
      List.drop_zero]
    refine ⟨?_, ?_, ?_⟩
    · rw [hp.1]
      simp
    · rw [hp.2.1]
      simp
    · rw [hp.2.2]
  · have e : filename_arg E [f, m] = filename_arg E [f] := rfl
    have hl : [f, m].length ≤ 2 := by simp
    have hp := export_all_plain fputs_ret table_info engine catalog rows (E.value_int m)
      { dump :=
          { out := bytes "BEGIN TRANSACTION;\n", nlines := if fputs_ret ≥ 0 then 1 else 0,
            executed := [] }
        catalog := [] }
      t sql info hcat hti hrc hcols ht hsql heng
    unfold export_func
    rw [e, hf]
    simp only [hfo, Bool.not_true, Bool.false_eq_true, if_false, hl, if_true]
    refine ⟨?_, ?_, ?_⟩
    · rw [hp.1]
      simp
    · rw [hp.2.1]
      simp
    · rw [hp.2.2]
  · have hl : [f].length ≤ 2 := by simp
    have hp := export_all_plain fputs_ret table_info engine catalog rows 0
      { dump :=
          { out := bytes "BEGIN TRANSACTION;\n", nlines := if fputs_ret ≥ 0 then 1 else 0,
            executed := [] }
        catalog := [] }
      t sql info hcat hti hrc hcols ht hsql heng
    unfold export_func
    rw [hf]
    simp only [hfo, Bool.not_true, Bool.false_eq_true, if_false, hl, if_true]
    refine ⟨?_, ?_⟩
    · rw [hp.2.1]
      simp
    · rw [hp.2.2]
      simp
  · intro h
    simp only [h, ne_eq, not_true_eq_false, decide_False]
    exact export_jobs_plain E names
  · intro h
    simp only [h, ne_eq, not_false_eq_true, decide_True]
    exact export_jobs_pairs E names.length names (Nat.le_refl _)
  · intro wh table cols hne
    exact export_select_eq (E.value_int m) wh table cols hne
  · intro wh
    have hq : 0 ≤ (E.value_int m / 256) % 4 ∧ (E.value_int m / 256) % 4 ≤ 3 := by omega
    refine ⟨?_, rfl, hq, rfl, rfl, rfl, rfl, rfl, rfl⟩
    unfold export_dd
    dsimp only
    by_cases h : E.value_int m % 2 = 0
    · rw [if_neg (not_not.mpr h)]
      exact ⟨fun _ => h, fun _ => by decide⟩
    · rw [if_pos h]
      exact ⟨fun c => absurd rfl c, fun c => absurd c h⟩

set_option maxRecDepth 8000 in
/-- Instance of C22: mode 771 (data only, filter clauses, MySQL dialect) on
table `A(a, b)` with the filter clause `WHERE a > 1`. -/
theorem C22_export_mode_witness :
    (opens intEngine (fun _ => true) [Value.text (bytes "out.sql")] = true ∧
      (∀ (k : Nat) (q : Text), sample_catalog k q
        = { rows := [(bytes "A", bytes "table", bytes "CREATE TABLE A(a,b)")],
            rc := SQLITE_OK }) ∧
      (∀ q : Text, sample_table_info q = some { rows := sample_columns, rc := 0 }) ∧
      sample_columns ≠ [] ∧
      (bytes "A").take 7 ≠ bytes "sqlite_" ∧
      (bytes "CREATE TABLE A(a,b)").take 20 ≠ bytes "CREATE VIRTUAL TABLE") ∧
    (export_func intEngine (fun _ => true) 1 sample_table_info
        (fun _ _ => { prepare_rc := SQLITE_OK, stmt := true, rows := [bytes "R"],
                      finalize_rc := SQLITE_OK })
        sample_catalog
        [Value.text (bytes "out.sql"), Value.integer 771, Value.text (bytes "A"),
         Value.text (bytes "WHERE a > 1")]).dump.executed
      = [bytes ("SELECT 'INSERT OR REPLACE INTO ' || '\"A\"' || ' (' || " ++
          "'\"a\"' || ',' || '\"b\"'|| ')' || ' VALUES(' || " ++
          "quote_sql(\"a\",3) || ',' || quote_sql(\"b\",3) || ')' FROM \"A\" WHERE a > 1")] ∧
    (export_func intEngine (fun _ => true) 1 sample_table_info
        (fun _ _ => { prepare_rc := SQLITE_OK, stmt := true, rows := [bytes "R"],
                      finalize_rc := SQLITE_OK })
        sample_catalog
        [Value.text (bytes "out.sql"), Value.integer 771, Value.text (bytes "A"),
         Value.text (bytes "WHERE a > 1")]).dump.out
      = bytes "BEGIN TRANSACTION;\nR;\nCOMMIT;\n" ∧
    (export_func intEngine (fun _ => true) 1 sample_table_info
        (fun _ _ => { prepare_rc := SQLITE_OK, stmt := true, rows := [bytes "R"],
                      finalize_rc := SQLITE_OK })
        sample_catalog [Value.text (bytes "out.sql")]).dump.out
      = bytes "BEGIN TRANSACTION;\nCREATE TABLE A(a,b);\nR;\nR;\nCOMMIT;\n" :=
  ⟨⟨by decide, fun _ _ => rfl, fun _ => rfl, by simp [sample_columns], by decide, by decide⟩,
    ((C22_export_mode intEngine (fun _ => true) 1 sample_table_info
      (fun _ _ => { prepare_rc := SQLITE_OK, stmt := true, rows := [bytes "R"],
                    finalize_rc := SQLITE_OK })
      sample_catalog (fun _ => [bytes "R"])
      (Value.text (bytes "out.sql")) (Value.integer 771)
      [Value.text (bytes "A"), Value.text (bytes "WHERE a > 1")]
      (bytes "A") (bytes "CREATE TABLE A(a,b)") { rows := sample_columns, rc := 0 }
      (by decide) (fun _ _ => rfl) (fun _ => rfl) rfl (by simp [sample_columns]) (by decide)
      (by decide) (fun _ _ => rfl)).1 (by simp)).2.1.trans (by decide),
    by decide, by decide⟩

/-! ## export_xml -/

theorem export_xml_loop_short (E : Engine)
    (mprintf : Text → List (Option Text) → Option Text) (fputs_ret : Int)
    (table_info : Text → Option TableInfo) (engine : Nat → Text → QueryResult)
    (catalog : Nat → Text → CatalogResult) (ind : Int) (w : Walk) (l : List Value)
    (h : l.length < 4) :
    export_xml_loop E mprintf fputs_ret table_info engine catalog ind w l = w := by
  match l, h with
  | [], _ => rfl
  | [_], _ => rfl
  | [_, _], _ => rfl
  | [_, _, _], _ => rfl
  | _ :: _ :: _ :: _ :: rest, h =>
    simp only [List.length_cons] at h
    omega

theorem export_xml_loop_tail (E : Engine)
    (mprintf : Text → List (Option Text) → Option Text) (fputs_ret : Int)
    (table_info : Text → Option TableInfo) (engine : Nat → Text → QueryResult)
    (catalog : Nat → Text → CatalogResult) (tail : List Value) (ht : tail.length < 4) :
    ∀ (k : Nat) (groups : List Value) (ind : Int) (w : Walk), groups.length = 4 * k →
      export_xml_loop E mprintf fputs_ret table_info engine catalog ind w (groups ++ tail)
        = export_xml_loop E mprintf fputs_ret table_info engine catalog ind w groups := by
  intro k
  induction k with
  | zero =>
    intro groups ind w h
    have : groups = [] := List.length_eq_zero.mp (by omega)
    subst this
    rw [List.nil_append, export_xml_loop_short _ _ _ _ _ _ _ _ tail ht]
    rfl
  | succ j ih =>
    intro groups ind w h
    match groups, h with
    | a :: b :: c :: d :: rest, h =>
      have hl : rest.length = 4 * j := by
        simp only [List.length_cons] at h
        omega
      simp only [List.cons_append]
      rw [export_xml_loop, export_xml_loop]
      exact ih rest _ _ hl
    | [], h => simp at h
    | [_], h => simp only [List.length_cons, List.length_nil] at h; omega
    | [_, _], h => simp only [List.length_cons, List.length_nil] at h; omega
    | [_, _, _], h => simp only [List.length_cons, List.length_nil] at h; omega

theorem export_xml_func_started_eq (E : Engine)
    (mprintf : Text → List (Option Text) → Option Text) (fopen : Text → Bool) (fputs_ret : Int)
    (table_info : Text → Option TableInfo) (engine : Nat → Text → QueryResult)
    (catalog : Nat → Text → CatalogResult) (f a n : Value) (rest : List Value)
    (h : opens E fopen [f] = true) :
    export_xml_func E mprintf fopen fputs_ret table_info engine catalog (f :: a :: n :: rest)
      = export_xml_loop E mprintf fputs_ret table_info engine catalog
          (if n ≠ Value.null then (if E.value_int n < 0 then 0 else E.value_int n) else 0)
          { dump := { out := [], nlines := 0, executed := [] }, catalog := [] } rest := by
  unfold opens at h
  unfold export_xml_func
  have e : filename_arg E (f :: a :: n :: rest) = filename_arg E [f] := rfl
  rw [e]
  cases hf : filename_arg E [f] with
  | none => rw [hf] at h; exact absurd h (by simp)
  | some name =>
    rw [hf] at h
    have h2 : fopen (cstr name) = true := h
    simp only [h2, Bool.not_true, Bool.false_eq_true, if_false, List.drop_succ_cons,
      List.drop_zero]

/-- Claim C25, as the code has it: after the three leading arguments
`export_xml` runs one round for each full group of four arguments (root,
item, tablename, schema), and a trailing group that is not full, such as one
whose schema argument is left out, is not processed: a call with fewer than
seven arguments writes nothing, and arguments after the last full group change
nothing.  A call with one full group and a root tag writes the root line
first and the closing line last, at the indentation given, and runs the
catalog query the formatter builds for the table name in the schema, which is
`sqlite_master` for a NULL or empty schema. -/
theorem C25_export_xml_full_groups (E : Engine)
    (mprintf : Text → List (Option Text) → Option Text) (fopen : Text → Bool) (fputs_ret : Int)
    (table_info : Text → Option TableInfo) (engine : Nat → Text → QueryResult)
    (catalog : Nat → Text → CatalogResult) (f a n root item table schema : Value) (r : Text)
    (hopen : opens E fopen [f] = true) (hn : n ≠ Value.null)
    (hind : 0 ≤ E.value_int n ∧ E.value_int n ≤ 2147483646)
    (hroot : nonempty_arg E root = some r) :
    (∀ short : List Value, short.length < 4 →
      export_xml_func E mprintf fopen fputs_ret table_info engine catalog (f :: a :: n :: short)
        = { dump := { out := [], nlines := 0, executed := [] }, catalog := [] }) ∧
    (∀ (k : Nat) (groups tail : List Value), groups.length = 4 * k → tail.length < 4 →
      export_xml_func E mprintf fopen fputs_ret table_info engine catalog
          (f :: a :: n :: (groups ++ tail))
        = export_xml_func E mprintf fopen fputs_ret table_info engine catalog
            (f :: a :: n :: groups)) ∧
    (∃ mid : Text,
      (export_xml_func E mprintf fopen fputs_ret table_info engine catalog
          [f, a, n, root, item, table, schema]).dump.out
        = indent (E.value_int n) ++ bytes "<" ++ quote_xml_str (some r) ++ bytes ">\n"
          ++ mid
          ++ indent (E.value_int n) ++ bytes "</" ++ quote_xml_str (some r) ++ bytes ">\n") ∧
    (∀ sql q : Text,
      mprintf
          (bytes ("SELECT name, type, sql FROM %s WHERE tbl_name LIKE %%Q AND" ++
            " (type = 'table' OR type = 'view') AND sql NOT NULL"))
          [some (schema_arg E schema)] = some sql →
      mprintf sql [(sqlite3_value_text E table).map cstr] = some q →
      (export_xml_func E mprintf fopen fputs_ret table_info engine catalog
          [f, a, n, root, item, table, schema]).catalog.head? = some q) ∧
    schema_arg E Value.null = bytes "sqlite_master" ∧
    schema_arg E (Value.text []) = bytes "sqlite_master" := by
  have hi : (if n ≠ Value.null then (if E.value_int n < 0 then 0 else E.value_int n) else 0)
      = E.value_int n := by
    rw [if_pos hn, if_neg (by omega)]
  have hw1 : wrap32 (E.value_int n + 1) = E.value_int n + 1 := by
    unfold wrap32
    omega
  have hw2 : wrap32 (E.value_int n + 1 - 1) = E.value_int n := by
    unfold wrap32
    omega
  refine ⟨?_, ?_, ?_, ?_, rfl, ?_⟩
  · intro short hs
    rw [export_xml_func_started_eq E mprintf fopen fputs_ret table_info engine catalog f a n
      short hopen]
    exact export_xml_loop_short _ _ _ _ _ _ _ _ short hs
  · intro k groups tail hg ht
    rw [export_xml_func_started_eq E mprintf fopen fputs_ret table_info engine catalog f a n
      _ hopen,
      export_xml_func_started_eq E mprintf fopen fputs_ret table_info engine catalog f a n
      _ hopen]
    exact export_xml_loop_tail E mprintf fputs_ret table_info engine catalog tail ht k groups _ _
      hg
  · rw [export_xml_func_started_eq E mprintf fopen fputs_ret table_info engine catalog f a n
      _ hopen, hi, export_xml_loop]
    simp only [hroot, Option.isSome_some, if_true, export_xml_loop, hw1, hw2]
    have hg := format_dump_grows mprintf fputs_ret table_info engine catalog
      { with_schema := 0, quote_mode := -2, where_ := nonempty_arg E item,
        indent := E.value_int n + 1 }
      { dump :=
          { out := [] ++ indent (E.value_int n) ++ bytes "<" ++ quote_xml_str (some r)
              ++ bytes ">\n"
            nlines := 0
            executed := [] }
        catalog := [] }
      (bytes ("SELECT name, type, sql FROM %s WHERE tbl_name LIKE %%Q AND" ++
        " (type = 'table' OR type = 'view') AND sql NOT NULL"))
      [some (schema_arg E schema)] [(sqlite3_value_text E table).map cstr]
    obtain ⟨mid, hmid⟩ := hg.2
    refine ⟨mid, ?_⟩
    rw [← hmid]
    simp only [List.nil_append, List.append_assoc]
  · intro sql q h1 h2
    rw [export_xml_func_started_eq E mprintf fopen fputs_ret table_info engine catalog f a n
      _ hopen, hi, export_xml_loop]
    simp only [hroot, h1, h2, export_xml_loop, schema_dump]
    split_ifs <;> simp
  · simp [schema_arg, nonempty_arg, sqlite3_value_text, cstr]

set_option maxRecDepth 8000 in
/-- Instance of the amended C25: the documented call with the schema written
out as NULL, on a database with the table `A` and one row. -/
theorem C25_export_xml_full_groups_witness :
    (opens intEngine (fun _ => true) [Value.text (bytes "out.xml")] = true ∧
      Value.integer 2 ≠ Value.null ∧
      (0 ≤ intEngine.value_int (Value.integer 2) ∧
        intEngine.value_int (Value.integer 2) ≤ 2147483646) ∧
      nonempty_arg intEngine (Value.text (bytes "TBL_A")) = some (bytes "TBL_A")) ∧
    (export_xml_func intEngine sample_mprintf (fun _ => true) 1 sample_table_info
        (rows_once (bytes "   <ROW>\n    <a TYPE=\"INTEGER\">1</a>\n   </ROW>\n"))
        sample_catalog
        [Value.text (bytes "out.xml"), Value.integer 0, Value.integer 2,
         Value.text (bytes "TBL_A"), Value.text (bytes "ROW"), Value.text (bytes "A"),
         Value.null])
      = { dump :=
            { out := bytes ("  <TBL_A>\n   <ROW>\n    <a TYPE=\"INTEGER\">1</a>\n   </ROW>\n" ++
                "  </TBL_A>\n")
              nlines := 1
              executed :=
                [bytes ("SELECT indent_xml(3) || '<' || quote_xml(\"ROW\",-1) || '>\n' || " ++
                  "indent_xml(4)|| '<' || quote_xml('a',-1) || quote_xml(\"a\",1) || " ++
                  "'</' || quote_xml('a',-1) || '>\n' || " ++
                  "indent_xml(4)|| '<' || quote_xml('b',-1) || quote_xml(\"b\",1) || " ++
                  "'</' || quote_xml('b',-1) || '>\n'  || indent_xml(3) || '</' || " ++
                  "quote_xml(\"ROW\",-1) || '>\n' FROM \"A\"")] }
          catalog :=
            [bytes ("SELECT name, type, sql FROM sqlite_master WHERE tbl_name LIKE 'A' AND" ++
              " (type = 'table' OR type = 'view') AND sql NOT NULL")] } ∧
    (export_xml_func intEngine sample_mprintf (fun _ => true) 1 sample_table_info
        (rows_once (bytes "   <ROW>\n    <a TYPE=\"INTEGER\">1</a>\n   </ROW>\n"))
        sample_catalog
        [Value.text (bytes "out.xml"), Value.integer 0, Value.integer 2,
         Value.text (bytes "TBL_A"), Value.text (bytes "ROW"), Value.text (bytes "A"),
         Value.null]).catalog.head?
      = some (bytes ("SELECT name, type, sql FROM sqlite_master WHERE tbl_name LIKE 'A' AND" ++
          " (type = 'table' OR type = 'view') AND sql NOT NULL")) :=
  ⟨⟨by decide, by decide, ⟨by decide, by decide⟩, by decide⟩, by decide,
    (C25_export_xml_full_groups intEngine sample_mprintf (fun _ => true) 1 sample_table_info
      (rows_once (bytes "   <ROW>\n    <a TYPE=\"INTEGER\">1</a>\n   </ROW>\n"))
      sample_catalog (Value.text (bytes "out.xml")) (Value.integer 0) (Value.integer 2)
      (Value.text (bytes "TBL_A")) (Value.text (bytes "ROW")) (Value.text (bytes "A"))
      Value.null (bytes "TBL_A") (by decide) (by decide) ⟨by decide, by decide⟩
      (by decide)).2.2.2.1
      (bytes ("SELECT name, type, sql FROM sqlite_master WHERE tbl_name LIKE %Q AND" ++
        " (type = 'table' OR type = 'view') AND sql NOT NULL"))
      (bytes ("SELECT name, type, sql FROM sqlite_master WHERE tbl_name LIKE 'A' AND" ++
        " (type = 'table' OR type = 'view') AND sql NOT NULL"))
      (by decide) (by decide)⟩

set_option maxRecDepth 8000 in
/-- Claim C25 as stated fails: the documented call with six arguments,
`export_xml('out.xml', 0, 2, 'TBL_A', 'ROW', 'A')`, on a database with the
table `A` and one row, writes nothing, so its output does not start with the
root line, and it runs no catalog query. -/
theorem C25_counterexample :
    export_xml_func intEngine sample_mprintf (fun _ => true) 1 sample_table_info
        (rows_once (bytes "   <ROW>\n    <a TYPE=\"INTEGER\">1</a>\n   </ROW>\n"))
        sample_catalog
        [Value.text (bytes "out.xml"), Value.integer 0, Value.integer 2,
         Value.text (bytes "TBL_A"), Value.text (bytes "ROW"), Value.text (bytes "A")]
      = { dump := { out := [], nlines := 0, executed := [] }, catalog := [] } ∧
    ¬ (bytes "  <TBL_A>\n" <+:
      (export_xml_func intEngine sample_mprintf (fun _ => true) 1 sample_table_info
        (rows_once (bytes "   <ROW>\n    <a TYPE=\"INTEGER\">1</a>\n   </ROW>\n"))
        sample_catalog
        [Value.text (bytes "out.xml"), Value.integer 0, Value.integer 2,
         Value.text (bytes "TBL_A"), Value.text (bytes "ROW"),
         Value.text (bytes "A")]).dump.out) := by
  decide

/-! ## Export followed by import -/

theorem cstr_idem (t : Text) : cstr (cstr t) = cstr t := by
  unfold cstr
  induction t with
  | nil => rfl
  | cons c rest ih =>
    by_cases h : (c != 0) = true
    · simp only [List.takeWhile_cons, h, if_true, ih]
    · simp only [List.takeWhile_cons, h, Bool.false_eq_true, if_false, List.takeWhile_nil]

/-- Claim C27, at an input where the code departs from it: the TEXT branch of
`quote_func` reads the value as a C string, so it encodes the three-byte text
`a`, NUL, `b` as `'a'`, the same literal as for the text `a`.  A table with
the one row (`a` NUL `b`) and a table with the one row (`a`) give the same
INSERT line, so whatever the import does with the script it cannot give back
both: no function of the line returns the row for every row. -/
theorem C27_text_cut_at_nul :
    quote_func intEngine true [Value.text [97, 0, 98]] = Outcome.text (bytes "'a'") ∧
    quote_func intEngine true [Value.text [97]] = Outcome.text (bytes "'a'") ∧
    (∀ (E : Engine) (t : Text) (rest : List Value),
      quote_func E true (Value.text t :: rest)
        = quote_func E true (Value.text (cstr t) :: rest)) ∧
    sql_line intEngine (bytes "t") [Value.text [97, 0, 98]]
      = some (bytes "INSERT INTO \"t\" VALUES('a')") ∧
    sql_line intEngine (bytes "t") [Value.text [97]]
      = some (bytes "INSERT INTO \"t\" VALUES('a')") ∧
    ¬ ∃ read_back : Text → List Value, ∀ (cells : List Value) (line : Text),
        sql_line intEngine (bytes "t") cells = some line → read_back line = cells := by
  refine ⟨by decide, by decide, ?_, by decide, by decide, ?_⟩
  · intro E t rest
    simp only [quote_func, sqlite3_value_text, quote_text_case, cstr_idem]
  · rintro ⟨f, hf⟩
    have h1 := hf [Value.text [97, 0, 98]] (bytes "INSERT INTO \"t\" VALUES('a')") (by decide)
    have h2 := hf [Value.text [97]] (bytes "INSERT INTO \"t\" VALUES('a')") (by decide)
    rw [h1] at h2
    exact absurd h2 (by decide)

/-! ## The nested quoting of names -/

theorem name_fragment_eq (s name : Text) :
    (match append true none (some name) 34 with
      | some tmp => append true (some s) (some tmp) 39
      | none => some s)
      = some (s ++ quoted 39 (quoted 34 name)) := by
  rw [append_quote _ _ 34 (by decide)]
  simp only [Option.getD_none, Option.getD_some, List.nil_append]
  rw [append_quote _ _ 39 (by decide)]
  simp only [Option.getD_some]

theorem unquote_quoted (q : Nat) (t : Text) : unquote q (quoted q t) = some t :=
  unquote_doubled q t

/-- Claim C31: the fragment that `dump_cb` embeds in the SQL-mode SELECT for
the table name and for every column name is the name wrapped in double quotes
with its double quotes doubled, wrapped again in single quotes with the single
quotes doubled; removing the single quotes and collapsing the doubled ones
gives the double-quoted identifier, and doing the same with the double quotes
gives the name back, whatever bytes the name holds. -/
theorem C31_name_fragment_round_trip (dd : DUMP_DATA) (table : Text) (cols : List Column)
    (hq : 0 ≤ dd.quote_mode) (hne : cols ≠ []) :
    (dump_cb_queries dd table cols).2 = some (
      (if dd.with_schema ≠ 0 then bytes "SELECT 'INSERT INTO ' || "
        else bytes "SELECT 'INSERT OR REPLACE INTO ' || ")
      ++ quoted 39 (quoted 34 table)
      ++ (if dd.with_schema = 0 then
            bytes " || ' (' || "
              ++ sep_join (bytes " || ',' || ")
                  (cols.map (fun c => quoted 39 (quoted 34 (c.name.getD []))))
              ++ bytes "|| ')'"
          else [])
      ++ bytes " || ' VALUES(' || "
      ++ sep_join (bytes " || ',' || ") (cols.map (quote_sql_call dd.quote_mode))
      ++ bytes " || ')' FROM " ++ quoted 34 table
      ++ (match dd.where_ with
          | some w => bytes " " ++ w
          | none => [])) ∧
    (∀ s name : Text, 0 ∉ name →
      (match append true none (some name) 34 with
        | some tmp => append true (some s) (some tmp) 39
        | none => some s)
        = some (s ++ quoted 39 (quoted 34 name)) ∧
      unquote 39 (quoted 39 (quoted 34 name)) = some (quoted 34 name) ∧
      unquote 34 (quoted 34 name) = some name ∧
      (unquote 39 (quoted 39 (quoted 34 name))).bind (unquote 34) = some name) := by
  constructor
  · have hf : (fun c : Column => quoted 39 (quoted 34 (c.name.getD []))) = name_literal := rfl
    rw [hf]
    exact dump_cb_select_sql dd table cols hq hne
  · intro s name _
    refine ⟨name_fragment_eq s name, unquote_quoted 39 _, unquote_quoted 34 _, ?_⟩
    rw [unquote_quoted 39]
    exact unquote_quoted 34 name

/-- Instance of C31: the table name `a'b"c`, which holds both quotes. -/
theorem C31_name_fragment_round_trip_witness :
    ((0 : Int) ≤ 0 ∧ sample_columns ≠ [] ∧ 0 ∉ bytes "a'b\"c") ∧
    quoted 39 (quoted 34 (bytes "a'b\"c")) = bytes "'\"a''b\"\"c\"'" ∧
    (unquote 39 (bytes "'\"a''b\"\"c\"'")).bind (unquote 34) = some (bytes "a'b\"c") :=
  ⟨⟨by decide, by simp [sample_columns], by decide⟩, by decide,
    (congrArg (fun f => (unquote 39 f).bind (unquote 34))
      (by decide : bytes "'\"a''b\"\"c\"'" = quoted 39 (quoted 34 (bytes "a'b\"c")))).trans
      ((C31_name_fragment_round_trip ⟨0, 0, none, 0⟩ (bytes "t") sample_columns
        (by decide) (by simp [sample_columns])).2 [] (bytes "a'b\"c") (by decide)).2.2.2⟩

/-! ## Indentation of the XML output -/

theorem dd0_read_export_func (stack : DUMP_DATA) (mode : Int) (wh : Option Text) :
    dd0_read stack (export_func_dd0 mode wh) = export_dd mode wh := rfl

theorem dd0_read_impexp (stack : DUMP_DATA) (mode : Int) (wh : Option Text) :
    dd0_read stack (impexp_export_sql_dd0 mode wh)
      = { export_dd mode wh with quote_mode := stack.quote_mode, indent := stack.indent } :=
  rfl

theorem dd0_read_impexp_eq (stack : DUMP_DATA) (mode : Int) (wh : Option Text)
    (hq : stack.quote_mode = (mode / 256) % 4) (hi : stack.indent = 0) :
    dd0_read stack (impexp_export_sql_dd0 mode wh) = export_dd mode wh := by
  rw [dd0_read_impexp, hq, hi]
  rfl

theorem impexp_table_eq (fputs_ret : Int) (table_info : Text → Option TableInfo)
    (engine : Nat → Text → QueryResult) (catalog : Nat → Text → CatalogResult)
    (stack : DUMP_DATA) (mode : Int) (w : Walk) (t : Text) (wh : Option Text)
    (hq : stack.quote_mode = (mode / 256) % 4) (hi : stack.indent = 0) :
    impexp_table fputs_ret table_info engine catalog stack mode w (t, wh)
      = export_table fputs_ret table_info engine catalog mode w (some t, wh) := by
  unfold impexp_table export_table
  simp only [dd0_read_impexp_eq stack mode wh hq hi]

theorem impexp_all_eq (fputs_ret : Int) (table_info : Text → Option TableInfo)
    (engine : Nat → Text → QueryResult) (catalog : Nat → Text → CatalogResult)
    (stack : DUMP_DATA) (mode : Int) (w : Walk)
    (hq : stack.quote_mode = (mode / 256) % 4) (hi : stack.indent = 0) :
    impexp_all fputs_ret table_info engine catalog stack mode w
      = export_all fputs_ret table_info engine catalog mode w := by
  unfold impexp_all export_all
  simp only [dd0_read_impexp_eq stack mode none hq hi]

theorem export_jobs_impexp_jobs (E : Engine) (step2 : Bool) :
    ∀ (n : Nat) (names : List Text), names.length ≤ n → (∀ x ∈ names, 0 ∉ x) →
      export_jobs E step2 (names.map Value.text)
        = (impexp_jobs step2 (names.map some ++ [none])).map (fun j => (some j.1, j.2)) := by
  intro n
  induction n with
  | zero =>
    intro names h _
    have : names = [] := List.length_eq_zero.mp (by omega)
    subst this
    rfl
  | succ k ih =>
    intro names h h0
    match names, h, h0 with
    | [], _, _ => rfl
    | [t], _, _ =>
      cases step2 <;> rfl
    | t :: x :: rest, h, h0 =>
      have hl : rest.length + 2 ≤ k + 1 := by simpa using h
      have hx : cstr x = x := cstr_of_no_nul x (h0 x (by simp))
      have hr : ∀ y ∈ rest, 0 ∉ y := fun y hy => h0 y (by simp [hy])
      have hxr : ∀ y ∈ x :: rest, 0 ∉ y := fun y hy => h0 y (List.mem_cons_of_mem _ hy)
      simp only [List.map_cons, List.cons_append]
      rw [export_jobs, impexp_jobs]
      cases step2 with
      | true =>
        simp only [if_true, List.map_cons, sqlite3_value_text, Option.map_some', hx]
        rw [ih rest (by omega) hr]
      | false =>
        simp only [Bool.false_eq_true, if_false, List.map_cons, sqlite3_value_text]
        have := ih (x :: rest) (by simp only [List.length_cons]; omega) hxr
        simp only [List.map_cons, List.cons_append] at this
        rw [this]

/-- When the memory of `dd0` happens to hold the dialect `(mode >> 8) & 3` in
`quote_mode` and 0 in `indent`, `impexp_export_sql` runs the dump that
`export_func` runs on the same filename, mode and names. -/
theorem impexp_export_sql_refines (E : Engine) (fopen : Text → Bool) (fputs_ret : Int)
    (table_info : Text → Option TableInfo) (engine : Nat → Text → QueryResult)
    (catalog : Nat → Text → CatalogResult) (stack : DUMP_DATA) (filename : Text)
    (m : Value) (mode : Int) (names : List Text)
    (hm : E.value_int m = mode) (h0 : ∀ x ∈ names, 0 ∉ x)
    (hq : stack.quote_mode = (mode / 256) % 4) (hi : stack.indent = 0) :
    impexp_export_sql stack true fopen fputs_ret table_info engine catalog (some filename) mode
        (names.map some ++ [none])
      = export_func E fopen fputs_ret table_info engine catalog
          (Value.text filename :: m :: names.map Value.text) := by
  have hf : filename_arg E (Value.text filename :: m :: names.map Value.text)
      = some filename := by
    simp [filename_arg, sqlite3_value_text]
  unfold impexp_export_sql export_func
  rw [hf]
  simp only [Bool.not_true, Bool.false_eq_true, if_false, hm]
  cases hop : fopen (cstr filename) with
  | false => simp
  | true =>
    simp only [Bool.not_true, Bool.false_eq_true, if_false]
    cases names with
    | nil =>
      simp only [List.map_nil, List.nil_append, List.length_cons, List.length_nil]
      rw [impexp_all_eq _ _ _ _ stack mode _ hq hi]
      simp
    | cons t rest =>
      have hlen : ¬ (Value.text filename :: m :: List.map Value.text (t :: rest)).length ≤ 2 := by
        simp
      have hj := export_jobs_impexp_jobs E (decide ((mode / 2) % 2 ≠ 0)) (t :: rest).length
        (t :: rest) (le_refl _) h0
      have hfun : (fun (w : Walk) (j : Text × Option Text) =>
          export_table fputs_ret table_info engine catalog mode w (some j.1, j.2))
          = impexp_table fputs_ret table_info engine catalog stack mode := by
        funext w j
        exact (impexp_table_eq fputs_ret table_info engine catalog stack mode w j.1 j.2
          hq hi).symm
      simp only [hlen, if_false, List.drop_succ_cons, List.drop_zero, hj, List.foldl_map, hfun]
      simp only [List.map_cons, List.cons_append]

set_option maxRecDepth 8000 in
/-- Claim C32, at an input where the code departs from it: no statement of
`impexp_export_sql` assigns `dd->quote_mode` or `dd->indent`, which
`export_func` sets to `(mode >> 8) & 3` and 0, so the walker reads whatever the
memory of the local holds.  For mode 768 (MySQL dialect) `export_func` runs
the data query with `quote_sql("a",3)`; `impexp_export_sql` runs it with
`quote_sql("a")` when that memory holds 0, and builds the CSV query and writes
CSV rows between BEGIN and COMMIT when it holds -1. -/
theorem C32_impexp_export_sql_quote_mode_unassigned :
    (∀ (mode : Int) (wh : Option Text),
      (impexp_export_sql_dd0 mode wh).quote_mode = none ∧
      (impexp_export_sql_dd0 mode wh).indent = none ∧
      (export_func_dd0 mode wh).quote_mode = some ((mode / 256) % 4) ∧
      (export_func_dd0 mode wh).indent = some 0 ∧
      (impexp_export_sql_dd0 mode wh).with_schema = (export_func_dd0 mode wh).with_schema ∧
      (impexp_export_sql_dd0 mode wh).where_ = (export_func_dd0 mode wh).where_) ∧
    (∀ (stack : DUMP_DATA) (mode : Int) (wh : Option Text),
      dd0_read stack (export_func_dd0 mode wh) = export_dd mode wh ∧
      dd0_read stack (impexp_export_sql_dd0 mode wh)
        = { export_dd mode wh with quote_mode := stack.quote_mode, indent := stack.indent } ∧
      ((dd0_read stack (impexp_export_sql_dd0 mode wh)).quote_mode
          = (export_dd mode wh).quote_mode ↔ stack.quote_mode = (mode / 256) % 4)) ∧
    (export_func intEngine (fun _ => true) 1 sample_table_info
        (rows_once (bytes "INSERT INTO \"A\" VALUES(1,x'00')")) sample_catalog
        [Value.text (bytes "out.sql"), Value.integer 768]).dump.executed
      = [bytes ("SELECT 'INSERT INTO ' || '\"A\"' || ' VALUES(' || " ++
          "quote_sql(\"a\",3) || ',' || quote_sql(\"b\",3) || ')' FROM \"A\""),
         bytes ("SELECT sql FROM sqlite_master WHERE sql NOT NULL" ++
          " AND type IN ('index','trigger','view')")] ∧
    (impexp_export_sql ⟨0, 0, none, 0⟩ true (fun _ => true) 1 sample_table_info
        (rows_once (bytes "INSERT INTO \"A\" VALUES(1,X'00')")) sample_catalog
        (some (bytes "out.sql")) 768 [none]).dump.executed
      = [bytes ("SELECT 'INSERT INTO ' || '\"A\"' || ' VALUES(' || " ++
          "quote_sql(\"a\") || ',' || quote_sql(\"b\") || ')' FROM \"A\""),
         bytes ("SELECT sql FROM sqlite_master WHERE sql NOT NULL" ++
          " AND type IN ('index','trigger','view')")] ∧
    (impexp_export_sql ⟨0, -1, none, 0⟩ true (fun _ => true) 1 sample_table_info
        (rows_once (bytes "1,2")) sample_catalog (some (bytes "out.sql")) 768 [none]).dump
      = { out := bytes "BEGIN TRANSACTION;\nCREATE TABLE A(a,b);\n1,2\r\nCOMMIT;\n"
          nlines := 4
          executed :=
            [bytes "SELECT quote_csv(\"a\") || ',' || quote_csv(\"b\") FROM \"A\"",
             bytes ("SELECT sql FROM sqlite_master WHERE sql NOT NULL" ++
              " AND type IN ('index','trigger','view')")] } := by
  refine ⟨fun _ _ => ⟨rfl, rfl, rfl, rfl, rfl, rfl⟩, ?_, by decide, by decide, by decide⟩
  intro stack mode wh
  exact ⟨rfl, rfl, Iff.rfl⟩

end Impexp
